import Mathlib

/-!
# Mailtrap Terraform provider: transport and reconciler models

A shallow embedding of `internal/client/client.go` (base-URL routing in
`doRequest`, error extraction in `handleResponse`) and of the `Create`
operations of `internal/provider/resource_*.go`, followed by theorems about
what that code does.

Go strings are byte sequences, so they are modelled as lists of bytes: `len`
is `List.length`, `s[:n]` is `List.take` guarded by the bounds check the Go
runtime performs, `==` is list equality.
-/

namespace Mailtrap

/-! ## Go strings -/

/-- A Go `string` / `[]byte`: a finite sequence of bytes. -/
abbrev GoString := List UInt8

/-- The bytes (UTF-8) of a source-code string literal. -/
def lit (s : String) : GoString := s.data.flatMap String.utf8EncodeChar

/-- Rendering of an integer by the `%d` verb: optional minus sign, decimal digits. -/
def fmtInt (n : Int) : GoString := lit (toString n)

/-- Result of running a Go function that returns `(T, error)` and may also
stop with a run-time panic. -/
inductive Outcome (α : Type) where
  | ok (a : α)
  | err (msg : GoString)
  | panic
  deriving DecidableEq, Repr

/-- The slice expression `s[:n]`: the first `n` bytes, and a run-time panic
("slice bounds out of range") when `n > len(s)`. -/
def sliceTo (s : GoString) (n : Nat) : Outcome GoString :=
  if n ≤ s.length then .ok (s.take n) else .panic

/-! ## client.go: constants and the client -/

def defaultBaseURL : GoString := lit "https://mailtrap.io"

def sendingAPIURL : GoString := lit "https://send.api.mailtrap.io"

def sandboxAPIURL : GoString := lit "https://sandbox.api.mailtrap.io"

/-- The fields of `Client` that request construction reads. -/
structure Client where
  baseURL : GoString
  apiToken : GoString
  deriving DecidableEq, Repr

def NewClient (apiToken : GoString) : Client :=
  { baseURL := defaultBaseURL, apiToken := apiToken }

def Client.SetBaseURL (c : Client) (baseURL : GoString) : Client :=
  { c with baseURL := baseURL }

/-- Lines 54-59 of `doRequest`: the base URL chosen for an endpoint.
The second test slices `endpoint[:10]` with no length check of its own. -/
def selectBaseURL (c : Client) (endpoint : GoString) : Outcome GoString :=
  if endpoint = lit "/api/send" ∨ endpoint = lit "/api/batch" then
    .ok sendingAPIURL
  else
    match sliceTo endpoint 10 with
    | .ok p => if p = lit "/api/send/" then .ok sandboxAPIURL else .ok c.baseURL
    | .err m => .err m
    | .panic => .panic

/-- The base-URL selection written out in `TestDoRequest_EndpointRouting`
(client_test.go, lines 278-283): the prefix rule is guarded by `len > 10`. -/
def testSelectBaseURL (c : Client) (endpoint : GoString) : GoString :=
  if endpoint = lit "/api/send" ∨ endpoint = lit "/api/batch" then
    sendingAPIURL
  else if endpoint.length > 10 ∧ endpoint.take 10 = lit "/api/send/" then
    sandboxAPIURL
  else
    c.baseURL

/-- An outgoing HTTP request as `doRequest` assembles it. -/
structure Request where
  method : GoString
  url : GoString
  headers : List (GoString × GoString)
  body : Option GoString
  deriving DecidableEq, Repr

/-- The standard-library calls `doRequest` makes, each of which may return
an error: `url.JoinPath`, the validation done by `http.NewRequest`, and the
round trip `httpClient.Do`. `ρ` is what a round trip yields. -/
structure Net (ρ : Type) where
  joinPath : GoString → GoString → Except GoString GoString
  newRequest : GoString → GoString → Except GoString Unit
  roundTrip : Request → Except GoString ρ

/-- The part of `doRequest` after the base URL is known (lines 61-80). -/
def sendVia {ρ : Type} (net : Net ρ) (c : Client) (method endpoint : GoString)
    (reqBody : Option GoString) (baseURL : GoString) : Outcome ρ :=
  match net.joinPath baseURL endpoint with
  | .error e => .err (lit "failed to construct URL: " ++ e)
  | .ok fullURL =>
    match net.newRequest method fullURL with
    | .error e => .err (lit "failed to create request: " ++ e)
    | .ok () =>
      let req : Request :=
        { method := method, url := fullURL, body := reqBody,
          headers := [(lit "Api-Token", c.apiToken),
                      (lit "Content-Type", lit "application/json"),
                      (lit "Accept", lit "application/json")] }
      match net.roundTrip req with
      | .error e => .err (lit "failed to execute request: " ++ e)
      | .ok resp => .ok resp

/-- Model of `Client.doRequest`. `body` is `none` for a nil body, otherwise the result
of `json.Marshal` on it (the bytes, or the marshalling error). -/
def doRequest {ρ : Type} (net : Net ρ) (c : Client) (method endpoint : GoString)
    (body : Option (Except GoString GoString)) : Outcome ρ :=
  match body with
  | some (.error e) => .err (lit "failed to marshal request body: " ++ e)
  | some (.ok jsonBody) =>
    match selectBaseURL c endpoint with
    | .ok baseURL => sendVia net c method endpoint (some jsonBody) baseURL
    | .err m => .err m
    | .panic => .panic
  | none =>
    match selectBaseURL c endpoint with
    | .ok baseURL => sendVia net c method endpoint none baseURL
    | .err m => .err m
    | .panic => .panic

/-! ## client.go: `handleResponse` -/

/-- A JSON document as `encoding/json` reads it. A number keeps its source
text, which follows the JSON grammar: an optional minus sign, digits, an
optional fraction, an optional exponent. -/
inductive JSON where
  | null
  | bool (b : Bool)
  | num (text : GoString)
  | str (s : GoString)
  | arr (items : List JSON)
  | obj (members : List (GoString × JSON))

/-- A response body once `io.ReadAll` has returned it: the raw bytes, and the
JSON document those bytes denote (`none` when `encoding/json` does not accept
them as valid JSON, which includes the empty body). -/
structure Payload where
  raw : GoString
  doc : Option JSON

/-- An HTTP response: the status code and the outcome of reading the body
(`io.ReadAll` may fail). -/
structure Response where
  StatusCode : Int
  Body : Except GoString Payload

/-- The anonymous struct `errorResp` of `handleResponse` (lines 93-97).
`Errors` has type `interface{}`: `none` is the nil interface, `some v` the
decoded JSON value. -/
structure ErrorResp where
  Error : GoString
  Errors : Option JSON
  Message : GoString

/-- The zero value of `errorResp`. -/
def ErrorResp.zero : ErrorResp := { Error := [], Errors := none, Message := [] }

/-- The three fields of `errorResp`, by JSON tag. -/
inductive ErrField where
  | error
  | errors
  | message
  deriving DecidableEq, Repr

/-- Case folding of an object key as `encoding/json` does it when matching a
key to a struct field (`bytes.EqualFold`): ASCII letters fold to lower case,
and the two non-ASCII runes that fold to an ASCII letter, U+017F (long s,
bytes C5 BF) and U+212A (Kelvin sign, bytes E2 84 AA), fold to `s` and `k`. -/
def foldKey : GoString → GoString
  | [] => []
  | 0xC5 :: 0xBF :: rest => 0x73 :: foldKey rest
  | 0xE2 :: 0x84 :: 0xAA :: rest => 0x6B :: foldKey rest
  | b :: rest => (if 0x41 ≤ b ∧ b ≤ 0x5A then b + 0x20 else b) :: foldKey rest

/-- The field of `errorResp` an object key is decoded into: the field whose
tag equals the key exactly or up to case folding; `none` for any other key,
which the decoder skips. -/
def fieldOf (key : GoString) : Option ErrField :=
  if foldKey key = lit "error" then some .error
  else if foldKey key = lit "errors" then some .errors
  else if foldKey key = lit "message" then some .message
  else none

/-- A decimal digit. -/
def isDigitByte (b : UInt8) : Bool :=
  0x30 ≤ b ∧ b ≤ 0x39

/-- The number a run of decimal digits denotes. -/
def digitsValue (bs : GoString) : Nat :=
  bs.foldl (fun n b => n * 10 + (b.toNat - 0x30)) 0

/-- The exponent of a JSON number, from the text that follows its fraction:
0 when there is none, otherwise the integer after the letter `e` or `E` and
the optional sign. -/
def exponentOf : GoString → Int
  | [] => 0
  | _ :: 0x2D :: rest => -(digitsValue rest : Int)
  | _ :: 0x2B :: rest => (digitsValue rest : Int)
  | _ :: rest => (digitsValue rest : Int)

/-- The least magnitude that `strconv.ParseFloat(s, 64)` rounds to infinity:
the midpoint between the largest float64, (2^53 - 1) * 2^971, and 2^1024. A
magnitude below it rounds to a finite float64. -/
def float64Limit : Nat :=
  2 ^ 1024 - 2 ^ 970

/-- Whether `strconv.ParseFloat(text, 64)` returns a range error on the text
of a JSON number: the number, digits times ten to the power of the exponent
less the length of the fraction, is `float64Limit` or more in magnitude. A
number too small for a float64 is no error (it becomes 0). -/
def float64Overflows (text : GoString) : Bool :=
  let unsigned := match text with
    | 0x2D :: rest => rest
    | _ => text
  let intPart := unsigned.takeWhile isDigitByte
  let afterInt := unsigned.dropWhile isDigitByte
  let fracPart := match afterInt with
    | 0x2E :: rest => rest.takeWhile isDigitByte
    | _ => []
  let afterFrac := match afterInt with
    | 0x2E :: rest => rest.dropWhile isDigitByte
    | _ => afterInt
  let mantissa := digitsValue (intPart ++ fracPart)
  let scale : Int := exponentOf afterFrac - fracPart.length
  if scale ≥ 0 then decide (mantissa * 10 ^ scale.toNat ≥ float64Limit)
  else decide (mantissa ≥ float64Limit * 10 ^ (-scale).toNat)

mutual
/-- Whether a JSON value decodes into an `interface{}` without error. The
decoder turns every number of the value, at any depth, into a float64
(`convertNumber`), and a number out of the float64 range is an
`UnmarshalTypeError`; nothing else in a value can fail. -/
def JSON.numbersFit : JSON → Bool
  | .num text => !float64Overflows text
  | .arr items => numbersFitItems items
  | .obj members => numbersFitMembers members
  | _ => true
/-- Every element of an array fits (`JSON.numbersFit`). -/
def numbersFitItems : List JSON → Bool
  | [] => true
  | v :: rest => v.numbersFit && numbersFitItems rest
/-- Every member value of an object fits (`JSON.numbersFit`). -/
def numbersFitMembers : List (GoString × JSON) → Bool
  | [] => true
  | m :: rest => m.2.numbersFit && numbersFitMembers rest
end

/-- Decoding of one object member into `errorResp`. The flag is false once a
value has not fitted its field (`UnmarshalTypeError`); the decoder records the
error and goes on. A string field takes a JSON string, ignores `null`, and
rejects every other value; the `interface{}` field takes any value, `null`
making it nil, and fails on a value that holds a number out of the float64
range. -/
def decodeMember (acc : ErrorResp × Bool) (m : GoString × JSON) : ErrorResp × Bool :=
  match fieldOf m.1 with
  | none => acc
  | some .error =>
    match m.2 with
    | .str s => ({ acc.1 with Error := s }, acc.2)
    | .null => acc
    | _ => (acc.1, false)
  | some .message =>
    match m.2 with
    | .str s => ({ acc.1 with Message := s }, acc.2)
    | .null => acc
    | _ => (acc.1, false)
  | some .errors =>
    match m.2 with
    | .null => ({ acc.1 with Errors := none }, acc.2)
    | v => ({ acc.1 with Errors := some v }, acc.2 && v.numbersFit)

/-- Model of `json.Unmarshal(body, &errorResp)`: `none` when it returns an error (the
body is not valid JSON, the document is neither an object nor `null`, or a
member does not fit its field), otherwise the struct it filled. A top-level `null` is
accepted and leaves the struct at its zero value. -/
def unmarshalErrorResp (doc : Option JSON) : Option ErrorResp :=
  match doc with
  | none => none
  | some .null => some ErrorResp.zero
  | some (.obj members) =>
    let r := members.foldl decodeMember (ErrorResp.zero, true)
    if r.2 then some r.1 else none
  | some _ => none

/-- The comparison `errorResp.Errors != ""` (line 105): an interface value
equals the string `""` only when it holds a string, and that string is empty. -/
def errorsNeEmptyString : Option JSON → Bool
  | some (.str []) => false
  | _ => true

/-- Rendering of `errorResp.Errors` by the `%v` verb: `<nil>` for the nil
interface, a string as it is; `fmtValue` renders every other decoded value. -/
def fmtErrors (fmtValue : JSON → GoString) : Option JSON → GoString
  | none => lit "<nil>"
  | some (.str s) => s
  | some v => fmtValue v

/-- The message built by `fmt.Errorf("API error (%d): %s", status, text)`. -/
def apiError (status : Int) (text : GoString) : GoString :=
  lit "API error (" ++ fmtInt status ++ lit "): " ++ text

/-- Model of `Client.handleResponse`. `result` is `none` for a nil result pointer,
otherwise the decoding of a body into the caller's target (the value
`json.Unmarshal` stores there, or its error). The function returns the error
message, or on success the decoded value if one was stored. -/
def handleResponse {α : Type} (fmtValue : JSON → GoString) (resp : Response)
    (result : Option (Payload → Except GoString α)) : Except GoString (Option α) :=
  match resp.Body with
  | .error e => .error (lit "failed to read response body: " ++ e)
  | .ok body =>
    if resp.StatusCode ≥ 400 then
      match unmarshalErrorResp body.doc with
      | some errorResp =>
        if errorResp.Error ≠ [] then
          .error (apiError resp.StatusCode errorResp.Error)
        else if errorResp.Message ≠ [] then
          .error (apiError resp.StatusCode errorResp.Message)
        else if errorsNeEmptyString errorResp.Errors then
          .error (apiError resp.StatusCode (fmtErrors fmtValue errorResp.Errors))
        else
          .error (apiError resp.StatusCode body.raw)
      | none => .error (apiError resp.StatusCode body.raw)
    else
      match result with
      | some decode =>
        if body.raw.length > 0 then
          match decode body with
          | .error e => .error (lit "failed to unmarshal response: " ++ e)
          | .ok v => .ok (some v)
        else .ok none
      | none => .ok none

/-- An error "carries the HTTP status code" when it is one of the
`API error (<status>): ...` messages. -/
def carriesStatus (status : Int) (msg : GoString) : Prop :=
  (lit "API error (" ++ fmtInt status ++ lit "): ") <+: msg

/-! ## models.go: the remote representations the provider reads -/

namespace client

structure ShareLink where
  Admin : GoString
  Viewer : GoString
  deriving DecidableEq, Repr

structure Project where
  ID : Int
  Name : GoString
  ShareLinks : ShareLink
  deriving DecidableEq, Repr

/-- Model of `ProjectRequest`: the envelope `{"project": {"name": ...}}`. -/
structure ProjectRequest where
  Name : GoString
  deriving DecidableEq, Repr

structure Inbox where
  ID : Int
  Name : GoString
  Username : GoString
  Password : GoString
  MaxSize : Int
  Status : GoString
  EmailUsername : GoString
  EmailUsernameEnabled : Bool
  SentMessagesCount : Int
  ForwardedMessagesCount : Int
  ForwardFromEmailAddress : GoString
  ProjectID : Int
  Domain : GoString
  POP3Domain : GoString
  EmailDomain : GoString
  SMTPPorts : List Int
  POP3Ports : List Int
  deriving DecidableEq, Repr

/-- Model of `InboxRequest`: the envelope `{"inbox": {"name": ..., "email_username": ...}}`. -/
structure InboxRequest where
  Name : GoString
  EmailUsername : GoString
  deriving DecidableEq, Repr

/-- Model of `DNSRecord`; `Priority` is a `*int`, `none` being the nil pointer. -/
structure DNSRecord where
  Priority : Option Int
  RecordType : GoString
  Hostname : GoString
  Value : GoString
  Status : GoString
  deriving DecidableEq, Repr

structure DNSRecords where
  CNAME : List DNSRecord
  MX : List DNSRecord
  TXT : List DNSRecord
  deriving DecidableEq, Repr

structure DNSStatus where
  CNAME : Bool
  MX : Bool
  TXT : Bool
  deriving DecidableEq, Repr

structure SendingDomain where
  ID : Int
  Name : GoString
  CNAME : GoString
  Status : GoString
  ComplianceStatus : GoString
  DNSRecords : DNSRecords
  DNSStatus : DNSStatus
  deriving DecidableEq, Repr

/-- Model of `SendingDomainRequest`: the envelope `{"sending_domain": {"domain_name": ...}}`. -/
structure SendingDomainRequest where
  DomainName : GoString
  deriving DecidableEq, Repr

end client

/-! ## The Terraform framework values the provider handles -/

/-- A framework attribute value (`types.Int64`, `types.String`, `types.Bool`,
`types.List`, `types.Object`): null, unknown, or known. -/
inductive TFValue (α : Type) where
  | null
  | unknown
  | known (v : α)
  deriving DecidableEq, Repr

def TFValue.IsNull {α : Type} : TFValue α → Bool
  | .null => true
  | _ => false

def TFValue.IsUnknown {α : Type} : TFValue α → Bool
  | .unknown => true
  | _ => false

/-- Model of `ValueInt64()`: the known value, and 0 for null and unknown. -/
def TFValue.ValueInt64 : TFValue Int → Int
  | .known v => v
  | _ => 0

/-- Model of `ValueString()`: the known value, and `""` for null and unknown. -/
def TFValue.ValueString : TFValue GoString → GoString
  | .known v => v
  | _ => []

inductive Severity where
  | error
  | warning
  deriving DecidableEq, Repr

/-- One entry of `resp.Diagnostics`. -/
structure Diagnostic where
  severity : Severity
  summary : GoString
  detail : GoString
  deriving DecidableEq, Repr

/-- Model of `Diagnostics.HasError()`. -/
def hasError (ds : List Diagnostic) : Bool :=
  ds.any (fun d => d.severity = Severity.error)

/-- Model of `Diagnostics.AddError(summary, detail)`. -/
def addError (ds : List Diagnostic) (summary detail : GoString) : List Diagnostic :=
  ds ++ [{ severity := .error, summary := summary, detail := detail }]

/-- What a `Create` leaves behind: the transport requests it issued (method
and endpoint, in order), the diagnostics of the response, and the state
written by `resp.State.Set` (`none` when the state was not written). -/
structure CreateResult (σ : Type) where
  calls : List (GoString × GoString)
  diags : List Diagnostic
  state : Option σ

/-! ## resource_project.go -/

structure ShareLinksModel where
  Admin : TFValue GoString
  Viewer : TFValue GoString
  deriving DecidableEq, Repr

structure ProjectResourceModel where
  ID : TFValue Int
  AccountID : TFValue Int
  Name : TFValue GoString
  ShareLinks : TFValue ShareLinksModel
  deriving DecidableEq, Repr

/-- Model of `ProjectResource`: the provider-wide default account id set by
`Configure`, and the client's `Post` for this resource's payload (the error
is the message of the error `Post` returned). -/
structure ProjectResource where
  accountID : Int
  Post : GoString → client.ProjectRequest → Except GoString client.Project

/-- Model of `ProjectResource.Create`. `planDiags` and `plan` are what
`req.Plan.Get(ctx, &data)` returned and stored. The framework conversions
`types.ObjectValueFrom` (given a model that matches the attribute types, as
here) and `resp.State.Set` add no diagnostics. -/
def ProjectResource.Create (r : ProjectResource) (planDiags : List Diagnostic)
    (plan : ProjectResourceModel) : CreateResult ProjectResourceModel :=
  if hasError planDiags then
    { calls := [], diags := planDiags, state := none }
  else
    let accountID :=
      if !plan.AccountID.IsNull && !plan.AccountID.IsUnknown then plan.AccountID.ValueInt64
      else r.accountID
    if accountID = 0 then
      { calls := [],
        diags := addError planDiags (lit "Missing Account ID")
          (lit "Account ID must be provided either in the resource configuration or provider configuration"),
        state := none }
    else
      let createReq : client.ProjectRequest := { Name := plan.Name.ValueString }
      let endpoint := lit "/api/accounts/" ++ fmtInt accountID ++ lit "/projects"
      match r.Post endpoint createReq with
      | .error err =>
        { calls := [(lit "POST", endpoint)],
          diags := addError planDiags (lit "Client Error")
            (lit "Unable to create project, got error: " ++ err),
          state := none }
      | .ok project =>
        let data : ProjectResourceModel :=
          { ID := .known project.ID,
            AccountID := .known accountID,
            Name := .known project.Name,
            ShareLinks := .known
              { Admin := .known project.ShareLinks.Admin,
                Viewer := .known project.ShareLinks.Viewer } }
        { calls := [(lit "POST", endpoint)], diags := planDiags, state := some data }

/-! ## resource_inbox.go -/

structure InboxResourceModel where
  ID : TFValue Int
  AccountID : TFValue Int
  ProjectID : TFValue Int
  Name : TFValue GoString
  Username : TFValue GoString
  Password : TFValue GoString
  EmailUsername : TFValue GoString
  EmailUsernameEnabled : TFValue Bool
  Domain : TFValue GoString
  EmailDomain : TFValue GoString
  POP3Domain : TFValue GoString
  SMTPPorts : TFValue (List (TFValue Int))
  POP3Ports : TFValue (List (TFValue Int))
  Status : TFValue GoString
  MaxSize : TFValue Int
  SentMessagesCount : TFValue Int
  ForwardedMessagesCount : TFValue Int
  ForwardFromEmailAddress : TFValue GoString
  deriving DecidableEq, Repr

/-- Model of `InboxResource`: the provider-wide default account id and the client's
`Post` for this resource's payload. -/
structure InboxResource where
  accountID : Int
  Post : GoString → client.InboxRequest → Except GoString client.Inbox

/-- Model of `InboxResource.updateModelFromInbox`: every field of the model is
overwritten from the remote inbox, the account id from the argument. -/
def updateModelFromInbox (inbox : client.Inbox) (accountID : Int) : InboxResourceModel :=
  { ID := .known inbox.ID,
    AccountID := .known accountID,
    ProjectID := .known inbox.ProjectID,
    Name := .known inbox.Name,
    Username := .known inbox.Username,
    Password := .known inbox.Password,
    EmailUsername := .known inbox.EmailUsername,
    EmailUsernameEnabled := .known inbox.EmailUsernameEnabled,
    Domain := .known inbox.Domain,
    EmailDomain := .known inbox.EmailDomain,
    POP3Domain := .known inbox.POP3Domain,
    Status := .known inbox.Status,
    MaxSize := .known inbox.MaxSize,
    SentMessagesCount := .known inbox.SentMessagesCount,
    ForwardedMessagesCount := .known inbox.ForwardedMessagesCount,
    ForwardFromEmailAddress := .known inbox.ForwardFromEmailAddress,
    SMTPPorts := .known (inbox.SMTPPorts.map TFValue.known),
    POP3Ports := .known (inbox.POP3Ports.map TFValue.known) }

/-- Model of `InboxResource.Create`. `planDiags` and `plan` are what
`req.Plan.Get(ctx, &data)` returned and stored; `resp.State.Set` adds no
diagnostics. -/
def InboxResource.Create (r : InboxResource) (planDiags : List Diagnostic)
    (plan : InboxResourceModel) : CreateResult InboxResourceModel :=
  if hasError planDiags then
    { calls := [], diags := planDiags, state := none }
  else
    let accountID :=
      if !plan.AccountID.IsNull && !plan.AccountID.IsUnknown then plan.AccountID.ValueInt64
      else r.accountID
    if accountID = 0 then
      { calls := [],
        diags := addError planDiags (lit "Missing Account ID")
          (lit "Account ID must be provided either in the resource configuration or provider configuration"),
        state := none }
    else
      let createReq : client.InboxRequest :=
        { Name := plan.Name.ValueString,
          EmailUsername :=
            if !plan.EmailUsername.IsNull && !plan.EmailUsername.IsUnknown
            then plan.EmailUsername.ValueString else [] }
      let endpoint := lit "/api/accounts/" ++ fmtInt accountID ++ lit "/projects/" ++
        fmtInt plan.ProjectID.ValueInt64 ++ lit "/inboxes"
      match r.Post endpoint createReq with
      | .error err =>
        { calls := [(lit "POST", endpoint)],
          diags := addError planDiags (lit "Client Error")
            (lit "Unable to create inbox, got error: " ++ err),
          state := none }
      | .ok inbox =>
        { calls := [(lit "POST", endpoint)], diags := planDiags,
          state := some (updateModelFromInbox inbox accountID) }

/-! ## resource_sending_domain.go -/

structure DNSRecordModel where
  Priority : TFValue Int
  RecordType : TFValue GoString
  Hostname : TFValue GoString
  Value : TFValue GoString
  Status : TFValue GoString
  deriving DecidableEq, Repr

structure DNSRecordsModel where
  CNAME : TFValue (List (TFValue DNSRecordModel))
  MX : TFValue (List (TFValue DNSRecordModel))
  TXT : TFValue (List (TFValue DNSRecordModel))
  deriving DecidableEq, Repr

structure DNSStatusModel where
  CNAME : TFValue Bool
  MX : TFValue Bool
  TXT : TFValue Bool
  deriving DecidableEq, Repr

structure SendingDomainResourceModel where
  ID : TFValue Int
  AccountID : TFValue Int
  Name : TFValue GoString
  CNAME : TFValue GoString
  Status : TFValue GoString
  ComplianceStatus : TFValue GoString
  DNSRecords : TFValue DNSRecordsModel
  DNSStatus : TFValue DNSStatusModel
  deriving DecidableEq, Repr

/-- Model of `SendingDomainResource`: the provider-wide default account id and the
client's `Post` for this resource's payload. -/
structure SendingDomainResource where
  accountID : Int
  Post : GoString → client.SendingDomainRequest → Except GoString client.SendingDomain

/-- The body of each of the three loops of `convertDNSRecordsToTerraform`:
one remote record to one object value. A nil priority becomes the null
`Int64`, any other the known value. -/
def convertDNSRecord (record : client.DNSRecord) : TFValue DNSRecordModel :=
  let priority : TFValue Int :=
    match record.Priority with
    | some p => .known p
    | none => .null
  .known
    { Priority := priority,
      RecordType := .known record.RecordType,
      Hostname := .known record.Hostname,
      Value := .known record.Value,
      Status := .known record.Status }

/-- Model of `SendingDomainResource.convertDNSRecordsToTerraform`: the object and the
diagnostics it returns. The framework constructors (`types.ObjectValueFrom`,
`types.ListValue`, `types.ObjectValue`) are given values of the declared
attribute types and add no diagnostics. -/
def convertDNSRecordsToTerraform (records : client.DNSRecords) :
    TFValue DNSRecordsModel × List Diagnostic :=
  let cnameRecords := records.CNAME.map convertDNSRecord
  let mxRecords := records.MX.map convertDNSRecord
  let txtRecords := records.TXT.map convertDNSRecord
  (.known { CNAME := .known cnameRecords, MX := .known mxRecords, TXT := .known txtRecords }, [])

/-- Model of `SendingDomainResource.Create`. `planDiags` and `plan` are what
`req.Plan.Get(ctx, &data)` returned and stored; `types.ObjectValueFrom` on
the DNS status and `resp.State.Set` add no diagnostics. -/
def SendingDomainResource.Create (r : SendingDomainResource) (planDiags : List Diagnostic)
    (plan : SendingDomainResourceModel) : CreateResult SendingDomainResourceModel :=
  if hasError planDiags then
    { calls := [], diags := planDiags, state := none }
  else
    let accountID :=
      if !plan.AccountID.IsNull && !plan.AccountID.IsUnknown then plan.AccountID.ValueInt64
      else r.accountID
    if accountID = 0 then
      { calls := [],
        diags := addError planDiags (lit "Missing Account ID")
          (lit "Account ID must be provided either in the resource configuration or provider configuration"),
        state := none }
    else
      let createReq : client.SendingDomainRequest := { DomainName := plan.Name.ValueString }
      let endpoint := lit "/api/accounts/" ++ fmtInt accountID ++ lit "/sending_domains"
      match r.Post endpoint createReq with
      | .error err =>
        { calls := [(lit "POST", endpoint)],
          diags := addError planDiags (lit "Client Error")
            (lit "Unable to create sending domain, got error: " ++ err),
          state := none }
      | .ok domain =>
        let converted := convertDNSRecordsToTerraform domain.DNSRecords
        let diags := planDiags ++ converted.2
        if hasError diags then
          { calls := [(lit "POST", endpoint)], diags := diags, state := none }
        else
          let data : SendingDomainResourceModel :=
            { ID := .known domain.ID,
              AccountID := .known accountID,
              Name := .known domain.Name,
              CNAME := .known domain.CNAME,
              Status := .known domain.Status,
              ComplianceStatus := .known domain.ComplianceStatus,
              DNSRecords := converted.1,
              DNSStatus := .known
                { CNAME := .known domain.DNSStatus.CNAME,
                  MX := .known domain.DNSStatus.MX,
                  TXT := .known domain.DNSStatus.TXT } }
          { calls := [(lit "POST", endpoint)], diags := diags, state := some data }

/-! ## Notions the statements about `handleResponse` use -/

/-- A JSON value that fits a `string` field of the envelope without a
decoding error: a string, or `null`. -/
def JSON.isStringOrNull : JSON → Bool
  | .str _ => true
  | .null => true
  | _ => false

/-- The string a JSON object gives for the `error` or the `message` field:
the value of the last member bound to that field whose value is a JSON
string, and the empty string when there is none. -/
def stringField (f : ErrField) (members : List (GoString × JSON)) : GoString :=
  (members.reverse.filterMap fun m =>
    if fieldOf m.1 = some f then
      match m.2 with
      | .str s => some s
      | _ => none
    else none).head?.getD []

/-- Whether an object member fits the field of `errorResp` it is bound to: a
member bound to `error` or to `message` is a string or `null`, a member bound
to `errors` holds no number out of the float64 range; a member bound to no
field always fits. -/
def memberFits (m : GoString × JSON) : Bool :=
  match fieldOf m.1 with
  | some .error => m.2.isStringOrNull
  | some .message => m.2.isStringOrNull
  | some .errors => m.2.numbersFit
  | none => true

/-- Every member of the object fits the field it is bound to. -/
def membersFit (members : List (GoString × JSON)) : Prop :=
  ∀ m ∈ members, memberFits m = true

instance (members : List (GoString × JSON)) : Decidable (membersFit members) := by
  unfold membersFit
  infer_instance

/-- The body is one `json.Unmarshal` rejects for the error envelope: it is
not valid JSON, or it is an array, a string, a number or a boolean where the
object is expected, or an object with a member that does not fit its field
(an `error` or `message` member that is neither a string nor `null`, an
`errors` member holding a number out of the float64 range). -/
def notAnEnvelope : Option JSON → Prop
  | none => True
  | some .null => False
  | some (.obj members) => ¬ membersFit members
  | some _ => True

instance (doc : Option JSON) : Decidable (notAnEnvelope doc) := by
  unfold notAnEnvelope
  split <;> infer_instance

/-- The account id `Create` works with (the "Determine account ID" block,
identical in the three resources): the planned value when it is known,
otherwise the provider-wide default. -/
def effectiveAccountID (planned : TFValue Int) (providerDefault : Int) : Int :=
  if !planned.IsNull && !planned.IsUnknown then planned.ValueInt64 else providerDefault

/-! ## Concrete plans and remote answers, for evaluating the model -/

/-- A remote project as a successful create call returns it. -/
def sampleProject : client.Project :=
  { ID := 7, Name := lit "demo", ShareLinks := { Admin := lit "A", Viewer := lit "V" } }

/-- A remote inbox as a successful create call returns it. -/
def sampleInbox : client.Inbox :=
  { ID := 9, Name := lit "demo", Username := lit "u", Password := lit "p", MaxSize := 50,
    Status := lit "active", EmailUsername := lit "demo-box", EmailUsernameEnabled := false,
    SentMessagesCount := 0, ForwardedMessagesCount := 0, ForwardFromEmailAddress := [],
    ProjectID := 3, Domain := lit "sandbox.smtp.mailtrap.io",
    POP3Domain := lit "pop3.mailtrap.io", EmailDomain := lit "inbox.mailtrap.io",
    SMTPPorts := [25, 465, 587, 2525], POP3Ports := [1100, 9950] }

/-- The remote sending domain of the end-to-end scenario: id 5, one CNAME
record without priority, no MX or TXT record. -/
def sampleDomain : client.SendingDomain :=
  { ID := 5, Name := lit "example.com", CNAME := lit "abc.mailtrap.io",
    Status := lit "pending", ComplianceStatus := lit "pending",
    DNSRecords :=
      { CNAME := [{ Priority := none, RecordType := lit "CNAME",
                    Hostname := lit "mail.example.com", Value := lit "target",
                    Status := lit "pending" }],
        MX := [], TXT := [] },
    DNSStatus := { CNAME := false, MX := false, TXT := false } }

/-- A project plan with the given `account_id`; the computed attributes are
unknown, as in a plan for a new resource. -/
def projectPlan (accountID : TFValue Int) : ProjectResourceModel :=
  { ID := .unknown, AccountID := accountID, Name := .known (lit "demo"),
    ShareLinks := .unknown }

/-- An inbox plan with the given `account_id`, in project 3. -/
def inboxPlan (accountID : TFValue Int) : InboxResourceModel :=
  { ID := .unknown, AccountID := accountID, ProjectID := .known 3,
    Name := .known (lit "demo"), Username := .unknown, Password := .unknown,
    EmailUsername := .unknown, EmailUsernameEnabled := .unknown, Domain := .unknown,
    EmailDomain := .unknown, POP3Domain := .unknown, SMTPPorts := .unknown,
    POP3Ports := .unknown, Status := .unknown, MaxSize := .unknown,
    SentMessagesCount := .unknown, ForwardedMessagesCount := .unknown,
    ForwardFromEmailAddress := .unknown }

/-- A sending-domain plan with the given `account_id`. -/
def domainPlan (accountID : TFValue Int) : SendingDomainResourceModel :=
  { ID := .unknown, AccountID := accountID, Name := .known (lit "example.com"),
    CNAME := .unknown, Status := .unknown, ComplianceStatus := .unknown,
    DNSRecords := .unknown, DNSStatus := .unknown }


/-! ## The standard-library functions `ImportState` calls -/

/-- Model of `strings.Split(s, sep)` for a one-byte separator: the pieces of
`s` between the occurrences of `sep`, one more than there are occurrences. -/
def stringsSplit (sep : UInt8) : GoString → List GoString
  | [] => [[]]
  | b :: rest =>
    if b = sep then [] :: stringsSplit sep rest
    else
      match stringsSplit sep rest with
      | [] => [[b]]
      | piece :: pieces => (b :: piece) :: pieces

/-- The two errors of `strconv.ParseInt`: `ErrSyntax` and `ErrRange`. -/
inductive NumErr where
  | syntaxErr
  | rangeErr
  deriving DecidableEq, Repr

deriving instance DecidableEq for Except

/-- The digit loop of `strconv.ParseUint(s, 10, 64)`: each byte must be a
decimal digit, and the value must stay within 64 bits; the first failure met,
left to right, is the one returned. -/
def parseUintLoop : GoString → Nat → Except NumErr Nat
  | [], n => .ok n
  | c :: rest, n =>
    if 0x30 ≤ c ∧ c ≤ 0x39 then
      if n ≥ (2 ^ 64 - 1) / 10 + 1 then .error .rangeErr
      else
        let n1 := n * 10 + (c.toNat - 0x30)
        if n1 > 2 ^ 64 - 1 then .error .rangeErr else parseUintLoop rest n1
    else .error .syntaxErr

/-- Model of `strconv.ParseUint(s, 10, 64)`: the empty string is a syntax error. -/
def strconvParseUint (s : GoString) : Except NumErr Nat :=
  if s = [] then .error .syntaxErr else parseUintLoop s 0

/-- Model of `strconv.ParseInt(s, 10, 64)`: an optional sign `+` or `-`, then
`ParseUint` on the rest, then the range check for a signed 64-bit value. -/
def strconvParseInt (s : GoString) : Except NumErr Int :=
  match s with
  | [] => .error .syntaxErr
  | c :: rest =>
    let neg := c = 0x2D
    let digits := if c = 0x2B ∨ c = 0x2D then rest else s
    match strconvParseUint digits with
    | .error .syntaxErr => .error .syntaxErr
    | .error .rangeErr => .error .rangeErr
    | .ok un =>
      if ¬ neg ∧ un ≥ 2 ^ 63 then .error .rangeErr
      else if neg ∧ un > 2 ^ 63 then .error .rangeErr
      else .ok (if neg then -(un : Int) else (un : Int))

/-- The text of the error `strconv.ParseInt` returns for the input `s`
(`NumError.Error`); `quote` is `strconv.Quote`. -/
def numErrorText (quote : GoString → GoString) (s : GoString) : NumErr → GoString
  | .syntaxErr => lit "strconv.ParseInt: parsing " ++ quote s ++ lit ": invalid syntax"
  | .rangeErr => lit "strconv.ParseInt: parsing " ++ quote s ++ lit ": value out of range"

/-! ## `ImportState` of the three resources -/

/-- What an `ImportState` leaves behind: the diagnostics of the response and
the state attributes set by `resp.State.SetAttribute`, in order; and the
transport requests it issued, of which there are none, since no
`ImportState` calls the client. -/
structure ImportResult where
  diags : List Diagnostic
  attrs : List (GoString × Int)
  calls : List (GoString × GoString) := []
  deriving DecidableEq, Repr

/-- The body shared by the three `ImportState` functions, which differ only
in three string literals: the name of the second component in the format
message (`project_id`), the title of its diagnostic (`Invalid Project ID`) and
its name in the detail (`project ID`). `resp.State.SetAttribute` adds no
diagnostics. -/
def importState (quote : GoString → GoString) (idField idTitle idLabel : GoString)
    (reqID : GoString) : ImportResult :=
  match stringsSplit 0x2F reqID with
  | [part0, part1] =>
    match strconvParseInt part0 with
    | .error err =>
      { diags := addError [] (lit "Invalid Account ID")
          (lit "Could not parse account ID: " ++ numErrorText quote part0 err),
        attrs := [] }
    | .ok accountID =>
      match strconvParseInt part1 with
      | .error err =>
        { diags := addError [] idTitle
            (lit "Could not parse " ++ idLabel ++ lit ": " ++ numErrorText quote part1 err),
          attrs := [] }
      | .ok resourceID =>
        { diags := [], attrs := [(lit "account_id", accountID), (lit "id", resourceID)] }
  | _ =>
    { diags := addError [] (lit "Incorrect Import ID")
        (lit "Import ID must be in the format: account_id/" ++ idField),
      attrs := [] }

/-- Model of `ProjectResource.ImportState`. -/
def ProjectResource.ImportState (quote : GoString → GoString) (reqID : GoString) :
    ImportResult :=
  importState quote (lit "project_id") (lit "Invalid Project ID") (lit "project ID") reqID

/-- Model of `InboxResource.ImportState`. -/
def InboxResource.ImportState (quote : GoString → GoString) (reqID : GoString) :
    ImportResult :=
  importState quote (lit "inbox_id") (lit "Invalid Inbox ID") (lit "inbox ID") reqID

/-- Model of `SendingDomainResource.ImportState`. -/
def SendingDomainResource.ImportState (quote : GoString → GoString) (reqID : GoString) :
    ImportResult :=
  importState quote (lit "domain_id") (lit "Invalid Domain ID") (lit "domain ID") reqID

/-! ## resource_sending_domain.go: `Read`, `Update`, `Delete` -/

/-- What a `Read` or an `Update` leaves behind: the transport requests it
issued (method and endpoint, in order), the diagnostics of the response, and
the state written by `resp.State.Set` (`none` when the state was not
written). -/
structure ReadResult (σ : Type) where
  calls : List (GoString × GoString)
  diags : List Diagnostic
  state : Option σ

/-- Model of `SendingDomainResource.Read`. `Get` is the client's `Get` for
this resource's payload; `stateDiags` and `state` are what
`req.State.Get(ctx, &data)` returned and stored. `types.ObjectValueFrom` on
the DNS status and `resp.State.Set` add no diagnostics. -/
def SendingDomainResource.Read (Get : GoString → Except GoString client.SendingDomain)
    (stateDiags : List Diagnostic) (state : SendingDomainResourceModel) :
    ReadResult SendingDomainResourceModel :=
  if hasError stateDiags then
    { calls := [], diags := stateDiags, state := none }
  else
    let endpoint := lit "/api/accounts/" ++ fmtInt state.AccountID.ValueInt64 ++
      lit "/sending_domains/" ++ fmtInt state.ID.ValueInt64
    match Get endpoint with
    | .error err =>
      { calls := [(lit "GET", endpoint)],
        diags := addError stateDiags (lit "Client Error")
          (lit "Unable to read sending domain, got error: " ++ err),
        state := none }
    | .ok domain =>
      let converted := convertDNSRecordsToTerraform domain.DNSRecords
      let diags := stateDiags ++ converted.2
      if hasError diags then
        { calls := [(lit "GET", endpoint)], diags := diags, state := none }
      else
        let data : SendingDomainResourceModel :=
          { state with
            Name := .known domain.Name,
            CNAME := .known domain.CNAME,
            Status := .known domain.Status,
            ComplianceStatus := .known domain.ComplianceStatus,
            DNSRecords := converted.1,
            DNSStatus := .known
              { CNAME := .known domain.DNSStatus.CNAME,
                MX := .known domain.DNSStatus.MX,
                TXT := .known domain.DNSStatus.TXT } }
        { calls := [(lit "GET", endpoint)], diags := diags, state := some data }

/-- Model of `SendingDomainResource.Update`: a call of `Read` with the prior
state of the request; the plan of the request is not read. -/
def SendingDomainResource.Update (Get : GoString → Except GoString client.SendingDomain)
    (_planDiags : List Diagnostic) (_plan : SendingDomainResourceModel)
    (stateDiags : List Diagnostic) (state : SendingDomainResourceModel) :
    ReadResult SendingDomainResourceModel :=
  SendingDomainResource.Read Get stateDiags state

/-- The levels of `tflog` the provider writes at. -/
inductive LogLevel where
  | trace
  | warn
  deriving DecidableEq, Repr

/-- What a `Delete` leaves behind: the transport requests it issued, the
diagnostics of the response, and the entries written to the log. -/
structure DeleteResult where
  calls : List (GoString × GoString)
  diags : List Diagnostic
  logs : List (LogLevel × GoString)
  deriving DecidableEq, Repr

/-- Model of `SendingDomainResource.Delete`: the prior state is read, nothing
is sent, and `tflog.Warn` writes one log entry. -/
def SendingDomainResource.Delete (stateDiags : List Diagnostic)
    (_state : SendingDomainResourceModel) : DeleteResult :=
  if hasError stateDiags then
    { calls := [], diags := stateDiags, logs := [] }
  else
    { calls := [], diags := stateDiags,
      logs := [(.warn, lit ("Sending domains cannot be deleted via API. The domain will be " ++
        "removed from Terraform state but will remain in Mailtrap."))] }

/-! ## client.go: `Post` -/

/-- Model of `Client.Post`: `doRequest` with method POST, then `handleResponse`
on the response. -/
def Client.Post {α : Type} (net : Net Response) (fmtValue : JSON → GoString) (c : Client)
    (endpoint : GoString) (body : Option (Except GoString GoString))
    (result : Option (Payload → Except GoString α)) : Outcome (Option α) :=
  match doRequest net c (lit "POST") endpoint body with
  | .err e => .err e
  | .panic => .panic
  | .ok resp =>
    match handleResponse fmtValue resp result with
    | .error e => .err e
    | .ok v => .ok v

/-! ## Notions the statements about the reconcilers use -/

/-- The error-level entries of a list of diagnostics. -/
def errorsOf (ds : List Diagnostic) : List Diagnostic :=
  ds.filter (fun d => d.severity = Severity.error)

/-- The three categories of DNS records. -/
inductive DNSCategory where
  | cname
  | mx
  | txt
  deriving DecidableEq, Repr

/-- The remote records of a category. -/
def remoteCategory (records : client.DNSRecords) : DNSCategory → List client.DNSRecord
  | .cname => records.CNAME
  | .mx => records.MX
  | .txt => records.TXT

/-- The converted list of a category. -/
def localCategory (m : DNSRecordsModel) : DNSCategory → TFValue (List (TFValue DNSRecordModel))
  | .cname => m.CNAME
  | .mx => m.MX
  | .txt => m.TXT

/-- Reading a converted record back: the remote record it came from, when
all its strings are known; a priority that is not known reads as absent. -/
def recoverDNSRecord : TFValue DNSRecordModel → Option client.DNSRecord
  | .known m =>
    match m.RecordType, m.Hostname, m.Value, m.Status with
    | .known recordType, .known hostname, .known value, .known status =>
      some
        { Priority := match m.Priority with
            | .known p => some p
            | _ => none,
          RecordType := recordType, Hostname := hostname, Value := value, Status := status }
    | _, _, _, _ => none
  | _ => none

/-- Reading a converted list back, entry by entry. -/
def recoverDNSList : List (TFValue DNSRecordModel) → Option (List client.DNSRecord)
  | [] => some []
  | v :: vs =>
    match recoverDNSRecord v, recoverDNSList vs with
    | some r, some rs => some (r :: rs)
    | _, _ => none

/-- Reading a converted DNS-records object back. -/
def recoverDNSRecords : TFValue DNSRecordsModel → Option client.DNSRecords
  | .known m =>
    match m.CNAME, m.MX, m.TXT with
    | .known c, .known x, .known t =>
      match recoverDNSList c, recoverDNSList x, recoverDNSList t with
      | some c', some x', some t' => some { CNAME := c', MX := x', TXT := t' }
      | _, _, _ => none
    | _, _, _ => none
  | _ => none

/-- The state `Create` writes for `sampleDomain` under account 12345. -/
def sampleDomainState : SendingDomainResourceModel :=
  { ID := .known 5, AccountID := .known 12345, Name := .known (lit "example.com"),
    CNAME := .known (lit "abc.mailtrap.io"), Status := .known (lit "pending"),
    ComplianceStatus := .known (lit "pending"),
    DNSRecords := (convertDNSRecordsToTerraform sampleDomain.DNSRecords).1,
    DNSStatus := .known { CNAME := .known false, MX := .known false, TXT := .known false } }

/-- A rendering of `strconv.Quote` that is right for printable ASCII text
without quotes or backslashes: the text between double quotes. -/
def quoteASCII (s : GoString) : GoString := [0x22] ++ s ++ [0x22]

/-! ## resource_project.go: `Read`, `Update`, `Delete` -/

/-- Model of `ProjectResource.Read`. `Get` is the client's `Get` for this
resource's payload; `stateDiags` and `state` are what
`req.State.Get(ctx, &data)` returned and stored. `types.ObjectValueFrom` and
`resp.State.Set` add no diagnostics. -/
def ProjectResource.Read (Get : GoString → Except GoString client.Project)
    (stateDiags : List Diagnostic) (state : ProjectResourceModel) :
    ReadResult ProjectResourceModel :=
  if hasError stateDiags then
    { calls := [], diags := stateDiags, state := none }
  else
    let endpoint := lit "/api/accounts/" ++ fmtInt state.AccountID.ValueInt64 ++
      lit "/projects/" ++ fmtInt state.ID.ValueInt64
    match Get endpoint with
    | .error err =>
      { calls := [(lit "GET", endpoint)],
        diags := addError stateDiags (lit "Client Error")
          (lit "Unable to read project, got error: " ++ err),
        state := none }
    | .ok project =>
      let data : ProjectResourceModel :=
        { state with
          Name := .known project.Name,
          ShareLinks := .known
            { Admin := .known project.ShareLinks.Admin,
              Viewer := .known project.ShareLinks.Viewer } }
      { calls := [(lit "GET", endpoint)], diags := stateDiags, state := some data }

/-- Model of `ProjectResource.Update`. `Patch` is the client's `Patch` for
this resource's payload; `planDiags` and `plan` are what
`req.Plan.Get(ctx, &data)` returned and stored. -/
def ProjectResource.Update
    (Patch : GoString → client.ProjectRequest → Except GoString client.Project)
    (planDiags : List Diagnostic) (plan : ProjectResourceModel) :
    ReadResult ProjectResourceModel :=
  if hasError planDiags then
    { calls := [], diags := planDiags, state := none }
  else
    let updateReq : client.ProjectRequest := { Name := plan.Name.ValueString }
    let endpoint := lit "/api/accounts/" ++ fmtInt plan.AccountID.ValueInt64 ++
      lit "/projects/" ++ fmtInt plan.ID.ValueInt64
    match Patch endpoint updateReq with
    | .error err =>
      { calls := [(lit "PATCH", endpoint)],
        diags := addError planDiags (lit "Client Error")
          (lit "Unable to update project, got error: " ++ err),
        state := none }
    | .ok project =>
      let data : ProjectResourceModel :=
        { plan with
          Name := .known project.Name,
          ShareLinks := .known
            { Admin := .known project.ShareLinks.Admin,
              Viewer := .known project.ShareLinks.Viewer } }
      { calls := [(lit "PATCH", endpoint)], diags := planDiags, state := some data }

/-- Model of `ProjectResource.Delete`. `Delete` is the client's `Delete`,
called with a nil result. -/
def ProjectResource.Delete (Delete : GoString → Except GoString Unit)
    (stateDiags : List Diagnostic) (state : ProjectResourceModel) : DeleteResult :=
  if hasError stateDiags then
    { calls := [], diags := stateDiags, logs := [] }
  else
    let endpoint := lit "/api/accounts/" ++ fmtInt state.AccountID.ValueInt64 ++
      lit "/projects/" ++ fmtInt state.ID.ValueInt64
    match Delete endpoint with
    | .error err =>
      { calls := [(lit "DELETE", endpoint)],
        diags := addError stateDiags (lit "Client Error")
          (lit "Unable to delete project, got error: " ++ err),
        logs := [] }
    | .ok _ => { calls := [(lit "DELETE", endpoint)], diags := stateDiags, logs := [] }

/-! ## resource_inbox.go: `Read`, `Update`, `Delete` -/

/-- Model of `InboxResource.Read`. `Get` is the client's `Get` for this
resource's payload; the whole model is rebuilt by `updateModelFromInbox`,
with the account id of the prior state. -/
def InboxResource.Read (Get : GoString → Except GoString client.Inbox)
    (stateDiags : List Diagnostic) (state : InboxResourceModel) :
    ReadResult InboxResourceModel :=
  if hasError stateDiags then
    { calls := [], diags := stateDiags, state := none }
  else
    let endpoint := lit "/api/accounts/" ++ fmtInt state.AccountID.ValueInt64 ++
      lit "/inboxes/" ++ fmtInt state.ID.ValueInt64
    match Get endpoint with
    | .error err =>
      { calls := [(lit "GET", endpoint)],
        diags := addError stateDiags (lit "Client Error")
          (lit "Unable to read inbox, got error: " ++ err),
        state := none }
    | .ok inbox =>
      { calls := [(lit "GET", endpoint)], diags := stateDiags,
        state := some (updateModelFromInbox inbox state.AccountID.ValueInt64) }

/-- The request `InboxResource.Create` (lines 237-250) and
`InboxResource.Update` (lines 307-320) build from the declared values: the
name, and the e-mail username when it is neither null nor unknown. -/
def inboxRequest (data : InboxResourceModel) : client.InboxRequest :=
  { Name := data.Name.ValueString,
    EmailUsername :=
      if !data.EmailUsername.IsNull && !data.EmailUsername.IsUnknown
      then data.EmailUsername.ValueString else [] }

/-- Model of `InboxResource.Update`. `Patch` is the client's `Patch` for this
resource's payload. -/
def InboxResource.Update
    (Patch : GoString → client.InboxRequest → Except GoString client.Inbox)
    (planDiags : List Diagnostic) (plan : InboxResourceModel) :
    ReadResult InboxResourceModel :=
  if hasError planDiags then
    { calls := [], diags := planDiags, state := none }
  else
    let updateReq := inboxRequest plan
    let endpoint := lit "/api/accounts/" ++ fmtInt plan.AccountID.ValueInt64 ++
      lit "/inboxes/" ++ fmtInt plan.ID.ValueInt64
    match Patch endpoint updateReq with
    | .error err =>
      { calls := [(lit "PATCH", endpoint)],
        diags := addError planDiags (lit "Client Error")
          (lit "Unable to update inbox, got error: " ++ err),
        state := none }
    | .ok inbox =>
      { calls := [(lit "PATCH", endpoint)], diags := planDiags,
        state := some (updateModelFromInbox inbox plan.AccountID.ValueInt64) }

/-- Model of `InboxResource.Delete`. `Delete` is the client's `Delete`,
called with a nil result. -/
def InboxResource.Delete (Delete : GoString → Except GoString Unit)
    (stateDiags : List Diagnostic) (state : InboxResourceModel) : DeleteResult :=
  if hasError stateDiags then
    { calls := [], diags := stateDiags, logs := [] }
  else
    let endpoint := lit "/api/accounts/" ++ fmtInt state.AccountID.ValueInt64 ++
      lit "/inboxes/" ++ fmtInt state.ID.ValueInt64
    match Delete endpoint with
    | .error err =>
      { calls := [(lit "DELETE", endpoint)],
        diags := addError stateDiags (lit "Client Error")
          (lit "Unable to delete inbox, got error: " ++ err),
        logs := [] }
    | .ok _ => { calls := [(lit "DELETE", endpoint)], diags := stateDiags, logs := [] }

/-- The JSON document `json.Marshal` writes for an `InboxRequest`: the
envelope `inbox` around the fields in declaration order; `email_username`
carries `omitempty` and is left out when it is the empty string. -/
def marshalInboxRequest (req : client.InboxRequest) : JSON :=
  .obj [(lit "inbox",
    .obj ((lit "name", .str req.Name) ::
      (if req.EmailUsername = [] then []
       else [(lit "email_username", .str req.EmailUsername)])))]

/-- The keys of the inner object of a marshalled request envelope. -/
def innerKeys : JSON → List GoString
  | .obj [(_, .obj members)] => members.map (fun m => m.1)
  | _ => []

/-! ## data_source_account.go -/

/-- Model of `client.Account`. -/
structure client.Account where
  ID : Int
  Name : GoString
  AccessLevels : List Int
  deriving DecidableEq, Repr

structure AccountDataSourceModel where
  ID : TFValue Int
  Name : TFValue GoString
  deriving DecidableEq, Repr

/-- The loop of `AccountDataSource.Read` (lines 91-97): the accounts are
visited in order and the loop breaks at the first whose id is the one asked
for; `none` is the nil `foundAccount`. -/
def findAccount (accountID : Int) : List client.Account → Option client.Account
  | [] => none
  | account :: rest => if account.ID = accountID then some account else findAccount accountID rest

/-- Model of `AccountDataSource.Read`. `Get` is the client's `Get` for the
list of accounts; `configDiags` and `config` are what
`req.Config.Get(ctx, &data)` returned and stored. -/
def AccountDataSource.Read (Get : GoString → Except GoString (List client.Account))
    (configDiags : List Diagnostic) (config : AccountDataSourceModel) :
    ReadResult AccountDataSourceModel :=
  if hasError configDiags then
    { calls := [], diags := configDiags, state := none }
  else
    match Get (lit "/api/accounts") with
    | .error err =>
      { calls := [(lit "GET", lit "/api/accounts")],
        diags := addError configDiags (lit "Client Error")
          (lit "Unable to read accounts, got error: " ++ err),
        state := none }
    | .ok accounts =>
      let accountID := config.ID.ValueInt64
      match findAccount accountID accounts with
      | none =>
        { calls := [(lit "GET", lit "/api/accounts")],
          diags := addError configDiags (lit "Account Not Found")
            (lit "Account with ID " ++ fmtInt accountID ++ lit " not found"),
          state := none }
      | some foundAccount =>
        { calls := [(lit "GET", lit "/api/accounts")], diags := configDiags,
          state := some { config with Name := .known foundAccount.Name } }

/-! ## data_source_project.go -/

structure ProjectDataSourceModel where
  ID : TFValue Int
  AccountID : TFValue Int
  Name : TFValue GoString
  ShareLinks : TFValue ShareLinksModel
  deriving DecidableEq, Repr

/-- Model of `ProjectDataSource.Read`. `accountID` is the provider-wide
default set by `Configure`. -/
def ProjectDataSource.Read (accountID : Int)
    (Get : GoString → Except GoString client.Project)
    (configDiags : List Diagnostic) (config : ProjectDataSourceModel) :
    ReadResult ProjectDataSourceModel :=
  if hasError configDiags then
    { calls := [], diags := configDiags, state := none }
  else
    let accountID :=
      if !config.AccountID.IsNull && !config.AccountID.IsUnknown
      then config.AccountID.ValueInt64 else accountID
    if accountID = 0 then
      { calls := [],
        diags := addError configDiags (lit "Missing Account ID")
          (lit "Account ID must be provided either in the data source configuration or provider configuration"),
        state := none }
    else
      let endpoint := lit "/api/accounts/" ++ fmtInt accountID ++ lit "/projects/" ++
        fmtInt config.ID.ValueInt64
      match Get endpoint with
      | .error err =>
        { calls := [(lit "GET", endpoint)],
          diags := addError configDiags (lit "Client Error")
            (lit "Unable to read project, got error: " ++ err),
          state := none }
      | .ok project =>
        let data : ProjectDataSourceModel :=
          { config with
            AccountID := .known accountID,
            Name := .known project.Name,
            ShareLinks := .known
              { Admin := .known project.ShareLinks.Admin,
                Viewer := .known project.ShareLinks.Viewer } }
        { calls := [(lit "GET", endpoint)], diags := configDiags, state := some data }

/-! ## data_source_inbox.go -/

structure InboxDataSourceModel where
  ID : TFValue Int
  AccountID : TFValue Int
  ProjectID : TFValue Int
  Name : TFValue GoString
  Username : TFValue GoString
  Password : TFValue GoString
  EmailUsername : TFValue GoString
  EmailUsernameEnabled : TFValue Bool
  Domain : TFValue GoString
  EmailDomain : TFValue GoString
  POP3Domain : TFValue GoString
  SMTPPorts : TFValue (List (TFValue Int))
  POP3Ports : TFValue (List (TFValue Int))
  Status : TFValue GoString
  MaxSize : TFValue Int
  SentMessagesCount : TFValue Int
  ForwardedMessagesCount : TFValue Int
  ForwardFromEmailAddress : TFValue GoString
  deriving DecidableEq, Repr

/-- Model of `InboxDataSource.Read`. `accountID` is the provider-wide default
set by `Configure`; the id of the configuration is kept. -/
def InboxDataSource.Read (accountID : Int)
    (Get : GoString → Except GoString client.Inbox)
    (configDiags : List Diagnostic) (config : InboxDataSourceModel) :
    ReadResult InboxDataSourceModel :=
  if hasError configDiags then
    { calls := [], diags := configDiags, state := none }
  else
    let accountID :=
      if !config.AccountID.IsNull && !config.AccountID.IsUnknown
      then config.AccountID.ValueInt64 else accountID
    if accountID = 0 then
      { calls := [],
        diags := addError configDiags (lit "Missing Account ID")
          (lit "Account ID must be provided either in the data source configuration or provider configuration"),
        state := none }
    else
      let endpoint := lit "/api/accounts/" ++ fmtInt accountID ++ lit "/inboxes/" ++
        fmtInt config.ID.ValueInt64
      match Get endpoint with
      | .error err =>
        { calls := [(lit "GET", endpoint)],
          diags := addError configDiags (lit "Client Error")
            (lit "Unable to read inbox, got error: " ++ err),
          state := none }
      | .ok inbox =>
        let data : InboxDataSourceModel :=
          { ID := config.ID,
            AccountID := .known accountID,
            ProjectID := .known inbox.ProjectID,
            Name := .known inbox.Name,
            Username := .known inbox.Username,
            Password := .known inbox.Password,
            EmailUsername := .known inbox.EmailUsername,
            EmailUsernameEnabled := .known inbox.EmailUsernameEnabled,
            Domain := .known inbox.Domain,
            EmailDomain := .known inbox.EmailDomain,
            POP3Domain := .known inbox.POP3Domain,
            Status := .known inbox.Status,
            MaxSize := .known inbox.MaxSize,
            SentMessagesCount := .known inbox.SentMessagesCount,
            ForwardedMessagesCount := .known inbox.ForwardedMessagesCount,
            ForwardFromEmailAddress := .known inbox.ForwardFromEmailAddress,
            SMTPPorts := .known (inbox.SMTPPorts.map TFValue.known),
            POP3Ports := .known (inbox.POP3Ports.map TFValue.known) }
        { calls := [(lit "GET", endpoint)], diags := configDiags, state := some data }

/-! ## data_source_sending_domain.go -/

structure SendingDomainDataSourceModel where
  ID : TFValue Int
  AccountID : TFValue Int
  Name : TFValue GoString
  CNAME : TFValue GoString
  Status : TFValue GoString
  ComplianceStatus : TFValue GoString
  DNSRecords : TFValue DNSRecordsModel
  DNSStatus : TFValue DNSStatusModel
  deriving DecidableEq, Repr

/-- The body of one pass of a loop of
`SendingDomainDataSource.convertDNSRecordsToTerraform` (lines 291-308). -/
def dataSourceConvertDNSRecord (record : client.DNSRecord) : TFValue DNSRecordModel :=
  let priority : TFValue Int :=
    match record.Priority with
    | some p => .known p
    | none => .null
  .known
    { Priority := priority,
      RecordType := .known record.RecordType,
      Hostname := .known record.Hostname,
      Value := .known record.Value,
      Status := .known record.Status }

/-- Model of `SendingDomainDataSource.convertDNSRecordsToTerraform`
(data_source_sending_domain.go, lines 277-377): the three loops, the three
lists, the object; the framework constructors add no diagnostics. -/
def SendingDomainDataSource.convertDNSRecordsToTerraform (records : client.DNSRecords) :
    TFValue DNSRecordsModel × List Diagnostic :=
  let cnameRecords := records.CNAME.map dataSourceConvertDNSRecord
  let mxRecords := records.MX.map dataSourceConvertDNSRecord
  let txtRecords := records.TXT.map dataSourceConvertDNSRecord
  let cnameListDiags : List Diagnostic := []
  let mxListDiags : List Diagnostic := []
  let txtListDiags : List Diagnostic := []
  let dnsRecordsDiags : List Diagnostic := []
  (.known { CNAME := .known cnameRecords, MX := .known mxRecords, TXT := .known txtRecords },
    cnameListDiags ++ mxListDiags ++ txtListDiags ++ dnsRecordsDiags)

/-- Model of `SendingDomainDataSource.Read`. `accountID` is the provider-wide
default set by `Configure`. -/
def SendingDomainDataSource.Read (accountID : Int)
    (Get : GoString → Except GoString client.SendingDomain)
    (configDiags : List Diagnostic) (config : SendingDomainDataSourceModel) :
    ReadResult SendingDomainDataSourceModel :=
  if hasError configDiags then
    { calls := [], diags := configDiags, state := none }
  else
    let accountID :=
      if !config.AccountID.IsNull && !config.AccountID.IsUnknown
      then config.AccountID.ValueInt64 else accountID
    if accountID = 0 then
      { calls := [],
        diags := addError configDiags (lit "Missing Account ID")
          (lit "Account ID must be provided either in the data source configuration or provider configuration"),
        state := none }
    else
      let endpoint := lit "/api/accounts/" ++ fmtInt accountID ++ lit "/sending_domains/" ++
        fmtInt config.ID.ValueInt64
      match Get endpoint with
      | .error err =>
        { calls := [(lit "GET", endpoint)],
          diags := addError configDiags (lit "Client Error")
            (lit "Unable to read sending domain, got error: " ++ err),
          state := none }
      | .ok domain =>
        let converted := SendingDomainDataSource.convertDNSRecordsToTerraform domain.DNSRecords
        let diags := configDiags ++ converted.2
        if hasError diags then
          { calls := [(lit "GET", endpoint)], diags := diags, state := none }
        else
          let data : SendingDomainDataSourceModel :=
            { config with
              AccountID := .known accountID,
              Name := .known domain.Name,
              CNAME := .known domain.CNAME,
              Status := .known domain.Status,
              ComplianceStatus := .known domain.ComplianceStatus,
              DNSRecords := converted.1,
              DNSStatus := .known
                { CNAME := .known domain.DNSStatus.CNAME,
                  MX := .known domain.DNSStatus.MX,
                  TXT := .known domain.DNSStatus.TXT } }
          { calls := [(lit "GET", endpoint)], diags := diags, state := some data }

/-! ## provider.go: `parseInt64` -/

/-- The errors of `fmt.Sscanf(s, "%d", &i)`: a newline where the integer is
expected, the end of the input where it is expected (`io.EOF` or
`io.ErrUnexpectedEOF`), a text that starts with no digit ("expected
integer"), and the errors of `strconv.ParseInt` on the scanned text. -/
inductive ScanErr where
  | unexpectedNewline
  | eof
  | expectedInteger
  | number (err : NumErr)
  deriving DecidableEq, Repr

/-- The number of bytes of the space character a text starts with, as
`fmt` recognises spaces (`isSpace`): U+0009 to U+000D, U+0020, U+0085, U+00A0,
U+1680, U+2000 to U+200A, U+2028, U+2029, U+202F, U+205F, U+3000, in UTF-8;
0 when the text starts with no space. -/
def leadingSpace : GoString → Nat
  | 0xC2 :: 0x85 :: _ => 2
  | 0xC2 :: 0xA0 :: _ => 2
  | 0xE1 :: 0x9A :: 0x80 :: _ => 3
  | 0xE2 :: 0x80 :: b :: _ =>
    if (0x80 ≤ b ∧ b ≤ 0x8A) ∨ b = 0xA8 ∨ b = 0xA9 ∨ b = 0xAF then 3 else 0
  | 0xE2 :: 0x81 :: 0x9F :: _ => 3
  | 0xE3 :: 0x80 :: 0x80 :: _ => 3
  | b :: _ => if (0x09 ≤ b ∧ b ≤ 0x0D) ∨ b = 0x20 then 1 else 0
  | [] => 0

/-- Model of `ss.SkipSpace` as `Sscanf` runs it (newlines are not spaces):
leading spaces are dropped, a newline among them is an error, a carriage
return before a newline is passed over. `fuel` bounds the number of steps;
the length of the text is enough. -/
def skipSpace : Nat → GoString → Except ScanErr GoString
  | 0, s => .ok s
  | fuel + 1, s =>
    match s with
    | [] => .ok []
    | 0x0A :: _ => .error .unexpectedNewline
    | b :: rest =>
      if leadingSpace (b :: rest) = 0 then .ok (b :: rest)
      else skipSpace fuel ((b :: rest).drop (leadingSpace (b :: rest)))

/-- The bytes `ss.scanNumber` accepts for the verb `%d`: the decimal digits
"0123456789" (`getBase`); the underscore is accepted for `%v` only. -/
def isNumberByte (b : UInt8) : Bool :=
  0x30 ≤ b ∧ b ≤ 0x39

/-- Model of `ss.scanInt` for the verb `%d` and 64 bits, on the text left
after the leading spaces: an optional sign, then the longest run of digits,
which must not be empty, handed with the sign to `strconv.ParseInt`; what
follows the run is not looked at. -/
def scanInt (s : GoString) : Except ScanErr Int :=
  match s with
  | [] => .error .eof
  | c :: rest =>
    let sign : GoString := if c = 0x2B ∨ c = 0x2D then [c] else []
    let body := if c = 0x2B ∨ c = 0x2D then rest else s
    match body with
    | [] => .error .eof
    | d :: _ =>
      if isNumberByte d then
        match strconvParseInt (sign ++ body.takeWhile isNumberByte) with
        | .ok i => .ok i
        | .error e => .error (.number e)
      else .error .expectedInteger

/-- Model of `parseInt64` (provider.go, lines 149-153):
`fmt.Sscanf(s, "%d", &i)`, which skips leading spaces, scans one integer and
returns; the value is 0 when there is an error. -/
def parseInt64 (s : GoString) : Except ScanErr Int :=
  match skipSpace s.length s with
  | .error e => .error e
  | .ok rest => scanInt rest

/-! ## The schemas of the three resources -/

/-- The plan modifiers the schemas use. -/
inductive PlanModifier where
  | UseStateForUnknown
  | RequiresReplace
  deriving DecidableEq, Repr

/-- One attribute of a schema: its path (nested attributes are written with
dots), the three flags of the framework and its plan modifiers. -/
structure SchemaAttribute where
  path : GoString
  Required : Bool
  Optional : Bool
  Computed : Bool
  PlanModifiers : List PlanModifier
  deriving DecidableEq, Repr

/-- A `Computed` attribute without plan modifier. -/
def computedAttr (path : String) : SchemaAttribute :=
  { path := lit path, Required := false, Optional := false, Computed := true,
    PlanModifiers := [] }

/-- A `Computed` attribute with `UseStateForUnknown`. -/
def stickyAttr (path : String) : SchemaAttribute :=
  { path := lit path, Required := false, Optional := false, Computed := true,
    PlanModifiers := [.UseStateForUnknown] }

/-- The attribute `account_id`, declared the same way in the three schemas:
`Optional`, `Computed`, with `RequiresReplace` and `UseStateForUnknown`. -/
def accountIDAttr : SchemaAttribute :=
  { path := lit "account_id", Required := false, Optional := true, Computed := true,
    PlanModifiers := [.RequiresReplace, .UseStateForUnknown] }

/-- Model of `ProjectResource.Schema` (resource_project.go, lines 54-99). -/
def projectSchema : List SchemaAttribute :=
  [ stickyAttr "id",
    accountIDAttr,
    { path := lit "name", Required := true, Optional := false, Computed := false,
      PlanModifiers := [] },
    stickyAttr "share_links",
    computedAttr "share_links.admin",
    computedAttr "share_links.viewer" ]

/-- Model of `InboxResource.Schema` (resource_inbox.go, lines 64-192). -/
def inboxSchema : List SchemaAttribute :=
  [ stickyAttr "id",
    accountIDAttr,
    { path := lit "project_id", Required := true, Optional := false, Computed := false,
      PlanModifiers := [.RequiresReplace] },
    { path := lit "name", Required := true, Optional := false, Computed := false,
      PlanModifiers := [] },
    stickyAttr "username",
    stickyAttr "password",
    { path := lit "email_username", Required := false, Optional := true, Computed := true,
      PlanModifiers := [] },
    stickyAttr "email_username_enabled",
    stickyAttr "domain",
    stickyAttr "email_domain",
    stickyAttr "pop3_domain",
    stickyAttr "smtp_ports",
    stickyAttr "pop3_ports",
    stickyAttr "status",
    stickyAttr "max_size",
    computedAttr "sent_messages_count",
    computedAttr "forwarded_messages_count",
    stickyAttr "forward_from_email_address" ]

/-- The five attributes of a DNS record, all `Computed`, under a list. -/
def dnsRecordAttrs (list : String) : List SchemaAttribute :=
  [ computedAttr (list ++ ".priority"),
    computedAttr (list ++ ".record_type"),
    computedAttr (list ++ ".hostname"),
    computedAttr (list ++ ".value"),
    computedAttr (list ++ ".status") ]

/-- Model of `SendingDomainResource.Schema` (resource_sending_domain.go,
lines 80-258). -/
def sendingDomainSchema : List SchemaAttribute :=
  [ stickyAttr "id",
    accountIDAttr,
    { path := lit "name", Required := true, Optional := false, Computed := false,
      PlanModifiers := [.RequiresReplace] },
    stickyAttr "cname",
    computedAttr "status",
    computedAttr "compliance_status",
    stickyAttr "dns_records",
    stickyAttr "dns_records.cname" ] ++ dnsRecordAttrs "dns_records.cname" ++
  [ stickyAttr "dns_records.mx" ] ++ dnsRecordAttrs "dns_records.mx" ++
  [ stickyAttr "dns_records.txt" ] ++ dnsRecordAttrs "dns_records.txt" ++
  [ stickyAttr "dns_status",
    stickyAttr "dns_status.cname",
    stickyAttr "dns_status.mx",
    stickyAttr "dns_status.txt" ]

/-- The four classes of the specification, read on the declaration of an
attribute: required input is `Required`; optional input is `Optional`;
computed/sticky is `Computed` with `UseStateForUnknown`;
replacement-triggering is `RequiresReplace`. -/
inductive AttrClass where
  | requiredInput
  | optionalInput
  | computedSticky
  | replacementTriggering
  deriving DecidableEq, Repr

/-- Whether an attribute belongs to a class. -/
def inClass (a : SchemaAttribute) : AttrClass → Bool
  | .requiredInput => a.Required
  | .optionalInput => a.Optional
  | .computedSticky => a.Computed && a.PlanModifiers.contains .UseStateForUnknown
  | .replacementTriggering => a.PlanModifiers.contains .RequiresReplace

/-- The classes an attribute belongs to. -/
def classesOf (a : SchemaAttribute) : List AttrClass :=
  [.requiredInput, .optionalInput, .computedSticky, .replacementTriggering].filter (inClass a)

/-- The source of the value of an attribute, as the three flags give it: the
configuration only (`Required`), the configuration or else the provider
(`Optional` and `Computed`), the provider only (`Computed`). -/
inductive ValueSource where
  | required
  | optionalComputed
  | computedOnly
  deriving DecidableEq, Repr

/-- The source of the value of an attribute; `none` for a combination of
flags the schemas do not use. -/
def sourceOf (a : SchemaAttribute) : Option ValueSource :=
  match a.Required, a.Optional, a.Computed with
  | true, false, false => some .required
  | false, true, true => some .optionalComputed
  | false, false, true => some .computedOnly
  | _, _, _ => none

/-! ## Concrete states and remote answers, for evaluating the later operations -/

/-- The state `Create` writes for `sampleProject` under account 12345: id 7,
share links "A" and "V". -/
def sampleProjectState : ProjectResourceModel :=
  { ID := .known 7, AccountID := .known 12345, Name := .known (lit "demo"),
    ShareLinks := .known { Admin := .known (lit "A"), Viewer := .known (lit "V") } }

/-- The project of `sampleProject` as a later response carries it when the
remote service has issued new share links. -/
def relinkedProject : client.Project :=
  { ID := 7, Name := lit "demo", ShareLinks := { Admin := lit "A2", Viewer := lit "V2" } }

/-- The state `Create` writes for `sampleInbox` under account 12345: id 9. -/
def sampleInboxState : InboxResourceModel := updateModelFromInbox sampleInbox 12345

/-- A remote inbox that differs from `sampleInbox` in its id, 10. -/
def otherInbox : client.Inbox := { sampleInbox with ID := 10 }

/-- A list of accounts as the remote service returns it, two of them with
the id 2. -/
def sampleAccounts : List client.Account :=
  [ { ID := 1, Name := lit "first", AccessLevels := [1000] },
    { ID := 2, Name := lit "second", AccessLevels := [100] },
    { ID := 2, Name := lit "second again", AccessLevels := [10] } ]

/-! ## Lemmas: byte strings and routing -/

theorem length_send_slash : (lit "/api/send/").length = 10 := by decide

theorem ne_send_of_long (endpoint : GoString) (h : 10 < endpoint.length) :
    endpoint ≠ lit "/api/send" := by
  intro e
  have h9 : (lit "/api/send").length = 9 := by decide
  rw [e, h9] at h
  omega

theorem ne_batch_of_long (endpoint : GoString) (h : 10 < endpoint.length) :
    endpoint ≠ lit "/api/batch" := by
  intro e
  have h10 : (lit "/api/batch").length = 10 := by decide
  rw [e, h10] at h
  omega

/-! ## Lemmas: decoding of the error envelope -/

set_option exponentiation.threshold 1100 in
/-- The range check at the border of float64, on the texts of the table of
`strconv` (atof_test.go): the largest float64 and the decimal just below the
midpoint are in range, the decimal just above the midpoint and 1e999 are not;
a number too small for a float64 is in range. -/
theorem float64Overflows_border :
    float64Overflows (lit "1.7976931348623157e308") = false ∧
    float64Overflows (lit "1.7976931348623158e308") = false ∧
    float64Overflows (lit "1.797693134862315808e308") = true ∧
    float64Overflows (lit "-1.7976931348623159E+308") = true ∧
    float64Overflows (lit "1e999") = true ∧
    float64Overflows (lit "1e-999") = false ∧
    float64Overflows (lit "0e999") = false ∧
    float64Overflows (lit "400") = false := by
  decide

theorem decodeMember_flag (acc : ErrorResp × Bool) (m : GoString × JSON) :
    (decodeMember acc m).2 = true ↔ acc.2 = true ∧ memberFits m = true := by
  obtain ⟨k, v⟩ := m
  unfold decodeMember memberFits
  cases hf : fieldOf k with
  | none => simp
  | some f =>
    cases f <;> cases v <;> simp [JSON.isStringOrNull, JSON.numbersFit]

theorem foldl_decodeMember_flag (members : List (GoString × JSON)) (acc : ErrorResp × Bool) :
    (members.foldl decodeMember acc).2 = true ↔ acc.2 = true ∧ membersFit members := by
  induction members generalizing acc with
  | nil => simp [membersFit]
  | cons m rest ih =>
    rw [List.foldl_cons, ih, decodeMember_flag]
    simp only [membersFit, List.mem_cons, forall_eq_or_imp]
    tauto

theorem stringField_append_one (f : ErrField) (init : List (GoString × JSON))
    (m : GoString × JSON) :
    stringField f (init ++ [m]) =
      if fieldOf m.1 = some f then
        match m.2 with
        | .str s => s
        | _ => stringField f init
      else stringField f init := by
  obtain ⟨k, v⟩ := m
  unfold stringField
  rw [List.reverse_append]
  by_cases hf : fieldOf k = some f
  · cases v <;> simp [hf]
  · simp [hf]

theorem decodeMember_error (acc : ErrorResp × Bool) (m : GoString × JSON) :
    (decodeMember acc m).1.Error =
      if fieldOf m.1 = some .error then
        match m.2 with
        | .str s => s
        | _ => acc.1.Error
      else acc.1.Error := by
  obtain ⟨k, v⟩ := m
  unfold decodeMember
  cases hf : fieldOf k with
  | none => simp
  | some f => cases f <;> cases v <;> simp

theorem decodeMember_message (acc : ErrorResp × Bool) (m : GoString × JSON) :
    (decodeMember acc m).1.Message =
      if fieldOf m.1 = some .message then
        match m.2 with
        | .str s => s
        | _ => acc.1.Message
      else acc.1.Message := by
  obtain ⟨k, v⟩ := m
  unfold decodeMember
  cases hf : fieldOf k with
  | none => simp
  | some f => cases f <;> cases v <;> simp

theorem foldl_decodeMember_fields (members : List (GoString × JSON)) :
    (members.foldl decodeMember (ErrorResp.zero, true)).1.Error = stringField .error members ∧
    (members.foldl decodeMember (ErrorResp.zero, true)).1.Message =
      stringField .message members := by
  induction members using List.reverseRecOn with
  | nil => exact ⟨rfl, rfl⟩
  | append_singleton init m ih =>
    rw [List.foldl_append, List.foldl_cons, List.foldl_nil, decodeMember_error,
      decodeMember_message, stringField_append_one, stringField_append_one, ih.1, ih.2]
    exact ⟨rfl, rfl⟩

/-- An object whose members fit is decoded without error, and the decoded
strings are the object's. -/
theorem unmarshal_obj_of_fit (members : List (GoString × JSON)) (h : membersFit members) :
    ∃ r, unmarshalErrorResp (some (.obj members)) = some r ∧
      r.Error = stringField .error members ∧ r.Message = stringField .message members := by
  have hflag := (foldl_decodeMember_flag members (ErrorResp.zero, true)).mpr ⟨rfl, h⟩
  refine ⟨(members.foldl decodeMember (ErrorResp.zero, true)).1, ?_,
    foldl_decodeMember_fields members⟩
  simp [unmarshalErrorResp, hflag]

/-- A body that cannot be parsed as the envelope makes `json.Unmarshal`
return an error. -/
theorem unmarshal_none_of_notAnEnvelope (doc : Option JSON) (h : notAnEnvelope doc) :
    unmarshalErrorResp doc = none := by
  cases doc with
  | none => rfl
  | some v =>
    cases v with
    | null => exact absurd h (by simp [notAnEnvelope])
    | obj members =>
      have hflag : (members.foldl decodeMember (ErrorResp.zero, true)).2 = false := by
        cases hb : (members.foldl decodeMember (ErrorResp.zero, true)).2 with
        | false => rfl
        | true => exact absurd ((foldl_decodeMember_flag members _).mp hb).2 h
      simp [unmarshalErrorResp, hflag]
    | _ => rfl

/-- The bodies `json.Unmarshal` rejects are exactly those of `notAnEnvelope`. -/
theorem unmarshal_none_iff_notAnEnvelope (doc : Option JSON) :
    unmarshalErrorResp doc = none ↔ notAnEnvelope doc := by
  refine ⟨fun h => ?_, unmarshal_none_of_notAnEnvelope doc⟩
  cases doc with
  | none => trivial
  | some v =>
    cases v with
    | null => simp [unmarshalErrorResp] at h
    | obj members =>
      intro hfit
      obtain ⟨r, hr, -⟩ := unmarshal_obj_of_fit members hfit
      rw [hr] at h
      exact absurd h (by simp)
    | _ => trivial

/-- No message that starts with the letter `f` is an `API error (...)` message. -/
theorem not_carriesStatus_f (status : Int) (rest : GoString) :
    ¬ carriesStatus status (0x66 :: rest) := by
  intro h
  have hp : lit "API error (" ++ fmtInt status ++ lit "): " =
      0x41 :: (lit "PI error (" ++ fmtInt status ++ lit "): ") := rfl
  unfold carriesStatus at h
  rw [hp] at h
  have := (List.cons_prefix_cons.mp h).1
  exact absurd this (by decide)

theorem carriesStatus_apiError (status : Int) (text : GoString) :
    carriesStatus status (apiError status text) := by
  unfold carriesStatus apiError
  exact List.prefix_append _ _

/-- Every error `handleResponse` returns for a status of 400 or more, once
the body has been read, is an `API error (<status>): ...` message. -/
theorem handleResponse_ge_400 {α : Type} (fmtValue : JSON → GoString) (resp : Response)
    (body : Payload) (result : Option (Payload → Except GoString α))
    (hbody : resp.Body = .ok body) (hs : resp.StatusCode ≥ 400) :
    ∃ text, handleResponse fmtValue resp result = .error (apiError resp.StatusCode text) := by
  unfold handleResponse
  rw [hbody]
  simp only [hs, if_true]
  cases unmarshalErrorResp body.doc with
  | none => exact ⟨_, rfl⟩
  | some r =>
    simp only
    split_ifs <;> exact ⟨_, rfl⟩

/-- Below 400 the only errors are those of reading the body and of decoding
it into the caller's target. -/
theorem handleResponse_lt_400 {α : Type} (fmtValue : JSON → GoString) (resp : Response)
    (result : Option (Payload → Except GoString α)) (hs : resp.StatusCode < 400)
    (msg : GoString) (h : handleResponse fmtValue resp result = .error msg) :
    ∃ rest, msg = 0x66 :: rest := by
  unfold handleResponse at h
  have hn : ¬ resp.StatusCode ≥ 400 := by omega
  cases hb : resp.Body with
  | error e =>
    rw [hb] at h
    simp only [Except.error.injEq] at h
    exact ⟨lit "ailed to read response body: " ++ e, h ▸ rfl⟩
  | ok body =>
    rw [hb] at h
    simp only [hn, if_false] at h
    cases result with
    | none => simp at h
    | some decode =>
      simp only at h
      split_ifs at h
      · cases hd : decode body with
        | error e =>
          rw [hd] at h
          simp only [Except.error.injEq] at h
          exact ⟨lit "ailed to unmarshal response: " ++ e, h ▸ rfl⟩
        | ok v => rw [hd] at h; simp at h

/-! ## Lemmas: account resolution in `Create` -/

theorem effectiveAccountID_absent (planned : TFValue Int) (providerDefault : Int)
    (h : planned = .null ∨ planned = .unknown) :
    effectiveAccountID planned providerDefault = providerDefault := by
  rcases h with h | h <;> subst h <;> rfl

theorem effectiveAccountID_known (v providerDefault : Int) :
    effectiveAccountID (.known v) providerDefault = v := rfl

/-- Project `Create` once the account id resolves to a non-zero `A`: one POST
under `/api/accounts/A`, and a state, when there is one, with account id `A`;
there is one as soon as the request succeeds. -/
theorem project_create_resolved (r : ProjectResource) (planDiags : List Diagnostic)
    (plan : ProjectResourceModel) (A : Int) (hd : hasError planDiags = false)
    (hA : effectiveAccountID plan.AccountID r.accountID = A) (h0 : A ≠ 0) :
    (r.Create planDiags plan).calls =
        [(lit "POST", lit "/api/accounts/" ++ fmtInt A ++ lit "/projects")] ∧
    (∀ s, (r.Create planDiags plan).state = some s → s.AccountID = .known A) ∧
    (∀ p, r.Post (lit "/api/accounts/" ++ fmtInt A ++ lit "/projects")
        { Name := plan.Name.ValueString } = .ok p →
      (r.Create planDiags plan).state.isSome = true) := by
  unfold effectiveAccountID at hA
  unfold ProjectResource.Create
  simp only [hd, Bool.false_eq_true, if_false, hA, h0]
  cases hp : r.Post (lit "/api/accounts/" ++ fmtInt A ++ lit "/projects")
      { Name := plan.Name.ValueString } with
  | error e => simp
  | ok p => simp

/-- Inbox `Create` once the account id resolves to a non-zero `A`. -/
theorem inbox_create_resolved (r : InboxResource) (planDiags : List Diagnostic)
    (plan : InboxResourceModel) (A : Int) (hd : hasError planDiags = false)
    (hA : effectiveAccountID plan.AccountID r.accountID = A) (h0 : A ≠ 0) :
    (r.Create planDiags plan).calls =
        [(lit "POST", lit "/api/accounts/" ++ fmtInt A ++ lit "/projects/" ++
          fmtInt plan.ProjectID.ValueInt64 ++ lit "/inboxes")] ∧
    (∀ s, (r.Create planDiags plan).state = some s → s.AccountID = .known A) ∧
    (∀ p, r.Post (lit "/api/accounts/" ++ fmtInt A ++ lit "/projects/" ++
          fmtInt plan.ProjectID.ValueInt64 ++ lit "/inboxes")
        { Name := plan.Name.ValueString,
          EmailUsername :=
            if !plan.EmailUsername.IsNull && !plan.EmailUsername.IsUnknown
            then plan.EmailUsername.ValueString else [] } = .ok p →
      (r.Create planDiags plan).state.isSome = true) := by
  unfold effectiveAccountID at hA
  unfold InboxResource.Create
  simp only [hd, Bool.false_eq_true, if_false, hA, h0]
  cases hp : r.Post (lit "/api/accounts/" ++ fmtInt A ++ lit "/projects/" ++
          fmtInt plan.ProjectID.ValueInt64 ++ lit "/inboxes")
        { Name := plan.Name.ValueString,
          EmailUsername :=
            if !plan.EmailUsername.IsNull && !plan.EmailUsername.IsUnknown
            then plan.EmailUsername.ValueString else [] } with
  | error e => simp
  | ok p => simp [updateModelFromInbox]

/-- Sending-domain `Create` once the account id resolves to a non-zero `A`. -/
theorem domain_create_resolved (r : SendingDomainResource)
    (planDiags : List Diagnostic) (plan : SendingDomainResourceModel) (A : Int)
    (hd : hasError planDiags = false)
    (hA : effectiveAccountID plan.AccountID r.accountID = A) (h0 : A ≠ 0) :
    (r.Create planDiags plan).calls =
        [(lit "POST", lit "/api/accounts/" ++ fmtInt A ++ lit "/sending_domains")] ∧
    (∀ s, (r.Create planDiags plan).state = some s → s.AccountID = .known A) ∧
    (∀ p, r.Post (lit "/api/accounts/" ++ fmtInt A ++ lit "/sending_domains")
        { DomainName := plan.Name.ValueString } = .ok p →
      (r.Create planDiags plan).state.isSome = true) := by
  unfold effectiveAccountID at hA
  unfold SendingDomainResource.Create
  simp only [hd, Bool.false_eq_true, if_false, hA, h0]
  cases hp : r.Post (lit "/api/accounts/" ++ fmtInt A ++ lit "/sending_domains")
      { DomainName := plan.Name.ValueString } with
  | error e => simp
  | ok p => simp [convertDNSRecordsToTerraform, hd]

/-! ## Routing in `doRequest` -/

/-- C1 (code bug): base-URL selection does not complete for a short endpoint.
For "/test" (5 bytes, the endpoint of `TestDoRequest_Success`) and for the
empty endpoint the slice `endpoint[:10]` is out of bounds, so `doRequest`
panics instead of yielding the client's base URL, which is what the selection
logic written in `TestDoRequest_EndpointRouting` yields. -/
theorem C1_short_endpoint_panics :
    (lit "/test").length < 10 ∧
    (∀ c : Client, selectBaseURL c (lit "/test") = .panic) ∧
    (∀ c : Client, selectBaseURL c [] = .panic) ∧
    (∀ (net : Net Response) (c : Client) (method : GoString),
      doRequest net c method (lit "/test") none = .panic) ∧
    (∀ c : Client, testSelectBaseURL c (lit "/test") = c.baseURL) :=
  ⟨by decide, fun _ => rfl, fun _ => rfl, fun _ _ _ => rfl, fun _ => rfl⟩

/-- C2: for every client, whatever its base URL, the endpoints "/api/send"
and "/api/batch" select the bulk-sending base, and `doRequest` with any
method and any body that marshals sends the request built on that base. -/
theorem C2_send_and_batch_use_sending_base (c : Client) :
    selectBaseURL c (lit "/api/send") = .ok sendingAPIURL ∧
    selectBaseURL c (lit "/api/batch") = .ok sendingAPIURL ∧
    (∀ (net : Net Response) (method : GoString),
      doRequest net c method (lit "/api/send") none =
        sendVia net c method (lit "/api/send") none sendingAPIURL ∧
      doRequest net c method (lit "/api/batch") none =
        sendVia net c method (lit "/api/batch") none sendingAPIURL) ∧
    (∀ (net : Net Response) (method jsonBody : GoString),
      doRequest net c method (lit "/api/send") (some (.ok jsonBody)) =
        sendVia net c method (lit "/api/send") (some jsonBody) sendingAPIURL ∧
      doRequest net c method (lit "/api/batch") (some (.ok jsonBody)) =
        sendVia net c method (lit "/api/batch") (some jsonBody) sendingAPIURL) :=
  ⟨rfl, rfl, fun _ _ => ⟨rfl, rfl⟩, fun _ _ _ => ⟨rfl, rfl⟩⟩

/-- C3: an endpoint that begins with "/api/send/" and is strictly longer than
those 10 bytes selects the sandbox-sending base. -/
theorem C3_send_prefix_uses_sandbox_base (c : Client) (endpoint : GoString)
    (hlen : 10 < endpoint.length) (hpre : endpoint.take 10 = lit "/api/send/") :
    selectBaseURL c endpoint = .ok sandboxAPIURL := by
  have h1 := ne_send_of_long endpoint hlen
  have h2 := ne_batch_of_long endpoint hlen
  have h3 : 10 ≤ endpoint.length := by omega
  simp [selectBaseURL, sliceTo, h1, h2, h3, hpre]

theorem C3_witness :
    selectBaseURL (NewClient (lit "test-token")) (lit "/api/send/123") = .ok sandboxAPIURL :=
  C3_send_prefix_uses_sandbox_base (NewClient (lit "test-token")) (lit "/api/send/123")
    (by decide) (by decide)

/-- C4 (code bug): the endpoint that is exactly "/api/send/" (10 bytes) does
not select the client's default base. `doRequest` compares `endpoint[:10]`
without the `len(endpoint) > 10` guard that the selection logic of
`TestDoRequest_EndpointRouting` has, so it selects the sandbox base where
that logic selects the default base. -/
theorem C4_exact_send_slash_uses_sandbox_base :
    (lit "/api/send/").length = 10 ∧
    selectBaseURL (NewClient (lit "test-token")) (lit "/api/send/") = .ok sandboxAPIURL ∧
    testSelectBaseURL (NewClient (lit "test-token")) (lit "/api/send/") = defaultBaseURL ∧
    sandboxAPIURL ≠ defaultBaseURL :=
  ⟨by decide, rfl, rfl, by decide⟩

/-! ## Error extraction in `handleResponse` -/

/-- C5 (code bug): for status 400 and the body `{}`, valid JSON with none of
the three fields, the error message is "API error (400): <nil>" and not
"API error (400): {}": the nil `Errors` interface differs from the string
`""`, so the third test (line 105) succeeds and the raw-body fallback of line
109 is not reached. -/
theorem C5_empty_object_reports_nil :
    unmarshalErrorResp (some (.obj [])) = some ErrorResp.zero ∧
    (∀ fmtValue : JSON → GoString,
      handleResponse fmtValue ⟨400, .ok ⟨lit "\x7b\x7d", some (.obj [])⟩⟩
          (none : Option (Payload → Except GoString Unit)) =
        .error (lit "API error (400): <nil>")) ∧
    lit "API error (400): <nil>" ≠ apiError 400 (lit "\x7b\x7d") :=
  ⟨rfl, fun _ => rfl, by decide⟩

/-- C6 (as stated, refuted): a response with status 304, outside 200-299,
with an empty body and no result target yields no error at all. -/
theorem C6_counterexample :
    ((304 : Int) < 200 ∨ 299 < (304 : Int)) ∧
    (∀ fmtValue : JSON → GoString,
      handleResponse fmtValue ⟨304, .ok ⟨[], none⟩⟩
          (none : Option (Payload → Except GoString Unit)) = .ok none) :=
  ⟨by decide, fun _ => rfl⟩

/-- C6 (amended): `handleResponse` returns an error carrying the HTTP status
code for every response with status 400 or more whose body was read, and for
no status below 400, so for no 2xx status and also for no 1xx or 3xx status. -/
theorem C6_status_error_iff_ge_400 {α : Type} (fmtValue : JSON → GoString)
    (resp : Response) (result : Option (Payload → Except GoString α)) :
    (∀ body, resp.Body = .ok body → resp.StatusCode ≥ 400 →
      ∃ msg, handleResponse fmtValue resp result = .error msg ∧
        carriesStatus resp.StatusCode msg) ∧
    (resp.StatusCode < 400 →
      ∀ msg, handleResponse fmtValue resp result = .error msg →
        ¬ carriesStatus resp.StatusCode msg) := by
  constructor
  · intro body hbody hs
    obtain ⟨text, ht⟩ := handleResponse_ge_400 fmtValue resp body result hbody hs
    exact ⟨_, ht, carriesStatus_apiError _ _⟩
  · intro hs msg hmsg
    obtain ⟨rest, hr⟩ := handleResponse_lt_400 fmtValue resp result hs msg hmsg
    rw [hr]
    exact not_carriesStatus_f _ _

theorem C6_witness :
    (∃ msg, handleResponse (fun _ => []) ⟨404, .ok ⟨lit "Not Found", none⟩⟩
        (none : Option (Payload → Except GoString Unit)) = .error msg ∧
      carriesStatus 404 msg) ∧
    (∀ msg, handleResponse (fun _ => []) ⟨204, .ok ⟨lit "x", none⟩⟩
        (some fun _ => (.error (lit "unexpected end") : Except GoString Unit)) = .error msg →
      ¬ carriesStatus 204 msg) :=
  ⟨(C6_status_error_iff_ge_400 (fun _ => []) ⟨404, .ok ⟨lit "Not Found", none⟩⟩ none).1
      ⟨lit "Not Found", none⟩ rfl (by decide),
   (C6_status_error_iff_ge_400 (fun _ => []) ⟨204, .ok ⟨lit "x", none⟩⟩
      (some fun _ => .error (lit "unexpected end"))).2 (by decide)⟩

/-- C7 (as stated, refuted): status 400 with the JSON object
`{"error":"bad","message":5}`, whose `error` field is the non-empty string
"bad": the number does not fit the `message` field, `json.Unmarshal` returns
an error, and the message is the raw body, not "API error (400): bad". -/
theorem C7_counterexample :
    stringField .error [(lit "error", .str (lit "bad")), (lit "message", .num (lit "5"))] =
      lit "bad" ∧
    (∀ fmtValue : JSON → GoString,
      handleResponse fmtValue
          ⟨400, .ok ⟨lit "\x7b\"error\":\"bad\",\"message\":5\x7d",
            some (.obj [(lit "error", .str (lit "bad")), (lit "message", .num (lit "5"))])⟩⟩
          (none : Option (Payload → Except GoString Unit)) =
        .error (lit "API error (400): \x7b\"error\":\"bad\",\"message\":5\x7d")) ∧
    lit "API error (400): \x7b\"error\":\"bad\",\"message\":5\x7d" ≠ apiError 400 (lit "bad") :=
  ⟨by decide, fun _ => rfl, by decide⟩

/-- C7 (amended): for every response with status S >= 400 whose body is a
JSON object that decodes into the envelope without error (every `error` and
`message` member is a string or null, and no `errors` member holds a number
out of the float64 range): if its `error` field is a non-empty string E the
error message is exactly "API error (S): E"; otherwise, if its `message`
field is a non-empty string M, it is exactly "API error (S): M". -/
theorem C7_error_then_message {α : Type} (fmtValue : JSON → GoString) (S : Int)
    (raw : GoString) (members : List (GoString × JSON))
    (result : Option (Payload → Except GoString α))
    (hS : S ≥ 400) (hfit : membersFit members) :
    (stringField .error members ≠ [] →
      handleResponse fmtValue ⟨S, .ok ⟨raw, some (.obj members)⟩⟩ result =
        .error (apiError S (stringField .error members))) ∧
    (stringField .error members = [] → stringField .message members ≠ [] →
      handleResponse fmtValue ⟨S, .ok ⟨raw, some (.obj members)⟩⟩ result =
        .error (apiError S (stringField .message members))) := by
  obtain ⟨r, hr, hE, hM⟩ := unmarshal_obj_of_fit members hfit
  constructor
  · intro hne
    simp [handleResponse, hS, hr, hE, hne]
  · intro he hne
    simp [handleResponse, hS, hr, hE, hM, he, hne]

set_option exponentiation.threshold 1100 in
theorem C7_witness :
    handleResponse (fun _ => [])
        ⟨400, .ok ⟨lit "\x7b\"error\":\"Bad request\"\x7d\n",
          some (.obj [(lit "error", .str (lit "Bad request"))])⟩⟩
        (none : Option (Payload → Except GoString Unit)) =
      .error (apiError 400 (lit "Bad request")) ∧
    handleResponse (fun _ => [])
        ⟨422, .ok ⟨lit "\x7b\"error\":null,\"message\":\"bad2\"\x7d",
          some (.obj [(lit "error", .null), (lit "message", .str (lit "bad2"))])⟩⟩
        (none : Option (Payload → Except GoString Unit)) =
      .error (apiError 422 (lit "bad2")) ∧
    handleResponse (fun _ => [])
        ⟨400, .ok ⟨lit "\x7b\"error\":\"bad\",\"errors\":[1.5e3]\x7d",
          some (.obj [(lit "error", .str (lit "bad")),
            (lit "errors", .arr [.num (lit "1.5e3")])])⟩⟩
        (none : Option (Payload → Except GoString Unit)) =
      .error (apiError 400 (lit "bad")) :=
  ⟨(C7_error_then_message (fun _ => []) 400 (lit "\x7b\"error\":\"Bad request\"\x7d\n")
      [(lit "error", .str (lit "Bad request"))] none (by decide) (by decide)).1 (by decide),
   (C7_error_then_message (fun _ => []) 422 (lit "\x7b\"error\":null,\"message\":\"bad2\"\x7d")
      [(lit "error", .null), (lit "message", .str (lit "bad2"))] none (by decide)
      (by decide)).2 (by decide) (by decide),
   (C7_error_then_message (fun _ => []) 400
      (lit "\x7b\"error\":\"bad\",\"errors\":[1.5e3]\x7d")
      [(lit "error", .str (lit "bad")), (lit "errors", .arr [.num (lit "1.5e3")])] none
      (by decide) (by decide)).1 (by decide)⟩

/-- Every body `json.Unmarshal` rejects is reported raw: for a status S >= 400
and a body B that is not valid JSON, or is an array, a string, a number or a
boolean, or is an object with a member that does not fit its field, the error
message is "API error (S): " followed by B. -/
theorem handleResponse_raw_of_notAnEnvelope {α : Type} (fmtValue : JSON → GoString) (S : Int)
    (body : Payload) (result : Option (Payload → Except GoString α))
    (hS : S ≥ 400) (hbad : notAnEnvelope body.doc) :
    handleResponse fmtValue ⟨S, .ok body⟩ result =
      .error (lit "API error (" ++ fmtInt S ++ lit "): " ++ body.raw) := by
  have hu := unmarshal_none_of_notAnEnvelope body.doc hbad
  simp [handleResponse, hS, hu, apiError]

set_option exponentiation.threshold 1100 in
/-- C8 (code bug): for status 400 and the body `null`, a JSON value of the
wrong shape for the envelope, the error message is "API error (400): <nil>"
and not "API error (400): null": `json.Unmarshal` accepts a top-level `null`
and leaves the struct at its zero value, the nil `Errors` interface differs
from the string `""`, so the third test (line 105) succeeds and the raw-body
fallback of line 109 is not reached. Every body that `json.Unmarshal` rejects
is reported raw as the claim says: a body that is not valid JSON, an array, a
string, a number or a boolean, an object with a mistyped `error` or `message`
member or with a number out of the float64 range in `errors`; these are all
the bodies it rejects. -/
theorem C8_null_body_reports_nil :
    unmarshalErrorResp (some .null) = some ErrorResp.zero ∧
    (∀ fmtValue : JSON → GoString,
      handleResponse fmtValue ⟨400, .ok ⟨lit "null", some .null⟩⟩
          (none : Option (Payload → Except GoString Unit)) =
        .error (lit "API error (400): <nil>")) ∧
    lit "API error (400): <nil>" ≠ apiError 400 (lit "null") ∧
    (∀ (α : Type) (fmtValue : JSON → GoString) (S : Int) (body : Payload)
        (result : Option (Payload → Except GoString α)),
      S ≥ 400 → notAnEnvelope body.doc →
      handleResponse fmtValue ⟨S, .ok body⟩ result =
        .error (lit "API error (" ++ fmtInt S ++ lit "): " ++ body.raw)) ∧
    (∀ doc : Option JSON, unmarshalErrorResp doc = none ↔ notAnEnvelope doc) ∧
    (∀ fmtValue : JSON → GoString,
      handleResponse fmtValue ⟨502, .ok ⟨lit "<html>Bad Gateway</html>", none⟩⟩
          (none : Option (Payload → Except GoString Unit)) =
        .error (lit "API error (502): <html>Bad Gateway</html>")) ∧
    (∀ fmtValue : JSON → GoString,
      handleResponse fmtValue ⟨400, .ok ⟨lit "[\"bad\"]", some (.arr [.str (lit "bad")])⟩⟩
          (none : Option (Payload → Except GoString Unit)) =
        .error (lit "API error (400): [\"bad\"]")) ∧
    (∀ fmtValue : JSON → GoString,
      handleResponse fmtValue
          ⟨400, .ok ⟨lit "\x7b\"error\":\"bad\",\"errors\":1e999\x7d",
            some (.obj [(lit "error", .str (lit "bad")), (lit "errors", .num (lit "1e999"))])⟩⟩
          (none : Option (Payload → Except GoString Unit)) =
        .error (lit "API error (400): \x7b\"error\":\"bad\",\"errors\":1e999\x7d")) :=
  ⟨rfl, fun _ => rfl, by decide,
    fun _ fmtValue S body result hS hbad =>
      handleResponse_raw_of_notAnEnvelope fmtValue S body result hS hbad,
    unmarshal_none_iff_notAnEnvelope,
    fun fmtValue =>
      handleResponse_raw_of_notAnEnvelope fmtValue 502 ⟨lit "<html>Bad Gateway</html>", none⟩
        none (by decide) (by decide),
    fun fmtValue =>
      handleResponse_raw_of_notAnEnvelope fmtValue 400
        ⟨lit "[\"bad\"]", some (.arr [.str (lit "bad")])⟩ none (by decide) (by decide),
    fun fmtValue =>
      handleResponse_raw_of_notAnEnvelope fmtValue 400
        ⟨lit "\x7b\"error\":\"bad\",\"errors\":1e999\x7d",
          some (.obj [(lit "error", .str (lit "bad")), (lit "errors", .num (lit "1e999"))])⟩
        none (by decide) (by decide)⟩

/-! ## Lemmas: diagnostics and `Create` without an account id -/

theorem errorsOf_of_no_error (ds : List Diagnostic) (h : hasError ds = false) :
    errorsOf ds = [] := by
  unfold hasError at h
  unfold errorsOf
  rw [List.filter_eq_nil_iff]
  intro d hd
  have := (List.any_eq_false.mp h) d hd
  simpa using this

theorem errorsOf_addError (ds : List Diagnostic) (summary detail : GoString)
    (h : hasError ds = false) :
    errorsOf (addError ds summary detail) =
      [{ severity := .error, summary := summary, detail := detail }] := by
  have h0 := errorsOf_of_no_error ds h
  unfold errorsOf at h0 ⊢
  unfold addError
  rw [List.filter_append, h0]
  simp

/-- Project `Create` when the account id resolves to zero. -/
theorem project_create_unresolved (r : ProjectResource) (planDiags : List Diagnostic)
    (plan : ProjectResourceModel) (hd : hasError planDiags = false)
    (hA : effectiveAccountID plan.AccountID r.accountID = 0) :
    (r.Create planDiags plan).calls = [] ∧ (r.Create planDiags plan).state = none ∧
    (r.Create planDiags plan).diags = addError planDiags (lit "Missing Account ID")
      (lit "Account ID must be provided either in the resource configuration or provider configuration") := by
  unfold effectiveAccountID at hA
  unfold ProjectResource.Create
  simp only [hd, Bool.false_eq_true, if_false, hA, if_true, and_self]

/-- Inbox `Create` when the account id resolves to zero. -/
theorem inbox_create_unresolved (r : InboxResource) (planDiags : List Diagnostic)
    (plan : InboxResourceModel) (hd : hasError planDiags = false)
    (hA : effectiveAccountID plan.AccountID r.accountID = 0) :
    (r.Create planDiags plan).calls = [] ∧ (r.Create planDiags plan).state = none ∧
    (r.Create planDiags plan).diags = addError planDiags (lit "Missing Account ID")
      (lit "Account ID must be provided either in the resource configuration or provider configuration") := by
  unfold effectiveAccountID at hA
  unfold InboxResource.Create
  simp only [hd, Bool.false_eq_true, if_false, hA, if_true, and_self]

/-- Sending-domain `Create` when the account id resolves to zero. -/
theorem domain_create_unresolved (r : SendingDomainResource) (planDiags : List Diagnostic)
    (plan : SendingDomainResourceModel) (hd : hasError planDiags = false)
    (hA : effectiveAccountID plan.AccountID r.accountID = 0) :
    (r.Create planDiags plan).calls = [] ∧ (r.Create planDiags plan).state = none ∧
    (r.Create planDiags plan).diags = addError planDiags (lit "Missing Account ID")
      (lit "Account ID must be provided either in the resource configuration or provider configuration") := by
  unfold effectiveAccountID at hA
  unfold SendingDomainResource.Create
  simp only [hd, Bool.false_eq_true, if_false, hA, if_true, and_self]

/-! ## Account resolution in `Create` -/

/-- C9 (as stated, refuted): with the resource-level account_id known and
zero and the provider-wide default 5, `Create` of each resource type sends no
request and writes no state; it fails with "Missing Account ID". The known
zero is used as given, not replaced by the default. -/
theorem C9_counterexample :
    ((ProjectResource.Create ⟨5, fun _ _ => .ok sampleProject⟩ [] (projectPlan (.known 0))).calls
        = [] ∧
      (ProjectResource.Create ⟨5, fun _ _ => .ok sampleProject⟩ [] (projectPlan (.known 0))).state
        = none ∧
      (ProjectResource.Create ⟨5, fun _ _ => .ok sampleProject⟩ []
        (projectPlan (.known 0))).diags.map (fun d => (d.severity, d.summary))
        = [(Severity.error, lit "Missing Account ID")]) ∧
    ((InboxResource.Create ⟨5, fun _ _ => .ok sampleInbox⟩ [] (inboxPlan (.known 0))).calls
        = [] ∧
      (InboxResource.Create ⟨5, fun _ _ => .ok sampleInbox⟩ [] (inboxPlan (.known 0))).state
        = none ∧
      (InboxResource.Create ⟨5, fun _ _ => .ok sampleInbox⟩ []
        (inboxPlan (.known 0))).diags.map (fun d => (d.severity, d.summary))
        = [(Severity.error, lit "Missing Account ID")]) ∧
    ((SendingDomainResource.Create ⟨5, fun _ _ => .ok sampleDomain⟩ []
        (domainPlan (.known 0))).calls = [] ∧
      (SendingDomainResource.Create ⟨5, fun _ _ => .ok sampleDomain⟩ []
        (domainPlan (.known 0))).state = none ∧
      (SendingDomainResource.Create ⟨5, fun _ _ => .ok sampleDomain⟩ []
        (domainPlan (.known 0))).diags.map (fun d => (d.severity, d.summary))
        = [(Severity.error, lit "Missing Account ID")]) :=
  ⟨⟨rfl, rfl, rfl⟩, ⟨rfl, rfl, rfl⟩, ⟨rfl, rfl, rfl⟩⟩

/-- C9 (amended): for Create on each of the three resource types, when the
resource-level account_id is absent (null or unknown) and the provider-wide
default D is greater than 0, the effective account id is D: the one request
issued is a POST to a path under /api/accounts/D, and the resulting state,
written as soon as that request succeeds, has account_id = D. A
resource-level account_id that is known is used as given whatever D is, zero
included: a known V other than 0 sends the one request to a path under
/api/accounts/V and gives a state with account_id = V; a known 0 is not
replaced by D, and Create fails with the one error "Missing Account ID",
without a request and without a state. -/
theorem C9_effective_account_id (D : Int) (planDiags : List Diagnostic)
    (hd : hasError planDiags = false) (hD : D > 0) :
    (∀ (r : ProjectResource) (plan : ProjectResourceModel), r.accountID = D →
      plan.AccountID = .null ∨ plan.AccountID = .unknown →
      (r.Create planDiags plan).calls =
        [(lit "POST", lit "/api/accounts/" ++ fmtInt D ++ lit "/projects")] ∧
      (∀ s, (r.Create planDiags plan).state = some s → s.AccountID = .known D) ∧
      (∀ p, r.Post (lit "/api/accounts/" ++ fmtInt D ++ lit "/projects")
          { Name := plan.Name.ValueString } = .ok p →
        (r.Create planDiags plan).state.isSome = true)) ∧
    (∀ (r : InboxResource) (plan : InboxResourceModel), r.accountID = D →
      plan.AccountID = .null ∨ plan.AccountID = .unknown →
      (r.Create planDiags plan).calls =
        [(lit "POST", lit "/api/accounts/" ++ fmtInt D ++ lit "/projects/" ++
          fmtInt plan.ProjectID.ValueInt64 ++ lit "/inboxes")] ∧
      (∀ s, (r.Create planDiags plan).state = some s → s.AccountID = .known D) ∧
      (∀ p, r.Post (lit "/api/accounts/" ++ fmtInt D ++ lit "/projects/" ++
            fmtInt plan.ProjectID.ValueInt64 ++ lit "/inboxes")
          { Name := plan.Name.ValueString,
            EmailUsername :=
              if !plan.EmailUsername.IsNull && !plan.EmailUsername.IsUnknown
              then plan.EmailUsername.ValueString else [] } = .ok p →
        (r.Create planDiags plan).state.isSome = true)) ∧
    (∀ (r : SendingDomainResource) (plan : SendingDomainResourceModel), r.accountID = D →
      plan.AccountID = .null ∨ plan.AccountID = .unknown →
      (r.Create planDiags plan).calls =
        [(lit "POST", lit "/api/accounts/" ++ fmtInt D ++ lit "/sending_domains")] ∧
      (∀ s, (r.Create planDiags plan).state = some s → s.AccountID = .known D) ∧
      (∀ p, r.Post (lit "/api/accounts/" ++ fmtInt D ++ lit "/sending_domains")
          { DomainName := plan.Name.ValueString } = .ok p →
        (r.Create planDiags plan).state.isSome = true)) ∧
    (∀ (r : ProjectResource) (plan : ProjectResourceModel) (V : Int), r.accountID = D →
      plan.AccountID = .known V →
      (V ≠ 0 →
        (r.Create planDiags plan).calls =
          [(lit "POST", lit "/api/accounts/" ++ fmtInt V ++ lit "/projects")] ∧
        (∀ s, (r.Create planDiags plan).state = some s → s.AccountID = .known V) ∧
        (∀ p, r.Post (lit "/api/accounts/" ++ fmtInt V ++ lit "/projects")
            { Name := plan.Name.ValueString } = .ok p →
          (r.Create planDiags plan).state.isSome = true)) ∧
      (V = 0 →
        (r.Create planDiags plan).calls = [] ∧ (r.Create planDiags plan).state = none ∧
        errorsOf (r.Create planDiags plan).diags =
          [{ severity := .error, summary := lit "Missing Account ID",
             detail := lit "Account ID must be provided either in the resource configuration or provider configuration" }])) ∧
    (∀ (r : InboxResource) (plan : InboxResourceModel) (V : Int), r.accountID = D →
      plan.AccountID = .known V →
      (V ≠ 0 →
        (r.Create planDiags plan).calls =
          [(lit "POST", lit "/api/accounts/" ++ fmtInt V ++ lit "/projects/" ++
            fmtInt plan.ProjectID.ValueInt64 ++ lit "/inboxes")] ∧
        (∀ s, (r.Create planDiags plan).state = some s → s.AccountID = .known V) ∧
        (∀ p, r.Post (lit "/api/accounts/" ++ fmtInt V ++ lit "/projects/" ++
            fmtInt plan.ProjectID.ValueInt64 ++ lit "/inboxes")
            { Name := plan.Name.ValueString,
              EmailUsername :=
                if !plan.EmailUsername.IsNull && !plan.EmailUsername.IsUnknown
                then plan.EmailUsername.ValueString else [] } = .ok p →
          (r.Create planDiags plan).state.isSome = true)) ∧
      (V = 0 →
        (r.Create planDiags plan).calls = [] ∧ (r.Create planDiags plan).state = none ∧
        errorsOf (r.Create planDiags plan).diags =
          [{ severity := .error, summary := lit "Missing Account ID",
             detail := lit "Account ID must be provided either in the resource configuration or provider configuration" }])) ∧
    (∀ (r : SendingDomainResource) (plan : SendingDomainResourceModel) (V : Int), r.accountID = D →
      plan.AccountID = .known V →
      (V ≠ 0 →
        (r.Create planDiags plan).calls =
          [(lit "POST", lit "/api/accounts/" ++ fmtInt V ++ lit "/sending_domains")] ∧
        (∀ s, (r.Create planDiags plan).state = some s → s.AccountID = .known V) ∧
        (∀ p, r.Post (lit "/api/accounts/" ++ fmtInt V ++ lit "/sending_domains")
            { DomainName := plan.Name.ValueString } = .ok p →
          (r.Create planDiags plan).state.isSome = true)) ∧
      (V = 0 →
        (r.Create planDiags plan).calls = [] ∧ (r.Create planDiags plan).state = none ∧
        errorsOf (r.Create planDiags plan).diags =
          [{ severity := .error, summary := lit "Missing Account ID",
             detail := lit "Account ID must be provided either in the resource configuration or provider configuration" }])) := by
  have h0 : D ≠ 0 := by omega
  refine ⟨fun r plan hr ha => ?_, fun r plan hr ha => ?_, fun r plan hr ha => ?_,
    fun r plan V _ ha => ⟨fun hV => ?_, fun hV => ?_⟩,
    fun r plan V _ ha => ⟨fun hV => ?_, fun hV => ?_⟩,
    fun r plan V _ ha => ⟨fun hV => ?_, fun hV => ?_⟩⟩
  · exact project_create_resolved r planDiags plan D hd
      (hr ▸ effectiveAccountID_absent _ _ ha) h0
  · exact inbox_create_resolved r planDiags plan D hd
      (hr ▸ effectiveAccountID_absent _ _ ha) h0
  · exact domain_create_resolved r planDiags plan D hd
      (hr ▸ effectiveAccountID_absent _ _ ha) h0
  · exact project_create_resolved r planDiags plan V hd
      (ha ▸ effectiveAccountID_known V r.accountID) hV
  · subst hV
    obtain ⟨h1, h2, h3⟩ := project_create_unresolved r planDiags plan hd
      (ha ▸ effectiveAccountID_known 0 r.accountID)
    exact ⟨h1, h2, h3 ▸ errorsOf_addError _ _ _ hd⟩
  · exact inbox_create_resolved r planDiags plan V hd
      (ha ▸ effectiveAccountID_known V r.accountID) hV
  · subst hV
    obtain ⟨h1, h2, h3⟩ := inbox_create_unresolved r planDiags plan hd
      (ha ▸ effectiveAccountID_known 0 r.accountID)
    exact ⟨h1, h2, h3 ▸ errorsOf_addError _ _ _ hd⟩
  · exact domain_create_resolved r planDiags plan V hd
      (ha ▸ effectiveAccountID_known V r.accountID) hV
  · subst hV
    obtain ⟨h1, h2, h3⟩ := domain_create_unresolved r planDiags plan hd
      (ha ▸ effectiveAccountID_known 0 r.accountID)
    exact ⟨h1, h2, h3 ▸ errorsOf_addError _ _ _ hd⟩

theorem C9_witness :
    ((ProjectResource.Create ⟨12345, fun _ _ => .ok sampleProject⟩ [] (projectPlan .null)).calls =
        [(lit "POST", lit "/api/accounts/" ++ fmtInt 12345 ++ lit "/projects")] ∧
      (ProjectResource.Create ⟨12345, fun _ _ => .ok sampleProject⟩ []
        (projectPlan .null)).state.isSome = true) ∧
    ((InboxResource.Create ⟨12345, fun _ _ => .ok sampleInbox⟩ [] (inboxPlan .unknown)).calls =
        [(lit "POST", lit "/api/accounts/" ++ fmtInt 12345 ++ lit "/projects/" ++
          fmtInt (inboxPlan .unknown).ProjectID.ValueInt64 ++ lit "/inboxes")] ∧
      (InboxResource.Create ⟨12345, fun _ _ => .ok sampleInbox⟩ []
        (inboxPlan .unknown)).state.isSome = true) ∧
    ((SendingDomainResource.Create ⟨12345, fun _ _ => .ok sampleDomain⟩ []
        (domainPlan .null)).calls =
        [(lit "POST", lit "/api/accounts/" ++ fmtInt 12345 ++ lit "/sending_domains")] ∧
      (SendingDomainResource.Create ⟨12345, fun _ _ => .ok sampleDomain⟩ []
        (domainPlan .null)).state.isSome = true) ∧
    ((ProjectResource.Create ⟨12345, fun _ _ => .ok sampleProject⟩ []
        (projectPlan (.known 456))).calls =
        [(lit "POST", lit "/api/accounts/" ++ fmtInt 456 ++ lit "/projects")] ∧
      (ProjectResource.Create ⟨12345, fun _ _ => .ok sampleProject⟩ []
        (projectPlan (.known 456))).state.isSome = true) ∧
    ((InboxResource.Create ⟨12345, fun _ _ => .ok sampleInbox⟩ []
        (inboxPlan (.known 0))).calls = [] ∧
      (InboxResource.Create ⟨12345, fun _ _ => .ok sampleInbox⟩ []
        (inboxPlan (.known 0))).state = none) ∧
    ((SendingDomainResource.Create ⟨12345, fun _ _ => .ok sampleDomain⟩ []
        (domainPlan (.known (-7)))).calls =
        [(lit "POST", lit "/api/accounts/" ++ fmtInt (-7) ++ lit "/sending_domains")]) :=
  have h := C9_effective_account_id 12345 [] rfl (by decide)
  ⟨⟨(h.1 ⟨12345, fun _ _ => .ok sampleProject⟩ (projectPlan .null) rfl (Or.inl rfl)).1,
    (h.1 ⟨12345, fun _ _ => .ok sampleProject⟩ (projectPlan .null) rfl (Or.inl rfl)).2.2
      sampleProject rfl⟩,
   ⟨(h.2.1 ⟨12345, fun _ _ => .ok sampleInbox⟩ (inboxPlan .unknown) rfl (Or.inr rfl)).1,
    (h.2.1 ⟨12345, fun _ _ => .ok sampleInbox⟩ (inboxPlan .unknown) rfl (Or.inr rfl)).2.2
      sampleInbox rfl⟩,
   ⟨(h.2.2.1 ⟨12345, fun _ _ => .ok sampleDomain⟩ (domainPlan .null) rfl (Or.inl rfl)).1,
    (h.2.2.1 ⟨12345, fun _ _ => .ok sampleDomain⟩ (domainPlan .null) rfl (Or.inl rfl)).2.2
      sampleDomain rfl⟩,
   ⟨((h.2.2.2.1 ⟨12345, fun _ _ => .ok sampleProject⟩ (projectPlan (.known 456)) 456 rfl
      rfl).1 (by decide)).1,
    ((h.2.2.2.1 ⟨12345, fun _ _ => .ok sampleProject⟩ (projectPlan (.known 456)) 456 rfl
      rfl).1 (by decide)).2.2 sampleProject rfl⟩,
   ⟨((h.2.2.2.2.1 ⟨12345, fun _ _ => .ok sampleInbox⟩ (inboxPlan (.known 0)) 0 rfl
      rfl).2 rfl).1,
    ((h.2.2.2.2.1 ⟨12345, fun _ _ => .ok sampleInbox⟩ (inboxPlan (.known 0)) 0 rfl
      rfl).2 rfl).2.1⟩,
   ((h.2.2.2.2.2 ⟨12345, fun _ _ => .ok sampleDomain⟩ (domainPlan (.known (-7))) (-7) rfl
      rfl).1 (by decide)).1⟩

/-- C10: for Create on each of the three resource types, when the
resource-level account_id is a known value V > 0, the effective account id is
V whatever the provider-wide default is: the one request issued is a POST to
a path under /api/accounts/V, and the resulting state, written as soon as
that request succeeds, has account_id = V. -/
theorem C10_known_account_id_wins (V : Int) (planDiags : List Diagnostic)
    (hd : hasError planDiags = false) (hV : V > 0) :
    (∀ (r : ProjectResource) (plan : ProjectResourceModel), plan.AccountID = .known V →
      (r.Create planDiags plan).calls =
        [(lit "POST", lit "/api/accounts/" ++ fmtInt V ++ lit "/projects")] ∧
      (∀ s, (r.Create planDiags plan).state = some s → s.AccountID = .known V) ∧
      (∀ p, r.Post (lit "/api/accounts/" ++ fmtInt V ++ lit "/projects")
          { Name := plan.Name.ValueString } = .ok p →
        (r.Create planDiags plan).state.isSome = true)) ∧
    (∀ (r : InboxResource) (plan : InboxResourceModel), plan.AccountID = .known V →
      (r.Create planDiags plan).calls =
        [(lit "POST", lit "/api/accounts/" ++ fmtInt V ++ lit "/projects/" ++
          fmtInt plan.ProjectID.ValueInt64 ++ lit "/inboxes")] ∧
      (∀ s, (r.Create planDiags plan).state = some s → s.AccountID = .known V) ∧
      (∀ p, r.Post (lit "/api/accounts/" ++ fmtInt V ++ lit "/projects/" ++
            fmtInt plan.ProjectID.ValueInt64 ++ lit "/inboxes")
          { Name := plan.Name.ValueString,
            EmailUsername :=
              if !plan.EmailUsername.IsNull && !plan.EmailUsername.IsUnknown
              then plan.EmailUsername.ValueString else [] } = .ok p →
        (r.Create planDiags plan).state.isSome = true)) ∧
    (∀ (r : SendingDomainResource) (plan : SendingDomainResourceModel),
      plan.AccountID = .known V →
      (r.Create planDiags plan).calls =
        [(lit "POST", lit "/api/accounts/" ++ fmtInt V ++ lit "/sending_domains")] ∧
      (∀ s, (r.Create planDiags plan).state = some s → s.AccountID = .known V) ∧
      (∀ p, r.Post (lit "/api/accounts/" ++ fmtInt V ++ lit "/sending_domains")
          { DomainName := plan.Name.ValueString } = .ok p →
        (r.Create planDiags plan).state.isSome = true)) := by
  have h0 : V ≠ 0 := by omega
  refine ⟨fun r plan ha => ?_, fun r plan ha => ?_, fun r plan ha => ?_⟩
  · exact project_create_resolved r planDiags plan V hd
      (ha ▸ effectiveAccountID_known V r.accountID) h0
  · exact inbox_create_resolved r planDiags plan V hd
      (ha ▸ effectiveAccountID_known V r.accountID) h0
  · exact domain_create_resolved r planDiags plan V hd
      (ha ▸ effectiveAccountID_known V r.accountID) h0

theorem C10_witness :
    ((ProjectResource.Create ⟨0, fun _ _ => .ok sampleProject⟩ [] (projectPlan (.known 456))).calls =
        [(lit "POST", lit "/api/accounts/" ++ fmtInt 456 ++ lit "/projects")] ∧
      (ProjectResource.Create ⟨0, fun _ _ => .ok sampleProject⟩ []
        (projectPlan (.known 456))).state.isSome = true) ∧
    ((InboxResource.Create ⟨12345, fun _ _ => .ok sampleInbox⟩ []
        (inboxPlan (.known 456))).calls =
        [(lit "POST", lit "/api/accounts/" ++ fmtInt 456 ++ lit "/projects/" ++
          fmtInt (inboxPlan (.known 456)).ProjectID.ValueInt64 ++ lit "/inboxes")] ∧
      (InboxResource.Create ⟨12345, fun _ _ => .ok sampleInbox⟩ []
        (inboxPlan (.known 456))).state.isSome = true) ∧
    ((SendingDomainResource.Create ⟨12345, fun _ _ => .ok sampleDomain⟩ []
        (domainPlan (.known 456))).calls =
        [(lit "POST", lit "/api/accounts/" ++ fmtInt 456 ++ lit "/sending_domains")] ∧
      (SendingDomainResource.Create ⟨12345, fun _ _ => .ok sampleDomain⟩ []
        (domainPlan (.known 456))).state.isSome = true) :=
  have h := C10_known_account_id_wins 456 [] rfl (by decide)
  ⟨⟨(h.1 ⟨0, fun _ _ => .ok sampleProject⟩ (projectPlan (.known 456)) rfl).1,
    (h.1 ⟨0, fun _ _ => .ok sampleProject⟩ (projectPlan (.known 456)) rfl).2.2
      sampleProject rfl⟩,
   ⟨(h.2.1 ⟨12345, fun _ _ => .ok sampleInbox⟩ (inboxPlan (.known 456)) rfl).1,
    (h.2.1 ⟨12345, fun _ _ => .ok sampleInbox⟩ (inboxPlan (.known 456)) rfl).2.2
      sampleInbox rfl⟩,
   ⟨(h.2.2 ⟨12345, fun _ _ => .ok sampleDomain⟩ (domainPlan (.known 456)) rfl).1,
    (h.2.2 ⟨12345, fun _ _ => .ok sampleDomain⟩ (domainPlan (.known 456)) rfl).2.2
      sampleDomain rfl⟩⟩


/-! ## Lemmas: `strings.Split` -/

theorem stringsSplit_ne_nil (sep : UInt8) (s : GoString) : stringsSplit sep s ≠ [] := by
  cases s with
  | nil => simp [stringsSplit]
  | cons b rest =>
    unfold stringsSplit
    split_ifs
    · simp
    · split <;> simp

theorem stringsSplit_cons_ne (sep b : UInt8) (rest : GoString) (h : b ≠ sep) :
    ∃ piece pieces, stringsSplit sep rest = piece :: pieces ∧
      stringsSplit sep (b :: rest) = (b :: piece) :: pieces := by
  cases hr : stringsSplit sep rest with
  | nil => exact absurd hr (stringsSplit_ne_nil sep rest)
  | cons piece pieces =>
    refine ⟨piece, pieces, rfl, ?_⟩
    rw [stringsSplit, if_neg h, hr]

theorem stringsSplit_length (sep : UInt8) (s : GoString) :
    (stringsSplit sep s).length = s.count sep + 1 := by
  induction s with
  | nil => simp [stringsSplit]
  | cons b rest ih =>
    by_cases h : b = sep
    · subst h
      rw [stringsSplit, if_pos rfl, List.length_cons, ih, List.count_cons_self]
    · obtain ⟨piece, pieces, hr, hs⟩ := stringsSplit_cons_ne sep b rest h
      rw [hs, List.length_cons, List.count_cons_of_ne (Ne.symm h), ← ih, hr, List.length_cons]

theorem stringsSplit_of_not_mem (sep : UInt8) (s : GoString) (h : sep ∉ s) :
    stringsSplit sep s = [s] := by
  induction s with
  | nil => rfl
  | cons b rest ih =>
    have hb : b ≠ sep := fun e => h (e ▸ List.mem_cons_self _ _)
    have hrest : sep ∉ rest := fun m => h (List.mem_cons_of_mem _ m)
    rw [stringsSplit, if_neg hb, ih hrest]

theorem stringsSplit_append (sep : UInt8) (x y : GoString) (hx : sep ∉ x) :
    stringsSplit sep (x ++ sep :: y) = x :: stringsSplit sep y := by
  induction x with
  | nil => simp [stringsSplit]
  | cons b rest ih =>
    have hb : b ≠ sep := fun e => hx (e ▸ List.mem_cons_self _ _)
    have hrest : sep ∉ rest := fun m => hx (List.mem_cons_of_mem _ m)
    rw [List.cons_append, stringsSplit, if_neg hb, ih hrest]

/-- An identifier with exactly one separator splits into the two pieces
around it. -/
theorem stringsSplit_two (sep : UInt8) (x y : GoString) (hx : sep ∉ x) (hy : sep ∉ y) :
    stringsSplit sep (x ++ sep :: y) = [x, y] := by
  rw [stringsSplit_append sep x y hx, stringsSplit_of_not_mem sep y hy]

/-! ## Lemmas: decimal rendering and `strconv.ParseInt` -/

theorem lit_append (s t : String) : lit (s ++ t) = lit s ++ lit t := by
  simp [lit, String.data_append, List.flatMap_append]

theorem toDigitsCore_acc (fuel n : Nat) (ds : List Char) :
    Nat.toDigitsCore 10 fuel n ds = Nat.toDigitsCore 10 fuel n [] ++ ds := by
  induction fuel generalizing n ds with
  | zero => simp [Nat.toDigitsCore]
  | succ fuel ih =>
    simp only [Nat.toDigitsCore]
    split_ifs
    · simp
    · rw [ih (n / 10) ((n % 10).digitChar :: ds), ih (n / 10) [(n % 10).digitChar]]
      simp

theorem encode_digitChar (d : Nat) (h : d < 10) :
    String.utf8EncodeChar (Nat.digitChar d) = [UInt8.ofNat (48 + d)] := by
  interval_cases d <;> rfl

theorem digit_byte_facts (d : Nat) (h : d < 10) :
    (0x30 ≤ UInt8.ofNat (48 + d) ∧ UInt8.ofNat (48 + d) ≤ 0x39) ∧
      (UInt8.ofNat (48 + d)).toNat - 0x30 = d ∧
      UInt8.ofNat (48 + d) ≠ 0x2B ∧ UInt8.ofNat (48 + d) ≠ 0x2D ∧
      UInt8.ofNat (48 + d) ≠ 0x2F := by
  interval_cases d <;> decide

theorem parseUintLoop_append (xs ys : GoString) (a : Nat) :
    parseUintLoop (xs ++ ys) a =
      match parseUintLoop xs a with
      | .ok n => parseUintLoop ys n
      | .error e => .error e := by
  induction xs generalizing a with
  | nil => simp [parseUintLoop]
  | cons c rest ih =>
    simp only [List.cons_append, parseUintLoop]
    split_ifs <;> first | rfl | exact ih _

theorem parseUintLoop_digit (d a : Nat) (hd : d < 10) (ha : a * 10 + d < 2 ^ 64) :
    parseUintLoop [UInt8.ofNat (48 + d)] a = .ok (a * 10 + d) := by
  obtain ⟨hdig, hval, -⟩ := digit_byte_facts d hd
  have h1 : ¬ a ≥ (2 ^ 64 - 1) / 10 + 1 := by omega
  have h2 : ¬ a * 10 + d > 2 ^ 64 - 1 := by omega
  simp only [parseUintLoop, hdig, and_self, if_true, h1, if_false, hval, h2]

/-- The decimal digits of `n`, as `Nat.repr` produces them, are read back as
`n` by the digit loop, are not empty, and start with a digit. -/
theorem parseUintLoop_toDigitsCore (fuel n : Nat) (hf : n < fuel) (hn : n < 2 ^ 64) :
    parseUintLoop ((Nat.toDigitsCore 10 fuel n []).flatMap String.utf8EncodeChar) 0 = .ok n ∧
    (Nat.toDigitsCore 10 fuel n []).flatMap String.utf8EncodeChar ≠ [] := by
  induction fuel generalizing n with
  | zero => omega
  | succ fuel ih =>
    simp only [Nat.toDigitsCore]
    have hd : n % 10 < 10 := Nat.mod_lt _ (by decide)
    split_ifs with h0
    · have hn10 : n < 10 := by omega
      have hmod : n % 10 = n := Nat.mod_eq_of_lt hn10
      rw [hmod]
      simp only [List.flatMap_cons, List.flatMap_nil, List.append_nil, encode_digitChar n hn10]
      refine ⟨?_, by simp⟩
      have := parseUintLoop_digit n 0 hn10 (by omega)
      simpa using this
    · have hlt : n / 10 < fuel := by omega
      obtain ⟨ihp, -⟩ := ih (n / 10) hlt (by omega)
      rw [toDigitsCore_acc, List.flatMap_append]
      simp only [List.flatMap_cons, List.flatMap_nil, List.append_nil,
        encode_digitChar (n % 10) hd]
      refine ⟨?_, by simp⟩
      rw [parseUintLoop_append, ihp]
      have := parseUintLoop_digit (n % 10) (n / 10) hd (by omega)
      simp only [this]
      congr 1
      omega

theorem parseUintLoop_ok_digits (bs : GoString) (a n : Nat)
    (h : parseUintLoop bs a = .ok n) : ∀ b ∈ bs, 0x30 ≤ b ∧ b ≤ 0x39 := by
  induction bs generalizing a with
  | nil => simp
  | cons c rest ih =>
    simp only [parseUintLoop] at h
    split_ifs at h with hc h1 h2
    intro b hb
    rcases List.mem_cons.mp hb with rfl | hb
    · exact hc
    · exact ih _ h b hb

/-- The rendering of a natural number below 2^64: what `ParseUint` makes of it. -/
theorem parseUint_repr (n : Nat) (hn : n < 2 ^ 64) :
    strconvParseUint (lit (Nat.repr n)) = .ok n ∧
    (∀ b ∈ lit (Nat.repr n), 0x30 ≤ b ∧ b ≤ 0x39) ∧ lit (Nat.repr n) ≠ [] := by
  have h := parseUintLoop_toDigitsCore (n + 1) n (by omega) hn
  have hl : lit (Nat.repr n) =
      (Nat.toDigitsCore 10 (n + 1) n []).flatMap String.utf8EncodeChar := rfl
  rw [hl]
  refine ⟨?_, parseUintLoop_ok_digits _ 0 n h.1, h.2⟩
  simp [strconvParseUint, h.1, h.2]

/-- Reading back the decimal rendering of a 64-bit integer gives the integer. -/
theorem strconvParseInt_fmtInt (a : Int) (hlo : -2 ^ 63 ≤ a) (hhi : a < 2 ^ 63) :
    strconvParseInt (fmtInt a) = .ok a := by
  cases a with
  | ofNat m =>
    have hm : m < 2 ^ 63 := by
      have h : (m : Int) < 2 ^ 63 := hhi
      omega
    obtain ⟨hp, hdig, hne⟩ := parseUint_repr m (by omega)
    have hf : fmtInt (Int.ofNat m) = lit (Nat.repr m) := rfl
    rw [hf]
    cases hs : lit (Nat.repr m) with
    | nil => exact absurd hs hne
    | cons c rest =>
      rw [hs] at hp hdig
      have hc := hdig c (List.mem_cons_self _ _)
      have hplus : c ≠ 0x2B := by
        rintro rfl; exact absurd hc (by decide)
      have hminus : c ≠ 0x2D := by
        rintro rfl; exact absurd hc (by decide)
      simp only [strconvParseInt, hplus, hminus, or_self, if_false, hp]
      have : ¬ m ≥ 2 ^ 63 := by omega
      simp [this]
      omega
  | negSucc m =>
    have hm : m + 1 ≤ 2 ^ 63 := by
      have : -(2 : Int) ^ 63 ≤ -((m : Int) + 1) := by
        simpa [Int.negSucc_eq] using hlo
      omega
    obtain ⟨hp, -, -⟩ := parseUint_repr (m + 1) (by omega)
    have hf : fmtInt (Int.negSucc m) = 0x2D :: lit (Nat.repr (m + 1)) := by
      show lit ("-" ++ Nat.repr (m + 1)) = _
      rw [lit_append]
      rfl
    rw [hf]
    simp only [strconvParseInt, or_true, if_true, hp]
    have : ¬ m + 1 > 2 ^ 63 := by omega
    simp [this, Int.negSucc_eq]
    omega

/-- The rendering of an integer contains no `/`. -/
theorem slash_not_mem_fmtInt (a : Int) (hlo : -2 ^ 63 ≤ a) (hhi : a < 2 ^ 63) :
    (0x2F : UInt8) ∉ fmtInt a := by
  cases a with
  | ofNat m =>
    have hm : m < 2 ^ 63 := by
      have h : (m : Int) < 2 ^ 63 := hhi
      omega
    obtain ⟨-, hdig, -⟩ := parseUint_repr m (by omega)
    intro hmem
    exact absurd (hdig _ hmem) (by decide)
  | negSucc m =>
    have hm : m + 1 ≤ 2 ^ 63 := by
      have : -(2 : Int) ^ 63 ≤ -((m : Int) + 1) := by
        simpa [Int.negSucc_eq] using hlo
      omega
    obtain ⟨-, hdig, -⟩ := parseUint_repr (m + 1) (by omega)
    have hf : fmtInt (Int.negSucc m) = 0x2D :: lit (Nat.repr (m + 1)) := by
      show lit ("-" ++ Nat.repr (m + 1)) = _
      rw [lit_append]
      rfl
    rw [hf]
    intro hmem
    rcases List.mem_cons.mp hmem with h | h
    · exact absurd h (by decide)
    · exact absurd (hdig _ h) (by decide)

/-! ## Lemmas: diagnostics and the failure paths of `Create` -/

theorem effectiveAccountID_zero (planned : TFValue Int)
    (h : planned = .null ∨ planned = .unknown ∨ planned = .known 0) :
    effectiveAccountID planned 0 = 0 := by
  rcases h with h | h | h <;> subst h <;> rfl

/-- Project `Create` when the request it sends fails. -/
theorem project_create_failed (r : ProjectResource) (planDiags : List Diagnostic)
    (plan : ProjectResourceModel) (A : Int) (err : GoString) (hd : hasError planDiags = false)
    (hA : effectiveAccountID plan.AccountID r.accountID = A) (h0 : A ≠ 0)
    (hp : r.Post (lit "/api/accounts/" ++ fmtInt A ++ lit "/projects")
      { Name := plan.Name.ValueString } = .error err) :
    (r.Create planDiags plan).state = none ∧
    (r.Create planDiags plan).diags = addError planDiags (lit "Client Error")
      (lit "Unable to create project, got error: " ++ err) := by
  unfold effectiveAccountID at hA
  unfold ProjectResource.Create
  simp only [hd, Bool.false_eq_true, if_false, hA, h0, hp, and_self]

/-- Inbox `Create` when the request it sends fails. -/
theorem inbox_create_failed (r : InboxResource) (planDiags : List Diagnostic)
    (plan : InboxResourceModel) (A : Int) (err : GoString) (hd : hasError planDiags = false)
    (hA : effectiveAccountID plan.AccountID r.accountID = A) (h0 : A ≠ 0)
    (hp : r.Post (lit "/api/accounts/" ++ fmtInt A ++ lit "/projects/" ++
          fmtInt plan.ProjectID.ValueInt64 ++ lit "/inboxes")
        { Name := plan.Name.ValueString,
          EmailUsername :=
            if !plan.EmailUsername.IsNull && !plan.EmailUsername.IsUnknown
            then plan.EmailUsername.ValueString else [] } = .error err) :
    (r.Create planDiags plan).state = none ∧
    (r.Create planDiags plan).diags = addError planDiags (lit "Client Error")
      (lit "Unable to create inbox, got error: " ++ err) := by
  unfold effectiveAccountID at hA
  unfold InboxResource.Create
  simp only [hd, Bool.false_eq_true, if_false, hA, h0, hp, and_self]

/-- Sending-domain `Create` when the request it sends fails. -/
theorem domain_create_failed (r : SendingDomainResource) (planDiags : List Diagnostic)
    (plan : SendingDomainResourceModel) (A : Int) (err : GoString)
    (hd : hasError planDiags = false)
    (hA : effectiveAccountID plan.AccountID r.accountID = A) (h0 : A ≠ 0)
    (hp : r.Post (lit "/api/accounts/" ++ fmtInt A ++ lit "/sending_domains")
      { DomainName := plan.Name.ValueString } = .error err) :
    (r.Create planDiags plan).state = none ∧
    (r.Create planDiags plan).diags = addError planDiags (lit "Client Error")
      (lit "Unable to create sending domain, got error: " ++ err) := by
  unfold effectiveAccountID at hA
  unfold SendingDomainResource.Create
  simp only [hd, Bool.false_eq_true, if_false, hA, h0, hp, and_self]

/-! ## Lemmas: `ImportState` -/

theorem importState_wrong_arity (quote : GoString → GoString)
    (idField idTitle idLabel reqID : GoString) (h : reqID.count 0x2F ≠ 1) :
    importState quote idField idTitle idLabel reqID =
      { diags := [{ severity := .error, summary := lit "Incorrect Import ID",
                    detail := lit "Import ID must be in the format: account_id/" ++ idField }],
        attrs := [] } := by
  have hlen := stringsSplit_length 0x2F reqID
  unfold importState
  split
  · rename_i part0 part1 heq
    rw [heq] at hlen
    simp at hlen
    omega
  · rfl

theorem importState_bad_account (quote : GoString → GoString)
    (idField idTitle idLabel part0 part1 : GoString) (err : NumErr)
    (h0 : (0x2F : UInt8) ∉ part0) (h1 : (0x2F : UInt8) ∉ part1)
    (hp : strconvParseInt part0 = .error err) :
    importState quote idField idTitle idLabel (part0 ++ lit "/" ++ part1) =
      { diags := [{ severity := .error, summary := lit "Invalid Account ID",
                    detail := lit "Could not parse account ID: " ++
                      numErrorText quote part0 err }],
        attrs := [] } := by
  have hs : stringsSplit 0x2F (part0 ++ lit "/" ++ part1) = [part0, part1] := by
    have := stringsSplit_two 0x2F part0 part1 h0 h1
    simpa [show lit "/" = [(0x2F : UInt8)] from rfl] using this
  simp only [importState, hs, hp, addError, List.nil_append]

theorem importState_bad_resource (quote : GoString → GoString)
    (idField idTitle idLabel part0 part1 : GoString) (a : Int) (err : NumErr)
    (h0 : (0x2F : UInt8) ∉ part0) (h1 : (0x2F : UInt8) ∉ part1)
    (hp0 : strconvParseInt part0 = .ok a) (hp1 : strconvParseInt part1 = .error err) :
    importState quote idField idTitle idLabel (part0 ++ lit "/" ++ part1) =
      { diags := [{ severity := .error, summary := idTitle,
                    detail := lit "Could not parse " ++ idLabel ++ lit ": " ++
                      numErrorText quote part1 err }],
        attrs := [] } := by
  have hs : stringsSplit 0x2F (part0 ++ lit "/" ++ part1) = [part0, part1] := by
    have := stringsSplit_two 0x2F part0 part1 h0 h1
    simpa [show lit "/" = [(0x2F : UInt8)] from rfl] using this
  simp only [importState, hs, hp0, hp1, addError, List.nil_append]

theorem importState_ok (quote : GoString → GoString)
    (idField idTitle idLabel : GoString) (a r : Int)
    (ha : -2 ^ 63 ≤ a ∧ a < 2 ^ 63) (hr : -2 ^ 63 ≤ r ∧ r < 2 ^ 63) :
    importState quote idField idTitle idLabel (fmtInt a ++ lit "/" ++ fmtInt r) =
      { diags := [], attrs := [(lit "account_id", a), (lit "id", r)] } := by
  have hs : stringsSplit 0x2F (fmtInt a ++ lit "/" ++ fmtInt r) = [fmtInt a, fmtInt r] := by
    have := stringsSplit_two 0x2F (fmtInt a) (fmtInt r)
      (slash_not_mem_fmtInt a ha.1 ha.2) (slash_not_mem_fmtInt r hr.1 hr.2)
    simpa [show lit "/" = [(0x2F : UInt8)] from rfl] using this
  simp only [importState, hs, strconvParseInt_fmtInt a ha.1 ha.2,
    strconvParseInt_fmtInt r hr.1 hr.2]

/-! ## Lemmas: conversion of DNS records -/

theorem recoverDNSRecord_convert (record : client.DNSRecord) :
    recoverDNSRecord (convertDNSRecord record) = some record := by
  obtain ⟨priority, recordType, hostname, value, status⟩ := record
  cases priority <;> rfl

theorem recoverDNSList_convert (records : List client.DNSRecord) :
    recoverDNSList (records.map convertDNSRecord) = some records := by
  induction records with
  | nil => rfl
  | cons record rest ih =>
    simp only [List.map_cons, recoverDNSList, recoverDNSRecord_convert, ih]

/-! ## Unresolved account id in `Create` -/

/-- C11: for Create on each of the three resource types, when the plan was
read without error, the resource-level account_id is absent (null or unknown)
or zero and the provider-wide default is zero, Create issues no transport
request, writes no state, and its only error diagnostic is
"Missing Account ID". -/
theorem C11_missing_account_id (planDiags : List Diagnostic)
    (hd : hasError planDiags = false) :
    (∀ (r : ProjectResource) (plan : ProjectResourceModel), r.accountID = 0 →
      plan.AccountID = .null ∨ plan.AccountID = .unknown ∨ plan.AccountID = .known 0 →
      (r.Create planDiags plan).calls = [] ∧ (r.Create planDiags plan).state = none ∧
      errorsOf (r.Create planDiags plan).diags =
        [{ severity := .error, summary := lit "Missing Account ID",
           detail := lit "Account ID must be provided either in the resource configuration or provider configuration" }]) ∧
    (∀ (r : InboxResource) (plan : InboxResourceModel), r.accountID = 0 →
      plan.AccountID = .null ∨ plan.AccountID = .unknown ∨ plan.AccountID = .known 0 →
      (r.Create planDiags plan).calls = [] ∧ (r.Create planDiags plan).state = none ∧
      errorsOf (r.Create planDiags plan).diags =
        [{ severity := .error, summary := lit "Missing Account ID",
           detail := lit "Account ID must be provided either in the resource configuration or provider configuration" }]) ∧
    (∀ (r : SendingDomainResource) (plan : SendingDomainResourceModel), r.accountID = 0 →
      plan.AccountID = .null ∨ plan.AccountID = .unknown ∨ plan.AccountID = .known 0 →
      (r.Create planDiags plan).calls = [] ∧ (r.Create planDiags plan).state = none ∧
      errorsOf (r.Create planDiags plan).diags =
        [{ severity := .error, summary := lit "Missing Account ID",
           detail := lit "Account ID must be provided either in the resource configuration or provider configuration" }]) := by
  refine ⟨fun r plan hr ha => ?_, fun r plan hr ha => ?_, fun r plan hr ha => ?_⟩
  · obtain ⟨h1, h2, h3⟩ := project_create_unresolved r planDiags plan hd
      (hr ▸ effectiveAccountID_zero _ ha)
    exact ⟨h1, h2, h3 ▸ errorsOf_addError _ _ _ hd⟩
  · obtain ⟨h1, h2, h3⟩ := inbox_create_unresolved r planDiags plan hd
      (hr ▸ effectiveAccountID_zero _ ha)
    exact ⟨h1, h2, h3 ▸ errorsOf_addError _ _ _ hd⟩
  · obtain ⟨h1, h2, h3⟩ := domain_create_unresolved r planDiags plan hd
      (hr ▸ effectiveAccountID_zero _ ha)
    exact ⟨h1, h2, h3 ▸ errorsOf_addError _ _ _ hd⟩

theorem C11_witness :
    ((ProjectResource.Create ⟨0, fun _ _ => .ok sampleProject⟩ [] (projectPlan .null)).calls = [] ∧
      (ProjectResource.Create ⟨0, fun _ _ => .ok sampleProject⟩ [] (projectPlan .null)).state
        = none ∧
      errorsOf (ProjectResource.Create ⟨0, fun _ _ => .ok sampleProject⟩ []
        (projectPlan .null)).diags =
        [{ severity := .error, summary := lit "Missing Account ID",
           detail := lit "Account ID must be provided either in the resource configuration or provider configuration" }]) ∧
    ((SendingDomainResource.Create ⟨0, fun _ _ => .ok sampleDomain⟩ []
        (domainPlan (.known 0))).calls = [] ∧
      (SendingDomainResource.Create ⟨0, fun _ _ => .ok sampleDomain⟩ []
        (domainPlan (.known 0))).state = none ∧
      errorsOf (SendingDomainResource.Create ⟨0, fun _ _ => .ok sampleDomain⟩ []
        (domainPlan (.known 0))).diags =
        [{ severity := .error, summary := lit "Missing Account ID",
           detail := lit "Account ID must be provided either in the resource configuration or provider configuration" }]) :=
  ⟨(C11_missing_account_id [] rfl).1 ⟨0, fun _ _ => .ok sampleProject⟩ (projectPlan .null) rfl
      (Or.inl rfl),
   (C11_missing_account_id [] rfl).2.2 ⟨0, fun _ _ => .ok sampleDomain⟩ (domainPlan (.known 0))
      rfl (Or.inr (Or.inr rfl))⟩

/-! ## `ImportState` -/

/-- C12: for each of the three resource types and every pair of 64-bit
integers a and r, ImportState on the base-10 rendering of a, one "/", and the
base-10 rendering of r reports no diagnostic and sets exactly the two state
attributes account_id = a and id = r. -/
theorem C12_import_round_trip (quote : GoString → GoString) (a r : Int)
    (ha : -2 ^ 63 ≤ a ∧ a < 2 ^ 63) (hr : -2 ^ 63 ≤ r ∧ r < 2 ^ 63) :
    ProjectResource.ImportState quote (fmtInt a ++ lit "/" ++ fmtInt r) =
      { diags := [], attrs := [(lit "account_id", a), (lit "id", r)] } ∧
    InboxResource.ImportState quote (fmtInt a ++ lit "/" ++ fmtInt r) =
      { diags := [], attrs := [(lit "account_id", a), (lit "id", r)] } ∧
    SendingDomainResource.ImportState quote (fmtInt a ++ lit "/" ++ fmtInt r) =
      { diags := [], attrs := [(lit "account_id", a), (lit "id", r)] } :=
  ⟨importState_ok quote _ _ _ a r ha hr, importState_ok quote _ _ _ a r ha hr,
    importState_ok quote _ _ _ a r ha hr⟩

theorem C12_witness :
    ProjectResource.ImportState quoteASCII (lit "12/34") =
      { diags := [], attrs := [(lit "account_id", 12), (lit "id", 34)] } ∧
    SendingDomainResource.ImportState quoteASCII
        (lit "-9223372036854775808/9223372036854775807") =
      { diags := [],
        attrs := [(lit "account_id", -9223372036854775808), (lit "id", 9223372036854775807)] } :=
  ⟨(by decide : fmtInt 12 ++ lit "/" ++ fmtInt 34 = lit "12/34") ▸
      (C12_import_round_trip quoteASCII 12 34 (by decide) (by decide)).1,
   (by decide : fmtInt (-9223372036854775808) ++ lit "/" ++ fmtInt 9223372036854775807 =
        lit "-9223372036854775808/9223372036854775807") ▸
      (C12_import_round_trip quoteASCII (-9223372036854775808) 9223372036854775807
        (by decide) (by decide)).2.2⟩

/-- C13: for each of the three resource types, ImportState on an identifier
that does not split on "/" into exactly two components (the number of "/" in
it is not one) returns the single diagnostic "Incorrect Import ID", an error,
and sets no state attribute. -/
theorem C13_import_wrong_arity (quote : GoString → GoString) (reqID : GoString)
    (h : reqID.count 0x2F ≠ 1) :
    ProjectResource.ImportState quote reqID =
      { diags := [{ severity := .error, summary := lit "Incorrect Import ID",
                    detail := lit "Import ID must be in the format: account_id/project_id" }],
        attrs := [] } ∧
    InboxResource.ImportState quote reqID =
      { diags := [{ severity := .error, summary := lit "Incorrect Import ID",
                    detail := lit "Import ID must be in the format: account_id/inbox_id" }],
        attrs := [] } ∧
    SendingDomainResource.ImportState quote reqID =
      { diags := [{ severity := .error, summary := lit "Incorrect Import ID",
                    detail := lit "Import ID must be in the format: account_id/domain_id" }],
        attrs := [] } :=
  ⟨importState_wrong_arity quote _ _ _ reqID h, importState_wrong_arity quote _ _ _ reqID h,
    importState_wrong_arity quote _ _ _ reqID h⟩

theorem C13_witness :
    (ProjectResource.ImportState quoteASCII (lit "12")).diags.map (fun d => d.summary) =
      [lit "Incorrect Import ID"] ∧
    (InboxResource.ImportState quoteASCII []).attrs = [] ∧
    (SendingDomainResource.ImportState quoteASCII (lit "12/34/56")).diags.map
      (fun d => d.summary) = [lit "Incorrect Import ID"] :=
  ⟨congrArg (fun x => x.diags.map (fun d => d.summary))
      (C13_import_wrong_arity quoteASCII (lit "12") (by decide)).1,
   congrArg (fun x => x.attrs) (C13_import_wrong_arity quoteASCII [] (by decide)).2.1,
   congrArg (fun x => x.diags.map (fun d => d.summary))
      (C13_import_wrong_arity quoteASCII (lit "12/34/56") (by decide)).2.2⟩

/-- C14: for each resource type and every import identifier with exactly one
"/", between the components part0 and part1: if `strconv.ParseInt` rejects
part0, the only diagnostic is "Invalid Account ID", whatever part1 is; if it
accepts part0 and rejects part1, the only diagnostic is "Invalid Project ID",
"Invalid Inbox ID" or "Invalid Domain ID"; in both cases no state attribute is
set. -/
theorem C14_import_bad_component (quote : GoString → GoString) (part0 part1 : GoString)
    (h0 : (0x2F : UInt8) ∉ part0) (h1 : (0x2F : UInt8) ∉ part1) :
    (∀ err, strconvParseInt part0 = .error err →
      ProjectResource.ImportState quote (part0 ++ lit "/" ++ part1) =
        { diags := [{ severity := .error, summary := lit "Invalid Account ID",
                      detail := lit "Could not parse account ID: " ++
                        numErrorText quote part0 err }],
          attrs := [] } ∧
      InboxResource.ImportState quote (part0 ++ lit "/" ++ part1) =
        { diags := [{ severity := .error, summary := lit "Invalid Account ID",
                      detail := lit "Could not parse account ID: " ++
                        numErrorText quote part0 err }],
          attrs := [] } ∧
      SendingDomainResource.ImportState quote (part0 ++ lit "/" ++ part1) =
        { diags := [{ severity := .error, summary := lit "Invalid Account ID",
                      detail := lit "Could not parse account ID: " ++
                        numErrorText quote part0 err }],
          attrs := [] }) ∧
    (∀ a err, strconvParseInt part0 = .ok a → strconvParseInt part1 = .error err →
      ProjectResource.ImportState quote (part0 ++ lit "/" ++ part1) =
        { diags := [{ severity := .error, summary := lit "Invalid Project ID",
                      detail := lit "Could not parse " ++ lit "project ID" ++ lit ": " ++
                        numErrorText quote part1 err }],
          attrs := [] } ∧
      InboxResource.ImportState quote (part0 ++ lit "/" ++ part1) =
        { diags := [{ severity := .error, summary := lit "Invalid Inbox ID",
                      detail := lit "Could not parse " ++ lit "inbox ID" ++ lit ": " ++
                        numErrorText quote part1 err }],
          attrs := [] } ∧
      SendingDomainResource.ImportState quote (part0 ++ lit "/" ++ part1) =
        { diags := [{ severity := .error, summary := lit "Invalid Domain ID",
                      detail := lit "Could not parse " ++ lit "domain ID" ++ lit ": " ++
                        numErrorText quote part1 err }],
          attrs := [] }) :=
  ⟨fun err hp =>
    ⟨importState_bad_account quote _ _ _ part0 part1 err h0 h1 hp,
     importState_bad_account quote _ _ _ part0 part1 err h0 h1 hp,
     importState_bad_account quote _ _ _ part0 part1 err h0 h1 hp⟩,
   fun a err hp0 hp1 =>
    ⟨importState_bad_resource quote _ _ _ part0 part1 a err h0 h1 hp0 hp1,
     importState_bad_resource quote _ _ _ part0 part1 a err h0 h1 hp0 hp1,
     importState_bad_resource quote _ _ _ part0 part1 a err h0 h1 hp0 hp1⟩⟩

theorem C14_witness :
    ProjectResource.ImportState quoteASCII (lit "a/34") =
      { diags := [{ severity := .error, summary := lit "Invalid Account ID",
                    detail := lit "Could not parse account ID: " ++
                      numErrorText quoteASCII (lit "a") .syntaxErr }],
        attrs := [] } ∧
    InboxResource.ImportState quoteASCII (lit "a/b") =
      { diags := [{ severity := .error, summary := lit "Invalid Account ID",
                    detail := lit "Could not parse account ID: " ++
                      numErrorText quoteASCII (lit "a") .syntaxErr }],
        attrs := [] } ∧
    SendingDomainResource.ImportState quoteASCII (lit "12/b") =
      { diags := [{ severity := .error, summary := lit "Invalid Domain ID",
                    detail := lit "Could not parse " ++ lit "domain ID" ++ lit ": " ++
                      numErrorText quoteASCII (lit "b") .syntaxErr }],
        attrs := [] } :=
  ⟨((C14_import_bad_component quoteASCII (lit "a") (lit "34") (by decide) (by decide)).1
      .syntaxErr rfl).1,
   ((C14_import_bad_component quoteASCII (lit "a") (lit "b") (by decide) (by decide)).1
      .syntaxErr rfl).2.1,
   ((C14_import_bad_component quoteASCII (lit "12") (lit "b") (by decide) (by decide)).2
      12 .syntaxErr rfl rfl).2.2⟩

/-! ## Conversion of DNS records -/

/-- C15: for every remote DNSRecords value, convertDNSRecordsToTerraform
returns no diagnostic and a known (non-null) object; in each category its
list is known (non-null), as long as the remote list, and its i-th entry is a
known object with the record_type, hostname, value and status of the i-th
remote entry and its priority (null when absent); the remote value is
recovered from the result. -/
theorem C15_convert_dns_records (records : client.DNSRecords) :
    (convertDNSRecordsToTerraform records).2 = [] ∧
    (∃ m : DNSRecordsModel, (convertDNSRecordsToTerraform records).1 = .known m ∧
      ∀ cat : DNSCategory, ∃ l : List (TFValue DNSRecordModel),
        localCategory m cat = .known l ∧
        l.length = (remoteCategory records cat).length ∧
        ∀ (i : Nat) (record : client.DNSRecord),
          (remoteCategory records cat)[i]? = some record →
          ∃ e : DNSRecordModel, l[i]? = some (.known e) ∧
            e.RecordType = .known record.RecordType ∧ e.Hostname = .known record.Hostname ∧
            e.Value = .known record.Value ∧ e.Status = .known record.Status ∧
            e.Priority = (match record.Priority with
              | some p => .known p
              | none => .null)) ∧
    recoverDNSRecords (convertDNSRecordsToTerraform records).1 = some records := by
  refine ⟨rfl, ⟨_, rfl, fun cat => ?_⟩, ?_⟩
  · cases cat <;>
    · refine ⟨_, rfl, by simp [remoteCategory], fun i record hi => ?_⟩
      simp only [remoteCategory] at hi
      simp only [List.getElem?_map, hi, Option.map_some', convertDNSRecord]
      exact ⟨_, rfl, rfl, rfl, rfl, rfl, rfl⟩
  · obtain ⟨c, x, t⟩ := records
    simp only [convertDNSRecordsToTerraform, recoverDNSRecords, recoverDNSList_convert]

/-- C16: for every remote DNS record of any of the three categories, the
converted entry at the same position has a null priority exactly when the
remote priority is absent and the known priority p exactly when the remote
priority is present with value p; a present 0 gives the known value 0 and an
absent priority does not give 0. -/
theorem C16_priority_null_iff_absent (records : client.DNSRecords) (cat : DNSCategory)
    (i : Nat) (record : client.DNSRecord)
    (hi : (remoteCategory records cat)[i]? = some record) :
    ∃ (m : DNSRecordsModel) (l : List (TFValue DNSRecordModel)) (e : DNSRecordModel),
      (convertDNSRecordsToTerraform records).1 = .known m ∧
      localCategory m cat = .known l ∧ l[i]? = some (.known e) ∧
      (e.Priority = .null ↔ record.Priority = none) ∧
      (∀ p, e.Priority = .known p ↔ record.Priority = some p) ∧
      (record.Priority = some 0 → e.Priority = .known 0) ∧
      (record.Priority = none → e.Priority ≠ .known 0) := by
  have hconv : ∃ e, convertDNSRecord record = .known e ∧
      (e.Priority = .null ↔ record.Priority = none) ∧
      (∀ p, e.Priority = .known p ↔ record.Priority = some p) ∧
      (record.Priority = some 0 → e.Priority = .known 0) ∧
      (record.Priority = none → e.Priority ≠ .known 0) := by
    obtain ⟨priority, recordType, hostname, value, status⟩ := record
    cases priority with
    | none => exact ⟨_, rfl, by simp, by simp, by simp, by simp⟩
    | some p => exact ⟨_, rfl, by simp, by simp, by simp, by simp⟩
  obtain ⟨e, he, h1, h2, h3, h4⟩ := hconv
  cases cat <;>
  · simp only [remoteCategory] at hi
    refine ⟨_, _, e, rfl, rfl, ?_, h1, h2, h3, h4⟩
    simp only [List.getElem?_map, hi, Option.map_some', he]

theorem C16_witness :
    ∃ (m : DNSRecordsModel) (l : List (TFValue DNSRecordModel)) (e : DNSRecordModel),
      (convertDNSRecordsToTerraform sampleDomain.DNSRecords).1 = .known m ∧
      localCategory m .cname = .known l ∧ l[0]? = some (.known e) ∧
      (e.Priority = .null ↔ (none : Option Int) = none) ∧
      (∀ p, e.Priority = .known p ↔ (none : Option Int) = some p) ∧
      ((none : Option Int) = some 0 → e.Priority = .known 0) ∧
      ((none : Option Int) = none → e.Priority ≠ .known 0) :=
  C16_priority_null_iff_absent sampleDomain.DNSRecords .cname 0
    { Priority := none, RecordType := lit "CNAME", Hostname := lit "mail.example.com",
      Value := lit "target", Status := lit "pending" } rfl

/-! ## `Update` and `Delete` of the sending domain -/

/-- C17: for every prior state, every plan and every outcome of the remote
GET, SendingDomain Update produces exactly what SendingDomain Read produces
from the prior state, whatever the plan is; once the prior state is read, the
one request it issues is a GET to /api/accounts/{account_id}/sending_domains/{id}
built from the prior state. -/
theorem C17_update_is_read (Get : GoString → Except GoString client.SendingDomain)
    (planDiags : List Diagnostic) (plan : SendingDomainResourceModel)
    (stateDiags : List Diagnostic) (state : SendingDomainResourceModel) :
    SendingDomainResource.Update Get planDiags plan stateDiags state =
      SendingDomainResource.Read Get stateDiags state ∧
    (∀ planDiags' plan',
      SendingDomainResource.Update Get planDiags' plan' stateDiags state =
        SendingDomainResource.Update Get planDiags plan stateDiags state) ∧
    (hasError stateDiags = false →
      (SendingDomainResource.Update Get planDiags plan stateDiags state).calls =
        [(lit "GET", lit "/api/accounts/" ++ fmtInt state.AccountID.ValueInt64 ++
          lit "/sending_domains/" ++ fmtInt state.ID.ValueInt64)]) := by
  refine ⟨rfl, fun _ _ => rfl, fun hd => ?_⟩
  unfold SendingDomainResource.Update SendingDomainResource.Read
  simp only [hd, Bool.false_eq_true, if_false]
  cases Get (lit "/api/accounts/" ++ fmtInt state.AccountID.ValueInt64 ++
      lit "/sending_domains/" ++ fmtInt state.ID.ValueInt64) with
  | error e => rfl
  | ok domain => simp only [convertDNSRecordsToTerraform, List.append_nil, hd]; rfl

theorem C17_witness :
    (SendingDomainResource.Update (fun _ => .ok sampleDomain) []
        (domainPlan (.known 12345)) [] sampleDomainState).calls =
      [(lit "GET", lit "/api/accounts/" ++ fmtInt sampleDomainState.AccountID.ValueInt64 ++
        lit "/sending_domains/" ++ fmtInt sampleDomainState.ID.ValueInt64)] :=
  (C17_update_is_read (fun _ => .ok sampleDomain) [] (domainPlan (.known 12345)) []
    sampleDomainState).2.2 rfl

/-- C18: for every prior state, SendingDomain Delete issues no transport
request and adds no diagnostic to those of reading the state, so it reports
no error diagnostic. -/
theorem C18_delete_sends_nothing (stateDiags : List Diagnostic)
    (state : SendingDomainResourceModel) :
    (SendingDomainResource.Delete stateDiags state).calls = [] ∧
    (SendingDomainResource.Delete stateDiags state).diags = stateDiags ∧
    (hasError stateDiags = false →
      hasError (SendingDomainResource.Delete stateDiags state).diags = false) := by
  unfold SendingDomainResource.Delete
  cases h : hasError stateDiags <;> simp [h]

theorem C18_witness :
    hasError (SendingDomainResource.Delete [] sampleDomainState).diags = false :=
  (C18_delete_sends_nothing [] sampleDomainState).2.2 rfl

/-- C19 (as stated, refuted): SendingDomain Delete on the state of the sample
domain leaves the response without any diagnostic, so without a warning. -/
theorem C19_counterexample :
    (SendingDomainResource.Delete [] sampleDomainState).diags = [] ∧
    ¬ ∃ d ∈ (SendingDomainResource.Delete [] sampleDomainState).diags,
      d.severity = Severity.warning := by
  constructor
  · rfl
  · rintro ⟨d, hd, -⟩
    have h : (SendingDomainResource.Delete [] sampleDomainState).diags = [] := rfl
    rw [h] at hd
    exact List.not_mem_nil _ hd

/-- C19 (amended): for every prior state, SendingDomain Delete writes one
warning-level log entry stating that the domain is removed from the Terraform
state but remains in Mailtrap; it adds no diagnostic to its response. -/
theorem C19_delete_logs_warning (stateDiags : List Diagnostic)
    (state : SendingDomainResourceModel) (hd : hasError stateDiags = false) :
    (SendingDomainResource.Delete stateDiags state).logs =
      [(.warn, lit ("Sending domains cannot be deleted via API. The domain will be " ++
        "removed from Terraform state but will remain in Mailtrap."))] ∧
    (SendingDomainResource.Delete stateDiags state).diags = stateDiags := by
  unfold SendingDomainResource.Delete
  simp [hd]

theorem C19_witness :
    (SendingDomainResource.Delete [] sampleDomainState).logs =
      [(.warn, lit ("Sending domains cannot be deleted via API. The domain will be " ++
        "removed from Terraform state but will remain in Mailtrap."))] ∧
    (SendingDomainResource.Delete [] sampleDomainState).diags = [] :=
  C19_delete_logs_warning [] sampleDomainState rfl

/-! ## Transport failure in `Create` -/

/-- C20: for each resource type, when the plan was read, the account id is
resolved and the request `Create` sends fails with the error message `err`,
`Create` writes no state and its only error diagnostic is "Client Error",
whose detail ends with `err`. A response with status 400 or more is such a
failure: `Client.Post` returns the `API error` of `handleResponse` for it. -/
theorem C20_transport_failure {α : Type} (planDiags : List Diagnostic) (err : GoString)
    (hd : hasError planDiags = false) :
    (∀ (r : ProjectResource) (plan : ProjectResourceModel),
      effectiveAccountID plan.AccountID r.accountID ≠ 0 →
      r.Post (lit "/api/accounts/" ++ fmtInt (effectiveAccountID plan.AccountID r.accountID) ++
          lit "/projects") { Name := plan.Name.ValueString } = .error err →
      (r.Create planDiags plan).state = none ∧
      errorsOf (r.Create planDiags plan).diags =
        [{ severity := .error, summary := lit "Client Error",
           detail := lit "Unable to create project, got error: " ++ err }]) ∧
    (∀ (r : InboxResource) (plan : InboxResourceModel),
      effectiveAccountID plan.AccountID r.accountID ≠ 0 →
      r.Post (lit "/api/accounts/" ++ fmtInt (effectiveAccountID plan.AccountID r.accountID) ++
            lit "/projects/" ++ fmtInt plan.ProjectID.ValueInt64 ++ lit "/inboxes")
          { Name := plan.Name.ValueString,
            EmailUsername :=
              if !plan.EmailUsername.IsNull && !plan.EmailUsername.IsUnknown
              then plan.EmailUsername.ValueString else [] } = .error err →
      (r.Create planDiags plan).state = none ∧
      errorsOf (r.Create planDiags plan).diags =
        [{ severity := .error, summary := lit "Client Error",
           detail := lit "Unable to create inbox, got error: " ++ err }]) ∧
    (∀ (r : SendingDomainResource) (plan : SendingDomainResourceModel),
      effectiveAccountID plan.AccountID r.accountID ≠ 0 →
      r.Post (lit "/api/accounts/" ++ fmtInt (effectiveAccountID plan.AccountID r.accountID) ++
          lit "/sending_domains") { DomainName := plan.Name.ValueString } = .error err →
      (r.Create planDiags plan).state = none ∧
      errorsOf (r.Create planDiags plan).diags =
        [{ severity := .error, summary := lit "Client Error",
           detail := lit "Unable to create sending domain, got error: " ++ err }]) ∧
    (∀ (net : Net Response) (fmtValue : JSON → GoString) (c : Client) (endpoint : GoString)
        (body : Option (Except GoString GoString))
        (result : Option (Payload → Except GoString α)) (resp : Response) (payload : Payload),
      doRequest net c (lit "POST") endpoint body = .ok resp → resp.Body = .ok payload →
      resp.StatusCode ≥ 400 →
      ∃ text, Client.Post net fmtValue c endpoint body result =
        .err (apiError resp.StatusCode text)) := by
  refine ⟨fun r plan h0 hp => ?_, fun r plan h0 hp => ?_, fun r plan h0 hp => ?_, ?_⟩
  · obtain ⟨h1, h2⟩ := project_create_failed r planDiags plan _ err hd rfl h0 hp
    exact ⟨h1, h2 ▸ errorsOf_addError _ _ _ hd⟩
  · obtain ⟨h1, h2⟩ := inbox_create_failed r planDiags plan _ err hd rfl h0 hp
    exact ⟨h1, h2 ▸ errorsOf_addError _ _ _ hd⟩
  · obtain ⟨h1, h2⟩ := domain_create_failed r planDiags plan _ err hd rfl h0 hp
    exact ⟨h1, h2 ▸ errorsOf_addError _ _ _ hd⟩
  · intro net fmtValue c endpoint body result resp payload hreq hbody hs
    obtain ⟨text, ht⟩ := handleResponse_ge_400 fmtValue resp payload result hbody hs
    exact ⟨text, by simp only [Client.Post, hreq, ht]⟩

theorem C20_witness :
    (ProjectResource.Create ⟨12345, fun _ _ => .error (lit "API error (422): bad")⟩ []
        (projectPlan .null)).state = none ∧
    errorsOf (ProjectResource.Create ⟨12345, fun _ _ => .error (lit "API error (422): bad")⟩ []
        (projectPlan .null)).diags =
      [{ severity := .error, summary := lit "Client Error",
         detail := lit "Unable to create project, got error: " ++ lit "API error (422): bad" }] :=
  (C20_transport_failure (α := Unit) [] (lit "API error (422): bad") rfl).1
    ⟨12345, fun _ _ => .error (lit "API error (422): bad")⟩ (projectPlan .null)
    (by decide) rfl

/-! ## Lemmas: `parseInt64` -/

theorem skipSpace_of_digit_or_minus (c : UInt8) (rest : GoString) (fuel : Nat)
    (h : (0x30 ≤ c ∧ c ≤ 0x39) ∨ c = 0x2D) :
    skipSpace (fuel + 1) (c :: rest) = .ok (c :: rest) := by
  rcases c with ⟨⟨k, hk⟩⟩
  have h' : (48 ≤ k ∧ k ≤ 57) ∨ k = 45 := by
    rcases h with ⟨h1, h2⟩ | h3
    · exact Or.inl ⟨h1, h2⟩
    · right
      have := congrArg UInt8.toNat h3
      simpa using this
  rcases h' with ⟨h1, h2⟩ | h3
  · interval_cases k <;> rfl
  · subst h3; rfl

theorem isNumberByte_of_digit (b : UInt8) (h : 0x30 ≤ b ∧ b ≤ 0x39) :
    isNumberByte b = true := by
  simp [isNumberByte, h]

theorem takeWhile_digits (bs : GoString) (h : ∀ b ∈ bs, 0x30 ≤ b ∧ b ≤ 0x39) :
    bs.takeWhile isNumberByte = bs := by
  rw [List.takeWhile_eq_self_iff]
  intro b hb
  exact isNumberByte_of_digit b (h b hb)

/-- The rendering of a 64-bit integer is what `scanInt` reads back. -/
theorem scanInt_fmtInt (n : Int) (hlo : -2 ^ 63 ≤ n) (hhi : n < 2 ^ 63) :
    scanInt (fmtInt n) = .ok n ∧
    ∃ c rest, fmtInt n = c :: rest ∧ ((0x30 ≤ c ∧ c ≤ 0x39) ∨ c = 0x2D) := by
  have hparse := strconvParseInt_fmtInt n hlo hhi
  cases n with
  | ofNat m =>
    have hm : m < 2 ^ 63 := by
      have h : (m : Int) < 2 ^ 63 := hhi
      omega
    obtain ⟨-, hdig, hne⟩ := parseUint_repr m (by omega)
    have hf : fmtInt (Int.ofNat m) = lit (Nat.repr m) := rfl
    rw [hf] at hparse ⊢
    cases hs : lit (Nat.repr m) with
    | nil => exact absurd hs hne
    | cons c rest =>
      rw [hs] at hparse hdig
      have hc := hdig c (List.mem_cons_self _ _)
      have hplus : c ≠ 0x2B := by
        rintro rfl; exact absurd hc (by decide)
      have hminus : c ≠ 0x2D := by
        rintro rfl; exact absurd hc (by decide)
      refine ⟨?_, c, rest, rfl, Or.inl hc⟩
      simp only [scanInt, hplus, hminus, or_self, if_false, isNumberByte_of_digit c hc,
        if_true, List.nil_append, takeWhile_digits (c :: rest) hdig, hparse]
  | negSucc m =>
    have hm : m + 1 ≤ 2 ^ 63 := by
      have : -(2 : Int) ^ 63 ≤ -((m : Int) + 1) := by
        simpa [Int.negSucc_eq] using hlo
      omega
    obtain ⟨-, hdig, hne⟩ := parseUint_repr (m + 1) (by omega)
    have hf : fmtInt (Int.negSucc m) = 0x2D :: lit (Nat.repr (m + 1)) := by
      show lit ("-" ++ Nat.repr (m + 1)) = _
      rw [lit_append]
      rfl
    rw [hf] at hparse ⊢
    refine ⟨?_, 0x2D, _, rfl, Or.inr rfl⟩
    cases hs : lit (Nat.repr (m + 1)) with
    | nil => exact absurd hs hne
    | cons d rest =>
      rw [hs] at hparse hdig
      have hd := hdig d (List.mem_cons_self _ _)
      simp only [scanInt, or_true, if_true, isNumberByte_of_digit d hd,
        takeWhile_digits (d :: rest) hdig, List.singleton_append, hparse]

/-- An underscore is no digit for the verb `%d`: the scan stops in front of
it, and a text that starts with it holds no integer. -/
theorem parseInt64_stops_at_underscore :
    parseInt64 (lit "1_000") = .ok 1 ∧ parseInt64 (lit "_1") = .error .expectedInteger := by
  decide

theorem parseInt64_fmtInt (n : Int) (hlo : -2 ^ 63 ≤ n) (hhi : n < 2 ^ 63) :
    parseInt64 (fmtInt n) = .ok n := by
  obtain ⟨hscan, c, rest, hs, hc⟩ := scanInt_fmtInt n hlo hhi
  unfold parseInt64
  rw [hs] at hscan ⊢
  rw [List.length_cons, skipSpace_of_digit_or_minus c rest rest.length hc]
  exact hscan

/-! ## Lemmas: the account lookup -/

theorem findAccount_first (accountID : Int) (pre post : List client.Account)
    (account : client.Account) (hid : account.ID = accountID)
    (hpre : ∀ a ∈ pre, a.ID ≠ accountID) :
    findAccount accountID (pre ++ account :: post) = some account := by
  induction pre with
  | nil => simp [findAccount, hid]
  | cons a rest ih =>
    have ha : a.ID ≠ accountID := hpre a (List.mem_cons_self _ _)
    have hrest : ∀ b ∈ rest, b.ID ≠ accountID := fun b hb => hpre b (List.mem_cons_of_mem _ hb)
    simp only [List.cons_append, findAccount, ha, if_false]
    exact ih hrest

theorem findAccount_none (accountID : Int) (accounts : List client.Account)
    (h : ∀ a ∈ accounts, a.ID ≠ accountID) : findAccount accountID accounts = none := by
  induction accounts with
  | nil => rfl
  | cons a rest ih =>
    have ha : a.ID ≠ accountID := h a (List.mem_cons_self _ _)
    have hrest : ∀ b ∈ rest, b.ID ≠ accountID := fun b hb => h b (List.mem_cons_of_mem _ hb)
    simp only [findAccount, ha, if_false]
    exact ih hrest

/-! ## Lemmas: routing of the endpoints the provider builds -/

/-- Every endpoint that starts with "/api/accounts" is routed to the
client's base URL. -/
theorem selectBaseURL_accounts (c : Client) (rest : GoString) :
    10 ≤ (lit "/api/accounts" ++ rest).length ∧
    selectBaseURL c (lit "/api/accounts" ++ rest) = .ok c.baseURL := by
  have hlen : (lit "/api/accounts" ++ rest).length = 13 + rest.length := by
    rw [List.length_append]
    rfl
  have hsplit : lit "/api/accounts" ++ rest = lit "/api/accou" ++ (lit "nts" ++ rest) := by
    rw [← List.append_assoc]
    rfl
  have htake : (lit "/api/accounts" ++ rest).take 10 = lit "/api/accou" := by
    rw [hsplit]
    exact List.take_left' rfl
  have h1 := ne_send_of_long (lit "/api/accounts" ++ rest) (by omega)
  have h2 := ne_batch_of_long (lit "/api/accounts" ++ rest) (by omega)
  have h3 : 10 ≤ (lit "/api/accounts" ++ rest).length := by omega
  refine ⟨h3, ?_⟩
  have hne : lit "/api/accou" ≠ lit "/api/send/" := by decide
  simp only [selectBaseURL, sliceTo, h1, h2, or_self, if_false, h3, if_true, htake, hne]

theorem accounts_slash (rest : GoString) :
    lit "/api/accounts/" ++ rest = lit "/api/accounts" ++ (0x2F :: rest) := by
  have : lit "/api/accounts/" = lit "/api/accounts" ++ [0x2F] := rfl
  rw [this, List.append_assoc]
  rfl

/-! ## Sticky fields of the project and the identifiers kept by `Read` -/

/-- C21 (as stated, refuted): the project state written by Create has the
share links "A" and "V"; a later Read whose remote response carries the
links "A2" and "V2" succeeds with a state whose share links are "A2" and
"V2": they are taken from that response. -/
theorem C21_counterexample :
    (ProjectResource.Create ⟨12345, fun _ _ => .ok sampleProject⟩ [] (projectPlan .null)).state =
      some sampleProjectState ∧
    sampleProjectState.ShareLinks =
      .known { Admin := .known (lit "A"), Viewer := .known (lit "V") } ∧
    (ProjectResource.Read (fun _ => .ok relinkedProject) [] sampleProjectState).state =
      some { sampleProjectState with
        ShareLinks := .known { Admin := .known (lit "A2"), Viewer := .known (lit "V2") } } ∧
    (ProjectResource.Update (fun _ _ => .ok relinkedProject) [] sampleProjectState).state =
      some { sampleProjectState with
        ShareLinks := .known { Admin := .known (lit "A2"), Viewer := .known (lit "V2") } } ∧
    (.known { Admin := .known (lit "A2"), Viewer := .known (lit "V2") } :
      TFValue ShareLinksModel) ≠ sampleProjectState.ShareLinks := by
  refine ⟨rfl, rfl, rfl, rfl, by decide⟩

/-- C21 (amended): every successful project Read or Update yields a state
whose share_links are those of the remote response to that call; they equal
the links L written by Create exactly when the remote service returns L
again. -/
theorem C21_share_links_from_response (project : client.Project)
    (diags : List Diagnostic) (data : ProjectResourceModel)
    (hd : hasError diags = false) :
    (∀ Get : GoString → Except GoString client.Project,
      Get (lit "/api/accounts/" ++ fmtInt data.AccountID.ValueInt64 ++ lit "/projects/" ++
        fmtInt data.ID.ValueInt64) = .ok project →
      ∃ s, (ProjectResource.Read Get diags data).state = some s ∧
        s.ShareLinks = .known { Admin := .known project.ShareLinks.Admin,
                                Viewer := .known project.ShareLinks.Viewer }) ∧
    (∀ Patch : GoString → client.ProjectRequest → Except GoString client.Project,
      Patch (lit "/api/accounts/" ++ fmtInt data.AccountID.ValueInt64 ++ lit "/projects/" ++
        fmtInt data.ID.ValueInt64) { Name := data.Name.ValueString } = .ok project →
      ∃ s, (ProjectResource.Update Patch diags data).state = some s ∧
        s.ShareLinks = .known { Admin := .known project.ShareLinks.Admin,
                                Viewer := .known project.ShareLinks.Viewer }) := by
  constructor
  · intro Get hget
    have h : (ProjectResource.Read Get diags data).state =
        some { data with
          Name := .known project.Name,
          ShareLinks := .known { Admin := .known project.ShareLinks.Admin,
                                 Viewer := .known project.ShareLinks.Viewer } } := by
      simp only [ProjectResource.Read, hd, Bool.false_eq_true, if_false, hget]
    exact ⟨_, h, rfl⟩
  · intro Patch hpatch
    have h : (ProjectResource.Update Patch diags data).state =
        some { data with
          Name := .known project.Name,
          ShareLinks := .known { Admin := .known project.ShareLinks.Admin,
                                 Viewer := .known project.ShareLinks.Viewer } } := by
      simp only [ProjectResource.Update, hd, Bool.false_eq_true, if_false, hpatch]
    exact ⟨_, h, rfl⟩

theorem C21_witness :
    ∃ s, (ProjectResource.Read (fun _ => .ok sampleProject) [] sampleProjectState).state =
        some s ∧
      s.ShareLinks = .known { Admin := .known sampleProject.ShareLinks.Admin,
                              Viewer := .known sampleProject.ShareLinks.Viewer } :=
  (C21_share_links_from_response sampleProject [] sampleProjectState rfl).1
    (fun _ => .ok sampleProject) rfl

/-- C22 (as stated, refuted): the inbox state written by Create has id 9; a
Read whose remote response carries the id 10 succeeds with a state whose id
is 10. -/
theorem C22_counterexample :
    (InboxResource.Create ⟨12345, fun _ _ => .ok sampleInbox⟩ [] (inboxPlan .null)).state =
      some sampleInboxState ∧
    sampleInboxState.ID = .known 9 ∧
    (InboxResource.Read (fun _ => .ok otherInbox) [] sampleInboxState).state =
      some { sampleInboxState with ID := .known 10 } := by
  refine ⟨rfl, rfl, rfl⟩

/-- C22 (amended): every successful Read of a project or of a sending domain
returns a state whose id and account_id are those of the prior state,
whatever the remote response carries; every successful Read of an inbox
returns a state whose account_id is the known account id of the prior state
and whose id is the id the remote response carries. -/
theorem C22_read_keeps_identifiers :
    (∀ (Get : GoString → Except GoString client.Project) (stateDiags : List Diagnostic)
        (state s : ProjectResourceModel),
      (ProjectResource.Read Get stateDiags state).state = some s →
      s.ID = state.ID ∧ s.AccountID = state.AccountID) ∧
    (∀ (Get : GoString → Except GoString client.SendingDomain) (stateDiags : List Diagnostic)
        (state s : SendingDomainResourceModel),
      (SendingDomainResource.Read Get stateDiags state).state = some s →
      s.ID = state.ID ∧ s.AccountID = state.AccountID) ∧
    (∀ (Get : GoString → Except GoString client.Inbox) (stateDiags : List Diagnostic)
        (state s : InboxResourceModel),
      (InboxResource.Read Get stateDiags state).state = some s →
      s.AccountID = .known state.AccountID.ValueInt64 ∧
      ∃ inbox, Get (lit "/api/accounts/" ++ fmtInt state.AccountID.ValueInt64 ++
          lit "/inboxes/" ++ fmtInt state.ID.ValueInt64) = .ok inbox ∧
        s.ID = .known inbox.ID) := by
  refine ⟨?_, ?_, ?_⟩
  · intro Get stateDiags state s h
    unfold ProjectResource.Read at h
    split_ifs at h
    dsimp only at h
    split at h
    · simp at h
    · simp only [Option.some.injEq] at h
      subst h
      exact ⟨rfl, rfl⟩
  · intro Get stateDiags state s h
    unfold SendingDomainResource.Read at h
    split_ifs at h
    dsimp only at h
    split at h
    · simp at h
    · split_ifs at h
      simp only [Option.some.injEq] at h
      subst h
      exact ⟨rfl, rfl⟩
  · intro Get stateDiags state s h
    unfold InboxResource.Read at h
    split_ifs at h
    dsimp only at h
    split at h
    · simp at h
    · rename_i inbox hget
      simp only [Option.some.injEq] at h
      subst h
      exact ⟨rfl, inbox, hget, rfl⟩

theorem C22_witness :
    ∃ s, (ProjectResource.Read (fun _ => .ok relinkedProject) [] sampleProjectState).state =
        some s ∧
      s.ID = sampleProjectState.ID ∧ s.AccountID = sampleProjectState.AccountID :=
  ⟨{ sampleProjectState with
      ShareLinks := .known { Admin := .known (lit "A2"), Viewer := .known (lit "V2") } },
    rfl,
    C22_read_keeps_identifiers.1 (fun _ => .ok relinkedProject) [] sampleProjectState
      { sampleProjectState with
        ShareLinks := .known { Admin := .known (lit "A2"), Viewer := .known (lit "V2") } }
      rfl⟩

/-! ## `parseInt64` -/

/-- C23 (code bug): `parseInt64` does not reject "123.45". `fmt.Sscanf` with
the format "%d" scans the integer 123 and returns without looking at the rest
of the text, so the result is 123 with no error, where `TestParseInt64`
expects an error; "abc" and the empty string are rejected. -/
theorem C23_trailing_text_accepted :
    parseInt64 (lit "123.45") = .ok 123 ∧
    parseInt64 (lit "abc") = .error .expectedInteger ∧
    parseInt64 (lit "") = .error .eof := by
  decide

/-- C24: for every 64-bit signed integer n, parseInt64 on the base-10
rendering of n returns n with no error. -/
theorem C24_parseInt64_round_trip (n : Int) (hlo : -2 ^ 63 ≤ n) (hhi : n < 2 ^ 63) :
    parseInt64 (fmtInt n) = .ok n :=
  parseInt64_fmtInt n hlo hhi

theorem C24_witness :
    parseInt64 (lit "123") = .ok 123 ∧ parseInt64 (lit "0") = .ok 0 ∧
    parseInt64 (lit "-456") = .ok (-456) :=
  ⟨(by decide : fmtInt 123 = lit "123") ▸ C24_parseInt64_round_trip 123 (by decide) (by decide),
   (by decide : fmtInt 0 = lit "0") ▸ C24_parseInt64_round_trip 0 (by decide) (by decide),
   (by decide : fmtInt (-456) = lit "-456") ▸
     C24_parseInt64_round_trip (-456) (by decide) (by decide)⟩

/-! ## The account data source -/

/-- C25: AccountDataSource Read, once the configuration is read and the
remote service has returned the list L, with i the requested id: if L has an
account with id i, its first such account in list order gives the name, the
id of the configuration is left as it is and no diagnostic is added; if L has
no account with id i, no state is written and the only error diagnostic is
"Account Not Found", whose detail names i. -/
theorem C25_account_lookup (Get : GoString → Except GoString (List client.Account))
    (configDiags : List Diagnostic) (config : AccountDataSourceModel)
    (L : List client.Account) (hd : hasError configDiags = false)
    (hget : Get (lit "/api/accounts") = .ok L) :
    (∀ (pre post : List client.Account) (account : client.Account),
      L = pre ++ account :: post → account.ID = config.ID.ValueInt64 →
      (∀ a ∈ pre, a.ID ≠ config.ID.ValueInt64) →
      (AccountDataSource.Read Get configDiags config).state =
        some { ID := config.ID, Name := .known account.Name } ∧
      (AccountDataSource.Read Get configDiags config).diags = configDiags) ∧
    ((∀ a ∈ L, a.ID ≠ config.ID.ValueInt64) →
      (AccountDataSource.Read Get configDiags config).state = none ∧
      errorsOf (AccountDataSource.Read Get configDiags config).diags =
        [{ severity := .error, summary := lit "Account Not Found",
           detail := lit "Account with ID " ++ fmtInt config.ID.ValueInt64 ++
             lit " not found" }]) := by
  constructor
  · intro pre post account hL hid hpre
    have hfind := findAccount_first config.ID.ValueInt64 pre post account hid hpre
    rw [← hL] at hfind
    simp only [AccountDataSource.Read, hd, Bool.false_eq_true, if_false, hget, hfind, and_self]
  · intro hnone
    have hfind := findAccount_none config.ID.ValueInt64 L hnone
    simp only [AccountDataSource.Read, hd, Bool.false_eq_true, if_false, hget, hfind,
      true_and]
    exact errorsOf_addError _ _ _ hd

theorem C25_witness :
    ((AccountDataSource.Read (fun _ => .ok sampleAccounts) []
        { ID := .known 2, Name := .unknown }).state =
        some { ID := .known 2, Name := .known (lit "second") } ∧
      (AccountDataSource.Read (fun _ => .ok sampleAccounts) []
        { ID := .known 2, Name := .unknown }).diags = []) ∧
    ((AccountDataSource.Read (fun _ => .ok sampleAccounts) []
        { ID := .known 3, Name := .unknown }).state = none ∧
      errorsOf (AccountDataSource.Read (fun _ => .ok sampleAccounts) []
        { ID := .known 3, Name := .unknown }).diags =
        [{ severity := .error, summary := lit "Account Not Found",
           detail := lit "Account with ID " ++ fmtInt 3 ++ lit " not found" }]) :=
  ⟨(C25_account_lookup (fun _ => .ok sampleAccounts) [] { ID := .known 2, Name := .unknown }
      sampleAccounts rfl rfl).1
      [{ ID := 1, Name := lit "first", AccessLevels := [1000] }]
      [{ ID := 2, Name := lit "second again", AccessLevels := [10] }]
      { ID := 2, Name := lit "second", AccessLevels := [100] } rfl rfl (by decide),
   (C25_account_lookup (fun _ => .ok sampleAccounts) [] { ID := .known 3, Name := .unknown }
      sampleAccounts rfl rfl).2 (by decide)⟩

/-! ## Transport requests per operation -/

/-- C26: every lifecycle operation of every resource type and every
data-source Read issues at most one transport request, whatever its inputs
and whatever the transport answers; the three ImportState functions and
SendingDomain Delete issue none. -/
theorem C26_at_most_one_request :
    (∀ (r : ProjectResource) (diags : List Diagnostic) (plan : ProjectResourceModel),
      (r.Create diags plan).calls.length ≤ 1) ∧
    (∀ (Get : GoString → Except GoString client.Project) (diags : List Diagnostic)
        (state : ProjectResourceModel),
      (ProjectResource.Read Get diags state).calls.length ≤ 1) ∧
    (∀ (Patch : GoString → client.ProjectRequest → Except GoString client.Project)
        (diags : List Diagnostic) (plan : ProjectResourceModel),
      (ProjectResource.Update Patch diags plan).calls.length ≤ 1) ∧
    (∀ (Delete : GoString → Except GoString Unit) (diags : List Diagnostic)
        (state : ProjectResourceModel),
      (ProjectResource.Delete Delete diags state).calls.length ≤ 1) ∧
    (∀ (r : InboxResource) (diags : List Diagnostic) (plan : InboxResourceModel),
      (r.Create diags plan).calls.length ≤ 1) ∧
    (∀ (Get : GoString → Except GoString client.Inbox) (diags : List Diagnostic)
        (state : InboxResourceModel),
      (InboxResource.Read Get diags state).calls.length ≤ 1) ∧
    (∀ (Patch : GoString → client.InboxRequest → Except GoString client.Inbox)
        (diags : List Diagnostic) (plan : InboxResourceModel),
      (InboxResource.Update Patch diags plan).calls.length ≤ 1) ∧
    (∀ (Delete : GoString → Except GoString Unit) (diags : List Diagnostic)
        (state : InboxResourceModel),
      (InboxResource.Delete Delete diags state).calls.length ≤ 1) ∧
    (∀ (r : SendingDomainResource) (diags : List Diagnostic)
        (plan : SendingDomainResourceModel),
      (r.Create diags plan).calls.length ≤ 1) ∧
    (∀ (Get : GoString → Except GoString client.SendingDomain) (diags : List Diagnostic)
        (state : SendingDomainResourceModel),
      (SendingDomainResource.Read Get diags state).calls.length ≤ 1) ∧
    (∀ (Get : GoString → Except GoString client.SendingDomain)
        (planDiags : List Diagnostic) (plan : SendingDomainResourceModel)
        (diags : List Diagnostic) (state : SendingDomainResourceModel),
      (SendingDomainResource.Update Get planDiags plan diags state).calls.length ≤ 1) ∧
    (∀ (diags : List Diagnostic) (state : SendingDomainResourceModel),
      (SendingDomainResource.Delete diags state).calls = []) ∧
    (∀ (quote : GoString → GoString) (reqID : GoString),
      (ProjectResource.ImportState quote reqID).calls = [] ∧
      (InboxResource.ImportState quote reqID).calls = [] ∧
      (SendingDomainResource.ImportState quote reqID).calls = []) ∧
    (∀ (Get : GoString → Except GoString (List client.Account)) (diags : List Diagnostic)
        (config : AccountDataSourceModel),
      (AccountDataSource.Read Get diags config).calls.length ≤ 1) ∧
    (∀ (accountID : Int) (Get : GoString → Except GoString client.Project)
        (diags : List Diagnostic) (config : ProjectDataSourceModel),
      (ProjectDataSource.Read accountID Get diags config).calls.length ≤ 1) ∧
    (∀ (accountID : Int) (Get : GoString → Except GoString client.Inbox)
        (diags : List Diagnostic) (config : InboxDataSourceModel),
      (InboxDataSource.Read accountID Get diags config).calls.length ≤ 1) ∧
    (∀ (accountID : Int) (Get : GoString → Except GoString client.SendingDomain)
        (diags : List Diagnostic) (config : SendingDomainDataSourceModel),
      (SendingDomainDataSource.Read accountID Get diags config).calls.length ≤ 1) := by
  have himport : ∀ (quote : GoString → GoString) (a b c reqID : GoString),
      (importState quote a b c reqID).calls = [] := by
    intro quote a b c reqID
    unfold importState
    split
    · split
      · rfl
      · split <;> rfl
    · rfl
  refine ⟨?_, ?_, ?_, ?_, ?_, ?_, ?_, ?_, ?_, ?_, ?_, ?_, ?_, ?_, ?_, ?_, ?_⟩
  · intro r diags plan
    unfold ProjectResource.Create
    dsimp only
    repeat' split
    all_goals simp
  · intro Get diags state
    unfold ProjectResource.Read
    dsimp only
    repeat' split
    all_goals simp
  · intro Patch diags plan
    unfold ProjectResource.Update
    dsimp only
    repeat' split
    all_goals simp
  · intro Delete diags state
    unfold ProjectResource.Delete
    dsimp only
    repeat' split
    all_goals simp
  · intro r diags plan
    unfold InboxResource.Create
    dsimp only
    repeat' split
    all_goals simp
  · intro Get diags state
    unfold InboxResource.Read
    dsimp only
    repeat' split
    all_goals simp
  · intro Patch diags plan
    unfold InboxResource.Update
    dsimp only
    repeat' split
    all_goals simp
  · intro Delete diags state
    unfold InboxResource.Delete
    dsimp only
    repeat' split
    all_goals simp
  · intro r diags plan
    unfold SendingDomainResource.Create
    dsimp only
    repeat' split
    all_goals simp
  · intro Get diags state
    unfold SendingDomainResource.Read
    dsimp only
    repeat' split
    all_goals simp
  · intro Get planDiags plan diags state
    unfold SendingDomainResource.Update SendingDomainResource.Read
    dsimp only
    repeat' split
    all_goals simp
  · intro diags state
    unfold SendingDomainResource.Delete
    split_ifs <;> rfl
  · intro quote reqID
    exact ⟨himport quote _ _ _ reqID, himport quote _ _ _ reqID, himport quote _ _ _ reqID⟩
  · intro Get diags config
    unfold AccountDataSource.Read
    dsimp only
    repeat' split
    all_goals simp
  · intro accountID Get diags config
    unfold ProjectDataSource.Read
    dsimp only
    repeat' split
    all_goals simp
  · intro accountID Get diags config
    unfold InboxDataSource.Read
    dsimp only
    repeat' split
    all_goals simp
  · intro accountID Get diags config
    unfold SendingDomainDataSource.Read
    dsimp only
    repeat' split
    all_goals simp

/-! ## Classification of the schema attributes -/

/-- C27 (as stated, refuted): in the schema of the project, `account_id`
belongs to three of the four classes (optional input, computed/sticky and
replacement-triggering); in the schema of the sending domain, `name` belongs
to two (required input and replacement-triggering) and `status`, computed
without `UseStateForUnknown`, to none. -/
theorem C27_counterexample :
    accountIDAttr ∈ projectSchema ∧
    classesOf accountIDAttr = [.optionalInput, .computedSticky, .replacementTriggering] ∧
    (∃ a ∈ sendingDomainSchema, a.path = lit "name" ∧
      classesOf a = [.requiredInput, .replacementTriggering]) ∧
    (∃ a ∈ sendingDomainSchema, a.path = lit "status" ∧ classesOf a = []) := by
  decide

/-- C27 (amended): in the schema of each of the three resource types, every
attribute has exactly one source of its value: required input, optional
input with a computed default, or computed only. The plan modifiers combine
with the source instead of excluding it: `UseStateForUnknown` (sticky) is
found on computed attributes only, `RequiresReplace` on inputs only;
`account_id` is optional input, sticky and replacement-triggering at once in
all three schemas; `project_id` of the inbox and `name` of the sending domain
are required input and replacement-triggering; no attribute is both required
and optional. -/
theorem C27_schema_classes :
    (∀ a ∈ projectSchema ++ inboxSchema ++ sendingDomainSchema,
      (sourceOf a).isSome = true ∧
      (PlanModifier.UseStateForUnknown ∈ a.PlanModifiers → a.Computed = true) ∧
      (PlanModifier.RequiresReplace ∈ a.PlanModifiers →
        a.Required = true ∨ a.Optional = true) ∧
      ¬ (a.Required = true ∧ a.Optional = true)) ∧
    (accountIDAttr ∈ projectSchema ∧ accountIDAttr ∈ inboxSchema ∧
      accountIDAttr ∈ sendingDomainSchema) ∧
    classesOf accountIDAttr = [.optionalInput, .computedSticky, .replacementTriggering] ∧
    (∀ a ∈ inboxSchema, a.path = lit "project_id" →
      classesOf a = [.requiredInput, .replacementTriggering]) ∧
    (∀ a ∈ sendingDomainSchema, a.path = lit "name" →
      classesOf a = [.requiredInput, .replacementTriggering]) := by
  decide

/-! ## The request body of the inbox -/

/-- C28 (as stated, refuted): with the declared email_username known and
empty, the body Create and Update serialize has the inner object with `name`
only: `omitempty` leaves the empty `email_username` out. -/
theorem C28_counterexample :
    ({ inboxPlan (.known 12345) with EmailUsername := .known [] } :
      InboxResourceModel).EmailUsername = .known [] ∧
    innerKeys (marshalInboxRequest
      (inboxRequest { inboxPlan (.known 12345) with EmailUsername := .known [] })) =
      [lit "name"] := by
  decide

/-- C28 (amended): for Inbox Create and Update, the serialized request body
is the envelope `inbox` around an object that always has `name` and has
`email_username`, with the declared value, exactly when the declared
email_username is known and is not the empty string; the object has no other
member. Create, once the account id is resolved, and Update send the request
built this way. -/
theorem C28_inbox_request_body (data : InboxResourceModel) :
    marshalInboxRequest (inboxRequest data) =
      .obj [(lit "inbox",
        .obj ((lit "name", .str data.Name.ValueString) ::
          (match data.EmailUsername with
            | .known v => if v = [] then [] else [(lit "email_username", .str v)]
            | _ => [])))] ∧
    (∀ (r : InboxResource) (diags : List Diagnostic), hasError diags = false →
      effectiveAccountID data.AccountID r.accountID ≠ 0 →
      (∀ err, r.Post (lit "/api/accounts/" ++
            fmtInt (effectiveAccountID data.AccountID r.accountID) ++ lit "/projects/" ++
            fmtInt data.ProjectID.ValueInt64 ++ lit "/inboxes") (inboxRequest data) =
          .error err →
        (r.Create diags data).state = none) ∧
      (∀ inbox, r.Post (lit "/api/accounts/" ++
            fmtInt (effectiveAccountID data.AccountID r.accountID) ++ lit "/projects/" ++
            fmtInt data.ProjectID.ValueInt64 ++ lit "/inboxes") (inboxRequest data) =
          .ok inbox →
        (r.Create diags data).state = some (updateModelFromInbox inbox
          (effectiveAccountID data.AccountID r.accountID)))) ∧
    (∀ (Patch : GoString → client.InboxRequest → Except GoString client.Inbox)
        (diags : List Diagnostic), hasError diags = false →
      (∀ err, Patch (lit "/api/accounts/" ++ fmtInt data.AccountID.ValueInt64 ++
            lit "/inboxes/" ++ fmtInt data.ID.ValueInt64) (inboxRequest data) = .error err →
        (InboxResource.Update Patch diags data).state = none) ∧
      (∀ inbox, Patch (lit "/api/accounts/" ++ fmtInt data.AccountID.ValueInt64 ++
            lit "/inboxes/" ++ fmtInt data.ID.ValueInt64) (inboxRequest data) = .ok inbox →
        (InboxResource.Update Patch diags data).state =
          some (updateModelFromInbox inbox data.AccountID.ValueInt64))) := by
  refine ⟨?_, ?_, ?_⟩
  · unfold marshalInboxRequest inboxRequest
    cases h : data.EmailUsername with
    | null => simp [TFValue.IsNull]
    | unknown => simp [TFValue.IsNull, TFValue.IsUnknown]
    | known v =>
      by_cases hv : v = []
      · simp [TFValue.IsNull, TFValue.IsUnknown, TFValue.ValueString, hv]
      · simp [TFValue.IsNull, TFValue.IsUnknown, TFValue.ValueString, hv]
  · intro r diags hd h0
    unfold effectiveAccountID at h0
    constructor
    · intro err hp
      unfold effectiveAccountID at hp
      unfold inboxRequest at hp
      unfold InboxResource.Create
      simp only [hd, Bool.false_eq_true, if_false, h0, hp]
    · intro inbox hp
      unfold effectiveAccountID at hp ⊢
      unfold inboxRequest at hp
      unfold InboxResource.Create
      simp only [hd, Bool.false_eq_true, if_false, h0, hp]
  · intro Patch diags hd
    constructor
    · intro err hp
      simp only [InboxResource.Update, hd, Bool.false_eq_true, if_false, hp]
    · intro inbox hp
      simp only [InboxResource.Update, hd, Bool.false_eq_true, if_false, hp]

theorem C28_witness :
    (InboxResource.Update (fun _ _ => .ok sampleInbox) []
        { sampleInboxState with EmailUsername := .known (lit "box") }).state =
      some (updateModelFromInbox sampleInbox
        ({ sampleInboxState with EmailUsername := .known (lit "box") } :
          InboxResourceModel).AccountID.ValueInt64) ∧
    innerKeys (marshalInboxRequest
      (inboxRequest { sampleInboxState with EmailUsername := .known (lit "box") })) =
      [lit "name", lit "email_username"] :=
  ⟨((C28_inbox_request_body { sampleInboxState with EmailUsername := .known (lit "box") }).2.2
      (fun _ _ => .ok sampleInbox) [] rfl).2 sampleInbox rfl,
   congrArg innerKeys
     (C28_inbox_request_body { sampleInboxState with EmailUsername := .known (lit "box") }).1⟩

/-! ## Routing of the provider's endpoints, and the two DNS conversions -/

/-- C29: for every account id, project id and resource id, each endpoint the
resources and data sources build is at least 10 bytes long and `doRequest`
selects the client's base URL for it, without failure. -/
theorem C29_provider_endpoints_use_default_base (c : Client) (a p id : Int) :
    (10 ≤ (lit "/api/accounts").length ∧
      selectBaseURL c (lit "/api/accounts") = .ok c.baseURL) ∧
    (10 ≤ (lit "/api/accounts/" ++ fmtInt a ++ lit "/projects").length ∧
      selectBaseURL c (lit "/api/accounts/" ++ fmtInt a ++ lit "/projects") =
        .ok c.baseURL) ∧
    (10 ≤ (lit "/api/accounts/" ++ fmtInt a ++ lit "/projects/" ++ fmtInt id).length ∧
      selectBaseURL c (lit "/api/accounts/" ++ fmtInt a ++ lit "/projects/" ++ fmtInt id) =
        .ok c.baseURL) ∧
    (10 ≤ (lit "/api/accounts/" ++ fmtInt a ++ lit "/projects/" ++ fmtInt p ++
        lit "/inboxes").length ∧
      selectBaseURL c (lit "/api/accounts/" ++ fmtInt a ++ lit "/projects/" ++ fmtInt p ++
        lit "/inboxes") = .ok c.baseURL) ∧
    (10 ≤ (lit "/api/accounts/" ++ fmtInt a ++ lit "/inboxes/" ++ fmtInt id).length ∧
      selectBaseURL c (lit "/api/accounts/" ++ fmtInt a ++ lit "/inboxes/" ++ fmtInt id) =
        .ok c.baseURL) ∧
    (10 ≤ (lit "/api/accounts/" ++ fmtInt a ++ lit "/sending_domains").length ∧
      selectBaseURL c (lit "/api/accounts/" ++ fmtInt a ++ lit "/sending_domains") =
        .ok c.baseURL) ∧
    (10 ≤ (lit "/api/accounts/" ++ fmtInt a ++ lit "/sending_domains/" ++ fmtInt id).length ∧
      selectBaseURL c (lit "/api/accounts/" ++ fmtInt a ++ lit "/sending_domains/" ++
        fmtInt id) = .ok c.baseURL) := by
  refine ⟨?_, ?_, ?_, ?_, ?_, ?_, ?_⟩
  · simpa using selectBaseURL_accounts c []
  all_goals
    simp only [List.append_assoc]
    rw [accounts_slash]
    exact selectBaseURL_accounts c _

/-- C30: the resource's and the data source's convertDNSRecordsToTerraform
return equal objects and equal diagnostics for every remote DNSRecords
value. -/
theorem C30_dns_conversions_agree (records : client.DNSRecords) :
    SendingDomainDataSource.convertDNSRecordsToTerraform records =
      convertDNSRecordsToTerraform records := by
  have hrec : dataSourceConvertDNSRecord = convertDNSRecord := by
    funext record
    rfl
  simp only [SendingDomainDataSource.convertDNSRecordsToTerraform,
    convertDNSRecordsToTerraform, hrec, List.append_nil]
end Mailtrap
